import Mathlib

/-!
# GreenMines: the impact-calculation controllers of `Backend/controller/sink.js`

A shallow embedding of the five request handlers of `sink.js`
(`createSink`, `createExistingSink`, `calculateRenewableImpact`,
`calculateCCS`, `calculateMCS`) together with the fragment of JavaScript they
rely on: truthiness, `Number(...)`, `isNaN`, `||`, property lookup on an
object literal, and the arithmetic and comparison operators on numbers.

Numbers.  A JavaScript number is modelled by `JSNum`: a rational, one of the
two infinities, or `NaN`; the special values follow IEEE 754 / ECMAScript.  The
development has two layers.  The first computes with exact rationals and is
used for the properties in which rounding plays no part (validation, lookup,
status codes, signs).  The second, `Binary64`, rounds every arithmetic result
to the nearest binary64 number (ties to even, gradual underflow, overflow to an
infinity) and lets a conversion throw; it is used for every property that
depends on the value of a quotient, a ceiling, a floor or an identity between
computed numbers.  The sign of zero is not modelled.

Values.  A field of `req.body` is a `JSVal`: `undefined` (the field is
absent), `null`, a boolean, a number, a string, or an object (array, plain
object or function) represented by the string its default `ToPrimitive`
conversion produces.

Persistence.  `new Model(...).save()` is an external collaborator; the
handlers take a flag telling whether the write succeeded.  Response strings
(`toFixed`, `toLocaleString`) are not modelled: a response carries the numbers
that are formatted.
-/

namespace GreenMines

/-! ## Numbers -/

/-- A JavaScript number: exact finite value, `Infinity`, `-Infinity` or `NaN`. -/
inductive JSNum where
  | fin (q : ℚ)
  | posInf
  | negInf
  | nan
  deriving DecidableEq, Repr

namespace JSNum

/-- Unary minus. -/
def neg : JSNum → JSNum
  | fin a => fin (-a)
  | posInf => negInf
  | negInf => posInf
  | nan => nan

/-- The `+` operator on numbers. -/
def add : JSNum → JSNum → JSNum
  | nan, _ => nan
  | _, nan => nan
  | fin a, fin b => fin (a + b)
  | fin _, posInf => posInf
  | fin _, negInf => negInf
  | posInf, negInf => nan
  | posInf, _ => posInf
  | negInf, posInf => nan
  | negInf, _ => negInf

/-- The binary `-` operator on numbers. -/
def sub (x y : JSNum) : JSNum := add x (neg y)

/-- An infinity of the sign of `a`, or `NaN` when `a = 0` (used by `mul`). -/
def infTimes (a : ℚ) (positive : Bool) : JSNum :=
  if a = 0 then nan
  else if (0 < a) = positive then posInf else negInf

/-- The `*` operator on numbers. -/
def mul : JSNum → JSNum → JSNum
  | nan, _ => nan
  | _, nan => nan
  | fin a, fin b => fin (a * b)
  | fin a, posInf => infTimes a true
  | fin a, negInf => infTimes a false
  | posInf, fin b => infTimes b true
  | negInf, fin b => infTimes b false
  | posInf, posInf => posInf
  | posInf, negInf => negInf
  | negInf, posInf => negInf
  | negInf, negInf => posInf

/-- The `/` operator on numbers.  A finite non-zero value divided by zero is an
infinity of the sign of the dividend (the zero divisor is taken as `+0`). -/
def div : JSNum → JSNum → JSNum
  | nan, _ => nan
  | _, nan => nan
  | fin a, fin b =>
      if b = 0 then
        (if a = 0 then nan else if 0 < a then posInf else negInf)
      else fin (a / b)
  | fin _, posInf => fin 0
  | fin _, negInf => fin 0
  | posInf, fin b => if 0 ≤ b then posInf else negInf
  | negInf, fin b => if 0 ≤ b then negInf else posInf
  | posInf, _ => nan
  | negInf, _ => nan

instance : Add JSNum := ⟨add⟩
instance : Sub JSNum := ⟨sub⟩
instance : Mul JSNum := ⟨mul⟩
instance : Div JSNum := ⟨div⟩

/-- The `<=` operator on numbers (false as soon as an operand is `NaN`). -/
def le : JSNum → JSNum → Bool
  | nan, _ => false
  | _, nan => false
  | fin a, fin b => decide (a ≤ b)
  | negInf, _ => true
  | _, posInf => true
  | _, _ => false

/-- The `<` operator on numbers (false as soon as an operand is `NaN`). -/
def lt : JSNum → JSNum → Bool
  | nan, _ => false
  | _, nan => false
  | fin a, fin b => decide (a < b)
  | posInf, _ => false
  | _, negInf => false
  | _, _ => true

/-- The `>=` operator. -/
def ge (x y : JSNum) : Bool := le y x

/-- The `>` operator. -/
def gt (x y : JSNum) : Bool := lt y x

/-- The global `isNaN` applied to a number. -/
def isNaN : JSNum → Bool
  | nan => true
  | _ => false

/-- The global `isFinite` applied to a number. -/
def isFinite : JSNum → Bool
  | fin _ => true
  | _ => false

/-- Rounding up to an integer, `Math.ceil`. -/
def ceil : JSNum → JSNum
  | fin a => fin (⌈a⌉ : ℤ)
  | x => x

/-- Rounding down to an integer, `Math.floor`. -/
def floor : JSNum → JSNum
  | fin a => fin (⌊a⌋ : ℤ)
  | x => x

/-- Strictly positive numbers: a positive rational or `Infinity`. -/
def IsPos : JSNum → Prop
  | fin q => 0 < q
  | posInf => True
  | _ => False

end JSNum

/-! ## Reading a number out of a string (`StringToNumber`) -/

/-- The characters `StrWhiteSpaceChar` of ECMAScript: white space and line
terminators. -/
def isStrWhiteSpaceChar (c : Char) : Bool :=
  let n := c.toNat
  n = 0x09 || n = 0x0A || n = 0x0B || n = 0x0C || n = 0x0D || n = 0x20 ||
  n = 0xA0 || n = 0x1680 || (0x2000 ≤ n && n ≤ 0x200A) || n = 0x2028 ||
  n = 0x2029 || n = 0x202F || n = 0x205F || n = 0x3000 || n = 0xFEFF

/-- Removes leading and trailing white space. -/
def trimWhiteSpace (cs : List Char) : List Char :=
  ((cs.dropWhile isStrWhiteSpaceChar).reverse.dropWhile isStrWhiteSpaceChar).reverse

/-- The value of a digit in the given base (bases up to 16). -/
def digitValue (base : ℕ) (c : Char) : Option ℕ :=
  let n := c.toNat
  let v : Option ℕ :=
    if 48 ≤ n ∧ n ≤ 57 then some (n - 48)
    else if 97 ≤ n ∧ n ≤ 102 then some (n - 87)
    else if 65 ≤ n ∧ n ≤ 70 then some (n - 55)
    else none
  v.bind fun d => if d < base then some d else none

/-- Reads a possibly empty run of digits after the accumulated value `acc`;
`none` when a character is not a digit of the base. -/
def readDigits (base : ℕ) : ℕ → List Char → Option ℕ
  | acc, [] => some acc
  | acc, c :: cs => (digitValue base c).bind fun d => readDigits base (acc * base + d) cs

/-- Reads a non-empty run of digits. -/
def readDigits1 (base : ℕ) (cs : List Char) : Option ℕ :=
  if cs.isEmpty then none else readDigits base 0 cs

/-- Reads `SignedInteger`: decimal digits with an optional sign. -/
def readSignedInteger : List Char → Option ℤ
  | '+' :: cs => (readDigits1 10 cs).map fun n => (n : ℤ)
  | '-' :: cs => (readDigits1 10 cs).map fun n => -(n : ℤ)
  | cs => (readDigits1 10 cs).map fun n => (n : ℤ)

/-- Reads the mantissa of a decimal literal: `digits`, `digits.`, `digits.digits`
or `.digits`. -/
def readMantissa (cs : List Char) : Option ℚ :=
  match cs.span (fun c => c != '.') with
  | (ip, []) => (readDigits1 10 ip).map fun n => (n : ℚ)
  | (ip, _ :: fp) =>
      if ip.isEmpty && fp.isEmpty then none
      else
        (readDigits 10 0 ip).bind fun i =>
          (readDigits 10 0 fp).map fun f => (i : ℚ) + (f : ℚ) / (10 : ℚ) ^ fp.length

/-- Reads `StrUnsignedDecimalLiteral` other than `Infinity`: a mantissa with an
optional exponent part. -/
def readUnsignedDecimal (cs : List Char) : Option ℚ :=
  match cs.span (fun c => c != 'e' && c != 'E') with
  | (m, []) => readMantissa m
  | (m, _ :: ex) =>
      (readMantissa m).bind fun q =>
        (readSignedInteger ex).map fun k => q * (10 : ℚ) ^ k

/-- Reads `StrUnsignedDecimalLiteral`. -/
def readUnsigned (cs : List Char) : JSNum :=
  if cs = "Infinity".toList then JSNum.posInf
  else match readUnsignedDecimal cs with
    | some q => JSNum.fin q
    | none => JSNum.nan

/-- Reads `StrNumericLiteral` from a trimmed, non-empty string: a hexadecimal,
octal or binary integer literal (unsigned), or a signed decimal literal. -/
def readNumericLiteral : List Char → JSNum
  | '0' :: 'x' :: cs | '0' :: 'X' :: cs =>
      match readDigits1 16 cs with
      | some n => JSNum.fin n
      | none => JSNum.nan
  | '0' :: 'o' :: cs | '0' :: 'O' :: cs =>
      match readDigits1 8 cs with
      | some n => JSNum.fin n
      | none => JSNum.nan
  | '0' :: 'b' :: cs | '0' :: 'B' :: cs =>
      match readDigits1 2 cs with
      | some n => JSNum.fin n
      | none => JSNum.nan
  | '+' :: cs => readUnsigned cs
  | '-' :: cs => JSNum.neg (readUnsigned cs)
  | cs => readUnsigned cs

/-- The abstract operation `StringToNumber`: the empty or all-blank string is
`0`, a numeric literal is its value, anything else is `NaN`. -/
def stringToNumber (s : String) : JSNum :=
  let cs := trimWhiteSpace s.toList
  if cs.isEmpty then JSNum.fin 0 else readNumericLiteral cs

/-! ## Values of request fields -/

/-- A value found in a field of `req.body`.  `obj prim` is an object, array or
function; `prim` is the string its default conversion to a primitive yields
(`""` for `[]`, `"5"` for `[5]`, `"[object Object]"` for a plain object). -/
inductive JSVal where
  | undefined
  | null
  | bool (b : Bool)
  | num (n : JSNum)
  | str (s : String)
  | obj (prim : String)
  deriving DecidableEq, Repr

namespace JSVal

/-- The abstract operation `ToBoolean`: the falsy values are `undefined`,
`null`, `false`, `0`, `NaN` and the empty string. -/
def truthy : JSVal → Bool
  | undefined => false
  | null => false
  | bool b => b
  | num n => !(n = JSNum.nan || n = JSNum.fin 0)
  | str s => !(s = "")
  | obj _ => true

/-- The conversion `Number(value)` (the abstract operation `ToNumber`). -/
def toNumber : JSVal → JSNum
  | undefined => JSNum.nan
  | null => JSNum.fin 0
  | bool b => if b then JSNum.fin 1 else JSNum.fin 0
  | num n => n
  | str s => stringToNumber s
  | obj prim => stringToNumber prim

/-- The operator `a || b`: `a` when it is truthy, otherwise `b`. -/
def orElse (a b : JSVal) : JSVal := if a.truthy then a else b

/-- The property key a value denotes in `table[value]`.  A number is printed
as a numeric string (digits, sign, `Infinity`, `NaN`), which names no property
of the tables of this file nor of `Object.prototype`: it is given as `none`. -/
def propertyKey : JSVal → Option String
  | undefined => some "undefined"
  | null => some "null"
  | bool b => some (if b then "true" else "false")
  | num _ => none
  | str s => some s
  | obj prim => some prim

end JSVal

/-- The properties every object literal inherits from `Object.prototype`:
eleven functions and the accessor `__proto__`, which yields the prototype
object.  All are objects, hence truthy, and none converts to a number. -/
def objectPrototypeMember (key : String) : Option JSVal :=
  if key = "__proto__" then some (JSVal.obj "[object Object]")
  else if key ∈ ["constructor", "hasOwnProperty", "isPrototypeOf",
      "propertyIsEnumerable", "toLocaleString", "toString", "valueOf",
      "__defineGetter__", "__defineSetter__", "__lookupGetter__",
      "__lookupSetter__"] then
    some (JSVal.obj ("function " ++ (if key = "constructor" then "Object" else key)
      ++ "() \x7b [native code] \x7d"))
  else none

/-- The outcome of `table[key]` on an object literal. -/
inductive Property (α : Type) where
  | own (a : α)
  | inherited (v : JSVal)
  | absent
  deriving DecidableEq, Repr

/-- Property access `table[key]` on an object literal whose own properties are
`table`: an own property first, then the prototype chain. -/
def getProperty {α : Type} (table : List (String × α)) (key : JSVal) : Property α :=
  match key.propertyKey with
  | none => Property.absent
  | some k =>
      match table.lookup k with
      | some a => Property.own a
      | none =>
          match objectPrototypeMember k with
          | some v => Property.inherited v
          | none => Property.absent

/-- What a handler sends back: `res.status(status).json(data)` on the computing
path, or an error status with its message. -/
inductive Response (α : Type) where
  | ok (status : ℕ) (data : α)
  | error (status : ℕ) (message : String)
  deriving DecidableEq, Repr

/-! ## Sink calculator (`createSink`, `createExistingSink`) -/

/-- The fields read from `req.body` by the two sink handlers. -/
structure SinkBody where
  name : JSVal
  vegetationType : JSVal
  areaCovered : JSVal
  carbonSequestrationRate : JSVal
  location : JSVal
  additionalDetails : JSVal
  timeframe : JSVal
  deriving DecidableEq, Repr

/-- The numbers of a sink response (before `toFixed(2)`), and the period
`timeframe || 1` shown after "over". -/
structure SinkData where
  dailySequestrationRate : JSNum
  totalSequestration : JSNum
  period : JSVal
  deriving DecidableEq, Repr

/-- The handler `createSink` (sink.js, lines 7-53); `saved` tells whether
`newSink.save()` succeeded. -/
def createSink (saved : Bool) (body : SinkBody) : Response SinkData :=
  let dailySequestrationRate :=
    body.areaCovered.toNumber * body.carbonSequestrationRate.toNumber / JSNum.fin 365
  let totalSequestration :=
    body.areaCovered.toNumber * body.carbonSequestrationRate.toNumber *
      (body.timeframe.orElse (JSVal.num (JSNum.fin 1))).toNumber
  if saved then
    Response.ok 201
      { dailySequestrationRate := dailySequestrationRate
        totalSequestration := totalSequestration
        period := body.timeframe.orElse (JSVal.num (JSNum.fin 1)) }
  else Response.error 500 "Server error"

/-- The handler `createExistingSink` (sink.js, lines 55-102). -/
def createExistingSink (saved : Bool) (body : SinkBody) : Response SinkData :=
  let dailySequestrationRate := body.carbonSequestrationRate.toNumber / JSNum.fin 365
  let totalSequestration :=
    body.areaCovered.toNumber * body.carbonSequestrationRate.toNumber *
      (body.timeframe.orElse (JSVal.num (JSNum.fin 1))).toNumber
  if saved then
    Response.ok 201
      { dailySequestrationRate := dailySequestrationRate
        totalSequestration := totalSequestration
        period := body.timeframe.orElse (JSVal.num (JSNum.fin 1)) }
  else Response.error 500 "Server error"

/-- A sink request used in the worked examples: the given area, rate and
timeframe, the rate being sent as a JSON value of any kind. -/
def groveRequest (area rate timeframe : JSVal) : SinkBody :=
  { name := JSVal.str "Grove"
    vegetationType := JSVal.str "Forest"
    areaCovered := area
    carbonSequestrationRate := rate
    location := JSVal.undefined
    additionalDetails := JSVal.undefined
    timeframe := timeframe }

/-! ## Renewable deployment sizer (`calculateRenewableImpact`) -/

/-- The fields read from `req.body` by `calculateRenewableImpact`. -/
structure RenewableBody where
  solutionName : JSVal
  co2EmissionsPerDay : JSVal
  selectedRenewable : JSVal
  desiredReductionPercentage : JSVal
  availableLand : JSVal
  deriving DecidableEq, Repr

/-- One entry of `renewableOptions`. -/
structure RenewableOption where
  co2ReductionPerUnit : ℚ
  landRequirementPerUnit : ℚ
  costPerUnit : ℚ
  timeMultiplier : ℚ
  deriving DecidableEq, Repr

/-- The table `renewableOptions` (sink.js, lines 130-155). -/
def renewableOptions : List (String × RenewableOption) :=
  [ ("Solar",
      { co2ReductionPerUnit := 0.4, landRequirementPerUnit := 0.01,
        costPerUnit := 8000, timeMultiplier := 1.5 }),
    ("Wind",
      { co2ReductionPerUnit := 1.5, landRequirementPerUnit := 0.05,
        costPerUnit := 300000, timeMultiplier := 2 }),
    ("Hydropower",
      { co2ReductionPerUnit := 5, landRequirementPerUnit := 2,
        costPerUnit := 5000000, timeMultiplier := 3 }),
    ("HydrogenElectric",
      { co2ReductionPerUnit := 3, landRequirementPerUnit := 1,
        costPerUnit := 2000000, timeMultiplier := 2.5 }) ]

namespace Property

/-- Truthiness of a looked-up table entry: an own entry is an object. -/
def truthy {α : Type} : Property α → Bool
  | own _ => true
  | inherited v => v.truthy
  | absent => false

/-- The number read by `renewable.co2ReductionPerUnit`: the field of an own
entry; an inherited member has no such field, and `undefined` converts to `NaN`. -/
def co2ReductionPerUnit : Property RenewableOption → JSNum
  | own r => JSNum.fin r.co2ReductionPerUnit
  | _ => JSVal.undefined.toNumber

/-- The number read by `renewable.landRequirementPerUnit`. -/
def landRequirementPerUnit : Property RenewableOption → JSNum
  | own r => JSNum.fin r.landRequirementPerUnit
  | _ => JSVal.undefined.toNumber

/-- The number read by `renewable.costPerUnit`. -/
def costPerUnit : Property RenewableOption → JSNum
  | own r => JSNum.fin r.costPerUnit
  | _ => JSVal.undefined.toNumber

end Property

/-- The three variables assigned by the land branches (sink.js, lines 167-191). -/
structure Deployment where
  totalReductionPerDay : JSNum
  timeToAchieveNeutrality : JSNum
  implementationCost : JSNum
  deriving DecidableEq, Repr

/-- The numbers of a renewable response, before formatting. -/
structure RenewableData where
  implementationCost : JSNum
  targetCo2Reduction : JSNum
  totalCo2ReductionPerDay : JSNum
  landProvided : JSNum
  timeToAchieveNeutrality : JSNum
  carbonCreditsSavedPerDay : JSNum
  carbonCreditsSavedPerYear : JSNum
  costOfCarbonCreditsSavedPerYear : JSNum
  deriving DecidableEq, Repr

/-- The land branches of `calculateRenewableImpact` (sink.js, lines 171-191). -/
def deployment (renewable : Property RenewableOption)
    (targetCo2Reduction requiredUnits landRequired availableLandNum : JSNum) : Deployment :=
  if availableLandNum.ge landRequired then
    let totalReductionPerDay := requiredUnits * renewable.co2ReductionPerUnit
    { totalReductionPerDay := totalReductionPerDay
      timeToAchieveNeutrality := (targetCo2Reduction / totalReductionPerDay).ceil
      implementationCost := requiredUnits * renewable.costPerUnit }
  else
    let deployableUnits := (availableLandNum / renewable.landRequirementPerUnit).floor
    let totalReductionPerDay := deployableUnits * renewable.co2ReductionPerUnit
    if totalReductionPerDay.gt (JSNum.fin 0) then
      { totalReductionPerDay := totalReductionPerDay
        timeToAchieveNeutrality := (targetCo2Reduction / totalReductionPerDay).ceil
        implementationCost := deployableUnits * renewable.costPerUnit }
    else
      let fractionalReductionPerDay :=
        availableLandNum * (renewable.co2ReductionPerUnit / renewable.landRequirementPerUnit)
      { totalReductionPerDay := fractionalReductionPerDay
        timeToAchieveNeutrality := (targetCo2Reduction / fractionalReductionPerDay).ceil
        implementationCost := deployableUnits * renewable.costPerUnit }

/-- The computing part of `calculateRenewableImpact` (sink.js, lines 162-212),
reached once validation and the lookup have passed. -/
def renewableData (renewable : Property RenewableOption)
    (co2EmissionsPerDayNum desiredReductionPercentageNum availableLandNum : JSNum) :
    RenewableData :=
  let targetCo2Reduction :=
    (co2EmissionsPerDayNum * desiredReductionPercentageNum) / JSNum.fin 100
  let requiredUnits := (targetCo2Reduction / renewable.co2ReductionPerUnit).ceil
  let landRequired := requiredUnits * renewable.landRequirementPerUnit
  let d := deployment renewable targetCo2Reduction requiredUnits landRequired availableLandNum
  let totalReductionPerDay :=
    if d.totalReductionPerDay.le (JSNum.fin 0) then JSNum.fin 0.01
    else d.totalReductionPerDay
  let carbonCreditPerTon := JSNum.fin 300
  let carbonCreditsSavedPerDay := totalReductionPerDay
  let carbonCreditsSavedPerYear := carbonCreditsSavedPerDay * JSNum.fin 365
  let costOfCarbonCreditsSavedPerYear := carbonCreditsSavedPerYear * carbonCreditPerTon
  { implementationCost := d.implementationCost
    targetCo2Reduction := targetCo2Reduction
    totalCo2ReductionPerDay := totalReductionPerDay
    landProvided := availableLandNum
    timeToAchieveNeutrality := d.timeToAchieveNeutrality
    carbonCreditsSavedPerDay := carbonCreditsSavedPerDay
    carbonCreditsSavedPerYear := carbonCreditsSavedPerYear
    costOfCarbonCreditsSavedPerYear := costOfCarbonCreditsSavedPerYear }

/-- The quantity `targetCo2Reduction` of line 162, from the two numbers. -/
def targetCo2Reduction (co2EmissionsPerDayNum desiredReductionPercentageNum : JSNum) : JSNum :=
  (co2EmissionsPerDayNum * desiredReductionPercentageNum) / JSNum.fin 100

/-- The quantity `requiredUnits` of line 164 for an entry of the table. -/
def requiredUnits (r : RenewableOption) (target : JSNum) : JSNum :=
  (target / JSNum.fin r.co2ReductionPerUnit).ceil

/-- The quantity `landRequired` of line 165 for an entry of the table. -/
def landRequired (r : RenewableOption) (target : JSNum) : JSNum :=
  requiredUnits r target * JSNum.fin r.landRequirementPerUnit

/-- The quantity `deployableUnits` of line 178 for an entry of the table. -/
def deployableUnits (r : RenewableOption) (availableLandNum : JSNum) : JSNum :=
  (availableLandNum / JSNum.fin r.landRequirementPerUnit).floor

/-- The handler `calculateRenewableImpact` (sink.js, lines 104-217): the three
validation gates, the lookup of the renewable, then the computation. -/
def calculateRenewableImpact (body : RenewableBody) : Response RenewableData :=
  if !body.solutionName.truthy || !body.co2EmissionsPerDay.truthy ||
      !body.selectedRenewable.truthy || !body.desiredReductionPercentage.truthy ||
      !body.availableLand.truthy then
    Response.error 400 "All fields are required."
  else
    let co2EmissionsPerDayNum := body.co2EmissionsPerDay.toNumber
    let desiredReductionPercentageNum := body.desiredReductionPercentage.toNumber
    let availableLandNum := body.availableLand.toNumber
    if co2EmissionsPerDayNum.isNaN || desiredReductionPercentageNum.isNaN ||
        availableLandNum.isNaN then
      Response.error 400 "Inputs must be valid numbers."
    else if co2EmissionsPerDayNum.le (JSNum.fin 0) ||
        desiredReductionPercentageNum.le (JSNum.fin 0) ||
        availableLandNum.le (JSNum.fin 0) then
      Response.error 400 "Inputs must be positive values."
    else
      let renewable := getProperty renewableOptions body.selectedRenewable
      if !renewable.truthy then
        Response.error 404 "Selected renewable energy source not found."
      else
        Response.ok 200
          (renewableData renewable co2EmissionsPerDayNum desiredReductionPercentageNum
            availableLandNum)

/-- The request of the worked examples: 1000 tons per day, a 50 % target, Solar,
and the given land. -/
def solarRequest (land : ℚ) : RenewableBody :=
  { solutionName := JSVal.str "Plan"
    co2EmissionsPerDay := JSVal.num (JSNum.fin 1000)
    selectedRenewable := JSVal.str "Solar"
    desiredReductionPercentage := JSVal.num (JSNum.fin 50)
    availableLand := JSVal.num (JSNum.fin land) }

/-- The row `Solar` of `renewableOptions`. -/
def solar : RenewableOption :=
  { co2ReductionPerUnit := 0.4, landRequirementPerUnit := 0.01,
    costPerUnit := 8000, timeMultiplier := 1.5 }

/-- A Solar request whose emissions and land are sent as the string
`"Infinity"`. -/
def infiniteRequest : RenewableBody :=
  { solutionName := JSVal.str "Plan"
    co2EmissionsPerDay := JSVal.str "Infinity"
    selectedRenewable := JSVal.str "Solar"
    desiredReductionPercentage := JSVal.num (JSNum.fin 50)
    availableLand := JSVal.str "Infinity" }

/-! ## Capture economics (`calculateCCS`, `calculateMCS`) -/

/-- The helper `convertToNumber` declared alike in `calculateCCS` (lines
246-249) and `calculateMCS` (lines 351-354). -/
def convertToNumber (value : JSVal) (defaultValue : JSNum) : JSNum :=
  let num := value.toNumber
  if num.isNaN then defaultValue else num

/-- The value of `table[key]` for a table of numbers. -/
def getNumberProperty (table : List (String × ℚ)) (key : JSVal) : JSVal :=
  match getProperty table key with
  | Property.own e => JSVal.num (JSNum.fin e)
  | Property.inherited v => v
  | Property.absent => JSVal.undefined

/-- The module-level table `captureEfficiencyMap` (sink.js, lines 222-226). -/
def captureEfficiencyMap : List (String × ℚ) :=
  [ ("Post-combustion", 0.85), ("Pre-combustion", 0.90), ("Oxy-fuel combustion", 0.95) ]

/-- The fields read from `req.body` by `calculateCCS`. -/
structure CCSBody where
  mineName : JSVal
  annualEmissions : JSVal
  mineSize : JSVal
  ccsTechnology : JSVal
  installationCostPerTon : JSVal
  annualMaintenanceCost : JSVal
  deriving DecidableEq, Repr

/-- The record built by `calculateCCS` (sink.js, lines 284-301). -/
structure CCSRecord where
  annualEmissions : JSNum
  installationCostPerTon : JSNum
  annualMaintenanceCost : JSNum
  captureEfficiency : JSVal
  capturedCO2 : JSNum
  installationCost : JSNum
  maintenanceCost : JSNum
  carbonCreditRevenue : JSNum
  totalCostForFirstYear : JSNum
  totalRevenueForFirstYear : JSNum
  netProfitForFirstYear : JSNum
  annualNetProfit : JSNum
  totalProfitForTenYears : JSNum
  deriving DecidableEq, Repr

/-- The expression `captureEfficiencyMap[ccsTechnology] || 0.85` (line 252). -/
def ccsCaptureEfficiency (ccsTechnology : JSVal) : JSVal :=
  (getNumberProperty captureEfficiencyMap ccsTechnology).orElse (JSVal.num (JSNum.fin 0.85))

/-- The computation of `calculateCCS` (sink.js, lines 240-281). -/
def ccsRecord (body : CCSBody) : CCSRecord :=
  let defaultInstallationCostPerTon := JSNum.fin 2000
  let defaultAnnualMaintenanceCost := JSNum.fin 10000000
  let carbonCreditPrice := JSNum.fin 1500
  let captureEfficiency := ccsCaptureEfficiency body.ccsTechnology
  let annualEmissionsNum := convertToNumber body.annualEmissions (JSNum.fin 0)
  let costPerTon := convertToNumber body.installationCostPerTon defaultInstallationCostPerTon
  let maintenanceCost := convertToNumber body.annualMaintenanceCost defaultAnnualMaintenanceCost
  let capturedCO2 := annualEmissionsNum * captureEfficiency.toNumber
  let installationCost := capturedCO2 * costPerTon
  let carbonCreditRevenue := capturedCO2 * carbonCreditPrice
  let totalCostForFirstYear := installationCost + maintenanceCost
  let totalRevenueForFirstYear := carbonCreditRevenue
  let netProfitForFirstYear := totalRevenueForFirstYear - totalCostForFirstYear
  let annualNetProfit := carbonCreditRevenue - maintenanceCost
  let totalProfitForTenYears := netProfitForFirstYear + (annualNetProfit * JSNum.fin 9)
  { annualEmissions := annualEmissionsNum
    installationCostPerTon := costPerTon
    annualMaintenanceCost := maintenanceCost
    captureEfficiency := captureEfficiency
    capturedCO2 := capturedCO2
    installationCost := installationCost
    maintenanceCost := maintenanceCost
    carbonCreditRevenue := carbonCreditRevenue
    totalCostForFirstYear := totalCostForFirstYear
    totalRevenueForFirstYear := totalRevenueForFirstYear
    netProfitForFirstYear := netProfitForFirstYear
    annualNetProfit := annualNetProfit
    totalProfitForTenYears := totalProfitForTenYears }

/-- The handler `calculateCCS` (sink.js, lines 229-330); `saved` tells whether
`ccsData.save()` succeeded. -/
def calculateCCS (saved : Bool) (body : CCSBody) : Response CCSRecord :=
  if saved then Response.ok 200 (ccsRecord body)
  else Response.error 500 "Server Error"

/-- The table `captureEfficiencyMap` local to `calculateMCS` (lines 357-361). -/
def mcsCaptureEfficiencyMap : List (String × ℚ) :=
  [ ("Flaring", 0.9), ("CatalyticOxidation", 0.85), ("MembraneSeparation", 0.92) ]

/-- The fields read from `req.body` by `calculateMCS`. -/
structure MCSBody where
  mineName : JSVal
  annualMethaneEmissions : JSVal
  mineSize : JSVal
  mcsTechnology : JSVal
  installationCostPerTon : JSVal
  annualMaintenanceCost : JSVal
  deriving DecidableEq, Repr

/-- The record built by `calculateMCS` (sink.js, lines 386-407). -/
structure MCSRecord where
  annualMethaneEmissions : JSNum
  captureEfficiency : JSVal
  capturedMethane : JSNum
  co2Equivalent : JSNum
  installationCostPerTon : JSNum
  annualMaintenanceCost : JSNum
  methaneMarketPrice : JSNum
  carbonCreditPrice : JSNum
  installationCost : JSNum
  maintenanceCost : JSNum
  carbonCreditRevenue : JSNum
  methaneRevenue : JSNum
  totalCostForFirstYear : JSNum
  totalRevenue : JSNum
  netProfitForFirstYear : JSNum
  annualNetProfit : JSNum
  totalProfitForTenYears : JSNum
  deriving DecidableEq, Repr

/-- The expression `captureEfficiencyMap[mcsTechnology] || 0.85` (line 362). -/
def mcsCaptureEfficiency (mcsTechnology : JSVal) : JSVal :=
  (getNumberProperty mcsCaptureEfficiencyMap mcsTechnology).orElse (JSVal.num (JSNum.fin 0.85))

/-- The computation of `calculateMCS` (sink.js, lines 344-383). -/
def mcsRecord (body : MCSBody) : MCSRecord :=
  let defaultInstallationCostPerTon := JSNum.fin 3000
  let defaultAnnualMaintenanceCost := JSNum.fin 10000000
  let methaneMarketPrice := JSNum.fin 500
  let carbonCreditPrice := JSNum.fin 1500
  let captureEfficiency := mcsCaptureEfficiency body.mcsTechnology
  let annualMethaneEmissionsNum := convertToNumber body.annualMethaneEmissions (JSNum.fin 0)
  let costPerTon := convertToNumber body.installationCostPerTon defaultInstallationCostPerTon
  let maintenanceCost := convertToNumber body.annualMaintenanceCost defaultAnnualMaintenanceCost
  let capturedMethane := annualMethaneEmissionsNum * captureEfficiency.toNumber
  let co2Equivalent := capturedMethane * JSNum.fin 25
  let installationCost := capturedMethane * costPerTon
  let carbonCreditRevenue := co2Equivalent * carbonCreditPrice
  let methaneRevenue := capturedMethane * methaneMarketPrice
  let totalRevenue := carbonCreditRevenue + methaneRevenue
  let totalCostForFirstYear := installationCost + maintenanceCost
  let netProfitForFirstYear := totalRevenue - totalCostForFirstYear
  let annualNetProfit := totalRevenue - maintenanceCost
  let totalProfitForTenYears := netProfitForFirstYear + (annualNetProfit * JSNum.fin 9)
  { annualMethaneEmissions := annualMethaneEmissionsNum
    captureEfficiency := captureEfficiency
    capturedMethane := capturedMethane
    co2Equivalent := co2Equivalent
    installationCostPerTon := costPerTon
    annualMaintenanceCost := maintenanceCost
    methaneMarketPrice := methaneMarketPrice
    carbonCreditPrice := carbonCreditPrice
    installationCost := installationCost
    maintenanceCost := maintenanceCost
    carbonCreditRevenue := carbonCreditRevenue
    methaneRevenue := methaneRevenue
    totalCostForFirstYear := totalCostForFirstYear
    totalRevenue := totalRevenue
    netProfitForFirstYear := netProfitForFirstYear
    annualNetProfit := annualNetProfit
    totalProfitForTenYears := totalProfitForTenYears }

/-- The handler `calculateMCS` (sink.js, lines 333-436); `saved` tells whether
`mcsData.save()` succeeded. -/
def calculateMCS (saved : Bool) (body : MCSBody) : Response MCSRecord :=
  if saved then Response.ok 200 (mcsRecord body)
  else Response.error 500 "Server Error"

/-- A CCS request of the worked examples: 1000 tons per year, the given
technology, and no cost fields. -/
def ccsRequest (technology : JSVal) : CCSBody :=
  { mineName := JSVal.str "Mine"
    annualEmissions := JSVal.num (JSNum.fin 1000)
    mineSize := JSVal.str "Large"
    ccsTechnology := technology
    installationCostPerTon := JSVal.undefined
    annualMaintenanceCost := JSVal.undefined }

/-- An MCS request of the worked examples: 1000 tons per year, the given
technology, and no cost fields. -/
def mcsRequest (technology : JSVal) : MCSBody :=
  { mineName := JSVal.str "Mine"
    annualMethaneEmissions := JSVal.num (JSNum.fin 1000)
    mineSize := JSVal.str "Large"
    mcsTechnology := technology
    installationCostPerTon := JSVal.undefined
    annualMaintenanceCost := JSVal.undefined }

/-! ## Binary64 arithmetic and the exception path

The definitions above compute with exact rationals and with values whose
conversions always succeed.  This part models the two things they leave out:
every arithmetic result is rounded to the nearest binary64 number (ties to
even, gradual underflow, overflow to an infinity), and a conversion can throw
(`Number(v)` and `table[v]` throw a `TypeError` when `v` is an object whose own
`toString` is not callable, such as a JSON object with the member `toString`
set to `null`), in which case the `catch` block of the handler answers 500.  The sign of zero is still
not kept: in these handlers it can only show in a formatted string. -/

namespace Binary64

/-- Rounds a rational to the nearest integer, ties to the even one. -/
def roundHalfEven (x : ℚ) : ℤ :=
  if x - (⌊x⌋ : ℤ) < 1 / 2 then ⌊x⌋
  else if 1 / 2 < x - (⌊x⌋ : ℤ) then ⌊x⌋ + 1
  else if ⌊x⌋ % 2 = 0 then ⌊x⌋
  else ⌊x⌋ + 1

/-- The binary64 number nearest to a rational, ties to even: 53 significant
bits, least exponent -1022 (below it the spacing stays `2 ^ (-1074)`), and an
infinity from `2 ^ 1024` on. -/
def round64 (q : ℚ) : JSNum :=
  if q = 0 then JSNum.fin 0
  else
    let e : ℤ := max (Int.log 2 |q|) (-1022)
    let u : ℚ := (2 : ℚ) ^ (e - 52)
    let r : ℚ := (roundHalfEven (|q| / u) : ℚ) * u
    if (2 : ℚ) ^ (1024 : ℕ) ≤ r then (if 0 < q then JSNum.posInf else JSNum.negInf)
    else JSNum.fin (if 0 < q then r else -r)

/-- Rounding of the result of an exact operation. -/
def normalize : JSNum → JSNum
  | JSNum.fin q => round64 q
  | x => x

/-- The `*` operator on binary64 numbers. -/
def mul (x y : JSNum) : JSNum := normalize (JSNum.mul x y)

/-- The `/` operator on binary64 numbers. -/
def div (x y : JSNum) : JSNum := normalize (JSNum.div x y)

/-- The `+` operator on binary64 numbers. -/
def add (x y : JSNum) : JSNum := normalize (JSNum.add x y)

/-- The binary `-` operator on binary64 numbers. -/
def sub (x y : JSNum) : JSNum := normalize (JSNum.sub x y)

/-- The value of a decimal literal of the source or of a JSON text. -/
def lit (q : ℚ) : JSNum := round64 q

/-- A field of a request body: a value whose conversions succeed, or an object
whose conversion to a primitive throws a `TypeError` (an object or array with
an own `toString` that is not callable). -/
inductive JSInput where
  | value (v : JSVal)
  | throwing
  deriving DecidableEq, Repr

namespace JSInput

/-- Truthiness; every object is truthy. -/
def truthy : JSInput → Bool
  | value v => v.truthy
  | throwing => true

/-- The conversion `Number(value)`, rounded to binary64; `none` when it throws. -/
def toNumber : JSInput → Option JSNum
  | value v => some (normalize v.toNumber)
  | throwing => none

end JSInput

/-- The number a JSON text with the decimal literal `q` is parsed to. -/
def jsonNumber (q : ℚ) : JSInput := JSInput.value (JSVal.num (lit q))

/-- Property access `table[key]`; `none` when the conversion of the key to a
property key throws. -/
def getProperty {α : Type} (table : List (String × α)) : JSInput → Option (Property α)
  | JSInput.value v => some (GreenMines.getProperty table v)
  | JSInput.throwing => none

/-- The number read by `renewable.co2ReductionPerUnit`. -/
def co2ReductionPerUnit : Property RenewableOption → JSNum
  | Property.own r => lit r.co2ReductionPerUnit
  | _ => JSNum.nan

/-- The number read by `renewable.landRequirementPerUnit`. -/
def landRequirementPerUnit : Property RenewableOption → JSNum
  | Property.own r => lit r.landRequirementPerUnit
  | _ => JSNum.nan

/-- The number read by `renewable.costPerUnit`. -/
def costPerUnit : Property RenewableOption → JSNum
  | Property.own r => lit r.costPerUnit
  | _ => JSNum.nan

/-- The fields read from `req.body` by `calculateRenewableImpact`. -/
structure RenewableRequest where
  solutionName : JSInput
  co2EmissionsPerDay : JSInput
  selectedRenewable : JSInput
  desiredReductionPercentage : JSInput
  availableLand : JSInput
  deriving DecidableEq, Repr

/-- The land branches of `calculateRenewableImpact` (sink.js, lines 171-191). -/
def deployment (renewable : Property RenewableOption)
    (targetCo2Reduction requiredUnits landRequired availableLandNum : JSNum) : Deployment :=
  if availableLandNum.ge landRequired then
    { totalReductionPerDay := mul requiredUnits (co2ReductionPerUnit renewable)
      timeToAchieveNeutrality :=
        (div targetCo2Reduction (mul requiredUnits (co2ReductionPerUnit renewable))).ceil
      implementationCost := mul requiredUnits (costPerUnit renewable) }
  else
    let deployableUnits := (div availableLandNum (landRequirementPerUnit renewable)).floor
    let totalReductionPerDay := mul deployableUnits (co2ReductionPerUnit renewable)
    if totalReductionPerDay.gt (JSNum.fin 0) then
      { totalReductionPerDay := totalReductionPerDay
        timeToAchieveNeutrality := (div targetCo2Reduction totalReductionPerDay).ceil
        implementationCost := mul deployableUnits (costPerUnit renewable) }
    else
      let fractionalReductionPerDay :=
        mul availableLandNum
          (div (co2ReductionPerUnit renewable) (landRequirementPerUnit renewable))
      { totalReductionPerDay := fractionalReductionPerDay
        timeToAchieveNeutrality := (div targetCo2Reduction fractionalReductionPerDay).ceil
        implementationCost := mul deployableUnits (costPerUnit renewable) }

/-- The quantity `targetCo2Reduction` of line 162. -/
def targetCo2Reduction (co2EmissionsPerDayNum desiredReductionPercentageNum : JSNum) : JSNum :=
  div (mul co2EmissionsPerDayNum desiredReductionPercentageNum) (lit 100)

/-- The quantity `requiredUnits` of line 164 for a looked-up entry. -/
def requiredUnits (renewable : Property RenewableOption) (target : JSNum) : JSNum :=
  (div target (co2ReductionPerUnit renewable)).ceil

/-- The quantity `landRequired` of line 165 for a looked-up entry. -/
def landRequired (renewable : Property RenewableOption) (target : JSNum) : JSNum :=
  mul (requiredUnits renewable target) (landRequirementPerUnit renewable)

/-- The quantity `deployableUnits` of line 178 for a looked-up entry. -/
def deployableUnits (renewable : Property RenewableOption) (availableLandNum : JSNum) : JSNum :=
  (div availableLandNum (landRequirementPerUnit renewable)).floor

/-- The clamp of line 194: a value `<= 0` is replaced by `0.01`. -/
def clamp (totalReductionPerDay : JSNum) : JSNum :=
  if totalReductionPerDay.le (JSNum.fin 0) then lit 0.01 else totalReductionPerDay

/-- The computing part of `calculateRenewableImpact` (sink.js, lines 162-212). -/
def renewableData (renewable : Property RenewableOption)
    (co2EmissionsPerDayNum desiredReductionPercentageNum availableLandNum : JSNum) :
    RenewableData :=
  let target := targetCo2Reduction co2EmissionsPerDayNum desiredReductionPercentageNum
  let d := deployment renewable target (requiredUnits renewable target)
    (landRequired renewable target) availableLandNum
  let totalReductionPerDay := clamp d.totalReductionPerDay
  let carbonCreditPerTon := lit 300
  let carbonCreditsSavedPerDay := totalReductionPerDay
  let carbonCreditsSavedPerYear := mul carbonCreditsSavedPerDay (lit 365)
  let costOfCarbonCreditsSavedPerYear := mul carbonCreditsSavedPerYear carbonCreditPerTon
  { implementationCost := d.implementationCost
    targetCo2Reduction := target
    totalCo2ReductionPerDay := totalReductionPerDay
    landProvided := availableLandNum
    timeToAchieveNeutrality := d.timeToAchieveNeutrality
    carbonCreditsSavedPerDay := carbonCreditsSavedPerDay
    carbonCreditsSavedPerYear := carbonCreditsSavedPerYear
    costOfCarbonCreditsSavedPerYear := costOfCarbonCreditsSavedPerYear }

/-- The handler `calculateRenewableImpact` (sink.js, lines 104-217): the
presence gate, the three conversions (each of which can throw), the two
numeric gates, the lookup (which can throw), the computation; a thrown
exception is caught at lines 213-216 and answered with 500. -/
def calculateRenewableImpact (body : RenewableRequest) : Response RenewableData :=
  if !body.solutionName.truthy || !body.co2EmissionsPerDay.truthy ||
      !body.selectedRenewable.truthy || !body.desiredReductionPercentage.truthy ||
      !body.availableLand.truthy then
    Response.error 400 "All fields are required."
  else
    match body.co2EmissionsPerDay.toNumber, body.desiredReductionPercentage.toNumber,
      body.availableLand.toNumber with
    | some co2EmissionsPerDayNum, some desiredReductionPercentageNum, some availableLandNum =>
        if co2EmissionsPerDayNum.isNaN || desiredReductionPercentageNum.isNaN ||
            availableLandNum.isNaN then
          Response.error 400 "Inputs must be valid numbers."
        else if co2EmissionsPerDayNum.le (JSNum.fin 0) ||
            desiredReductionPercentageNum.le (JSNum.fin 0) ||
            availableLandNum.le (JSNum.fin 0) then
          Response.error 400 "Inputs must be positive values."
        else
          match getProperty renewableOptions body.selectedRenewable with
          | some renewable =>
              if !renewable.truthy then
                Response.error 404 "Selected renewable energy source not found."
              else
                Response.ok 200
                  (renewableData renewable co2EmissionsPerDayNum
                    desiredReductionPercentageNum availableLandNum)
          | none => Response.error 500 "Internal server error"
    | _, _, _ => Response.error 500 "Internal server error"

/-- The row `Wind` of `renewableOptions`. -/
def wind : RenewableOption :=
  { co2ReductionPerUnit := 1.5, landRequirementPerUnit := 0.05,
    costPerUnit := 300000, timeMultiplier := 2 }

/-- A renewable request with the given technology and JSON numbers. -/
def request (renewable : String) (emissions percentage land : ℚ) : RenewableRequest :=
  { solutionName := JSInput.value (JSVal.str "Plan")
    co2EmissionsPerDay := jsonNumber emissions
    selectedRenewable := JSInput.value (JSVal.str renewable)
    desiredReductionPercentage := jsonNumber percentage
    availableLand := jsonNumber land }

/-- A Solar request whose `co2EmissionsPerDay` is an object that cannot be
converted to a number (a JSON object with the member `toString` set to `null`) and whose
`availableLand` is `-1`. -/
def throwingRequest : RenewableRequest :=
  { solutionName := JSInput.value (JSVal.str "Plan")
    co2EmissionsPerDay := JSInput.throwing
    selectedRenewable := JSInput.value (JSVal.str "Solar")
    desiredReductionPercentage := jsonNumber 50
    availableLand := jsonNumber (-1) }

/-- The helper `convertToNumber` of `calculateCCS` (lines 246-249) and
`calculateMCS` (lines 351-354); `none` when `Number(value)` throws. -/
def convertToNumber (value : JSInput) (defaultValue : JSNum) : Option JSNum :=
  match value.toNumber with
  | some num => some (if num.isNaN then defaultValue else num)
  | none => none

/-- The expression `table[key] || 0.85` of lines 252 and 362; `none` when the
conversion of the key throws. -/
def captureEfficiency (table : List (String × ℚ)) (key : JSInput) : Option JSVal :=
  match getProperty table key with
  | some (Property.own e) => some ((JSVal.num (lit e)).orElse (JSVal.num (lit 0.85)))
  | some (Property.inherited v) => some (v.orElse (JSVal.num (lit 0.85)))
  | some Property.absent => some (JSVal.num (lit 0.85))
  | none => none

/-- The fields read from `req.body` by `calculateCCS`. -/
structure CCSRequest where
  mineName : JSInput
  annualEmissions : JSInput
  mineSize : JSInput
  ccsTechnology : JSInput
  installationCostPerTon : JSInput
  annualMaintenanceCost : JSInput
  deriving DecidableEq, Repr

/-- The arithmetic of `calculateCCS` (sink.js, lines 259-281) on the efficiency
and the three converted numbers. -/
def ccsFigures (captureEfficiency : JSVal) (annualEmissionsNum costPerTon maintenanceCost : JSNum) :
    CCSRecord :=
  let carbonCreditPrice := lit 1500
  let capturedCO2 := mul annualEmissionsNum (normalize captureEfficiency.toNumber)
  let installationCost := mul capturedCO2 costPerTon
  let carbonCreditRevenue := mul capturedCO2 carbonCreditPrice
  let totalCostForFirstYear := add installationCost maintenanceCost
  let totalRevenueForFirstYear := carbonCreditRevenue
  let netProfitForFirstYear := sub totalRevenueForFirstYear totalCostForFirstYear
  let annualNetProfit := sub carbonCreditRevenue maintenanceCost
  let totalProfitForTenYears := add netProfitForFirstYear (mul annualNetProfit (lit 9))
  { annualEmissions := annualEmissionsNum
    installationCostPerTon := costPerTon
    annualMaintenanceCost := maintenanceCost
    captureEfficiency := captureEfficiency
    capturedCO2 := capturedCO2
    installationCost := installationCost
    maintenanceCost := maintenanceCost
    carbonCreditRevenue := carbonCreditRevenue
    totalCostForFirstYear := totalCostForFirstYear
    totalRevenueForFirstYear := totalRevenueForFirstYear
    netProfitForFirstYear := netProfitForFirstYear
    annualNetProfit := annualNetProfit
    totalProfitForTenYears := totalProfitForTenYears }

/-- The computation of `calculateCCS` (sink.js, lines 240-281): the lookup of
the efficiency, the three conversions, the arithmetic; `none` when the lookup
or a conversion throws. -/
def ccsRecord (body : CCSRequest) : Option CCSRecord :=
  match captureEfficiency captureEfficiencyMap body.ccsTechnology,
    convertToNumber body.annualEmissions (lit 0),
    convertToNumber body.installationCostPerTon (lit 2000),
    convertToNumber body.annualMaintenanceCost (lit 10000000) with
  | some efficiency, some annualEmissionsNum, some costPerTon, some maintenanceCost =>
      some (ccsFigures efficiency annualEmissionsNum costPerTon maintenanceCost)
  | _, _, _, _ => none

/-- The handler `calculateCCS` (sink.js, lines 229-330); `saved` tells whether
`ccsData.save()` succeeded; a thrown exception and a failed write are both
answered with 500 by the `catch` block. -/
def calculateCCS (saved : Bool) (body : CCSRequest) : Response CCSRecord :=
  match ccsRecord body with
  | some record => if saved then Response.ok 200 record else Response.error 500 "Server Error"
  | none => Response.error 500 "Server Error"

/-- The fields read from `req.body` by `calculateMCS`. -/
structure MCSRequest where
  mineName : JSInput
  annualMethaneEmissions : JSInput
  mineSize : JSInput
  mcsTechnology : JSInput
  installationCostPerTon : JSInput
  annualMaintenanceCost : JSInput
  deriving DecidableEq, Repr

/-- The arithmetic of `calculateMCS` (sink.js, lines 370-383) on the efficiency
and the three converted numbers. -/
def mcsFigures (captureEfficiency : JSVal)
    (annualMethaneEmissionsNum costPerTon maintenanceCost : JSNum) : MCSRecord :=
  let methaneMarketPrice := lit 500
  let carbonCreditPrice := lit 1500
  let capturedMethane := mul annualMethaneEmissionsNum (normalize captureEfficiency.toNumber)
  let co2Equivalent := mul capturedMethane (lit 25)
  let installationCost := mul capturedMethane costPerTon
  let carbonCreditRevenue := mul co2Equivalent carbonCreditPrice
  let methaneRevenue := mul capturedMethane methaneMarketPrice
  let totalRevenue := add carbonCreditRevenue methaneRevenue
  let totalCostForFirstYear := add installationCost maintenanceCost
  let netProfitForFirstYear := sub totalRevenue totalCostForFirstYear
  let annualNetProfit := sub totalRevenue maintenanceCost
  let totalProfitForTenYears := add netProfitForFirstYear (mul annualNetProfit (lit 9))
  { annualMethaneEmissions := annualMethaneEmissionsNum
    captureEfficiency := captureEfficiency
    capturedMethane := capturedMethane
    co2Equivalent := co2Equivalent
    installationCostPerTon := costPerTon
    annualMaintenanceCost := maintenanceCost
    methaneMarketPrice := methaneMarketPrice
    carbonCreditPrice := carbonCreditPrice
    installationCost := installationCost
    maintenanceCost := maintenanceCost
    carbonCreditRevenue := carbonCreditRevenue
    methaneRevenue := methaneRevenue
    totalCostForFirstYear := totalCostForFirstYear
    totalRevenue := totalRevenue
    netProfitForFirstYear := netProfitForFirstYear
    annualNetProfit := annualNetProfit
    totalProfitForTenYears := totalProfitForTenYears }

/-- The computation of `calculateMCS` (sink.js, lines 344-383); `none` when the
lookup or a conversion throws. -/
def mcsRecord (body : MCSRequest) : Option MCSRecord :=
  match captureEfficiency mcsCaptureEfficiencyMap body.mcsTechnology,
    convertToNumber body.annualMethaneEmissions (lit 0),
    convertToNumber body.installationCostPerTon (lit 3000),
    convertToNumber body.annualMaintenanceCost (lit 10000000) with
  | some efficiency, some annualMethaneEmissionsNum, some costPerTon, some maintenanceCost =>
      some (mcsFigures efficiency annualMethaneEmissionsNum costPerTon maintenanceCost)
  | _, _, _, _ => none

/-- The handler `calculateMCS` (sink.js, lines 333-436). -/
def calculateMCS (saved : Bool) (body : MCSRequest) : Response MCSRecord :=
  match mcsRecord body with
  | some record => if saved then Response.ok 200 record else Response.error 500 "Server Error"
  | none => Response.error 500 "Server Error"

/-- A CCS request with the given JSON number of tons and technology, and no
cost fields. -/
def ccsRequest (tons : ℚ) (technology : JSVal) : CCSRequest :=
  { mineName := JSInput.value (JSVal.str "Mine")
    annualEmissions := jsonNumber tons
    mineSize := JSInput.value (JSVal.str "Large")
    ccsTechnology := JSInput.value technology
    installationCostPerTon := JSInput.value JSVal.undefined
    annualMaintenanceCost := JSInput.value JSVal.undefined }

/-- A CCS request with the given JSON number of tons, technology and cost
fields. -/
def ccsRequestCosts (tons : ℚ) (technology : JSVal) (costPerTon maintenance : JSInput) :
    CCSRequest :=
  { mineName := JSInput.value (JSVal.str "Mine")
    annualEmissions := jsonNumber tons
    mineSize := JSInput.value (JSVal.str "Large")
    ccsTechnology := JSInput.value technology
    installationCostPerTon := costPerTon
    annualMaintenanceCost := maintenance }

/-- An MCS request with the given JSON number of tons and technology, and no
cost fields. -/
def mcsRequest (tons : ℚ) (technology : JSVal) : MCSRequest :=
  { mineName := JSInput.value (JSVal.str "Mine")
    annualMethaneEmissions := jsonNumber tons
    mineSize := JSInput.value (JSVal.str "Large")
    mcsTechnology := JSInput.value technology
    installationCostPerTon := JSInput.value JSVal.undefined
    annualMaintenanceCost := JSInput.value JSVal.undefined }

end Binary64

/-! ## Lemmas on numbers -/


namespace JSNum

theorem mul_eq (x y : JSNum) : x * y = mul x y := rfl
theorem div_eq (x y : JSNum) : x / y = div x y := rfl
theorem add_eq (x y : JSNum) : x + y = add x y := rfl
theorem sub_eq (x y : JSNum) : x - y = add x (neg y) := rfl

@[simp] theorem fin_mul_fin (a b : ℚ) : fin a * fin b = fin (a * b) := rfl

@[simp] theorem fin_add_fin (a b : ℚ) : fin a + fin b = fin (a + b) := rfl

@[simp] theorem fin_sub_fin (a b : ℚ) : fin a - fin b = fin (a - b) := by
  simp [sub_eq, add, neg, sub_eq_add_neg]

theorem fin_div_fin_eq (a b : ℚ) :
    fin a / fin b =
      if b = 0 then (if a = 0 then nan else if 0 < a then posInf else negInf)
      else fin (a / b) := rfl

@[simp] theorem ceil_fin (a : ℚ) : (fin a).ceil = fin (⌈a⌉ : ℤ) := rfl

@[simp] theorem floor_fin (a : ℚ) : (fin a).floor = fin (⌊a⌋ : ℤ) := rfl

@[simp] theorem fin_le_fin (a b : ℚ) : (fin a).le (fin b) = decide (a ≤ b) := rfl

@[simp] theorem fin_lt_fin (a b : ℚ) : (fin a).lt (fin b) = decide (a < b) := rfl

@[simp] theorem fin_ge_fin (a b : ℚ) : (fin a).ge (fin b) = decide (b ≤ a) := rfl

@[simp] theorem fin_gt_fin (a b : ℚ) : (fin a).gt (fin b) = decide (b < a) := rfl

@[simp] theorem isNaN_fin (a : ℚ) : (fin a).isNaN = false := rfl

theorem isPos_iff (x : JSNum) : IsPos x ↔ x.isNaN = false ∧ x.le (fin 0) = false := by
  cases x <;> simp [IsPos, isNaN, le]

theorem isPos_mul {x y : JSNum} (hx : IsPos x) (hy : IsPos y) : IsPos (x * y) := by
  cases x <;> cases y <;> simp_all [IsPos, mul_eq, mul, infTimes, ne_of_gt]

theorem isPos_div_fin {x : JSNum} (hx : IsPos x) {c : ℚ} (hc : 0 < c) :
    IsPos (x / fin c) := by
  cases x <;> simp_all [IsPos, div_eq, div, ne_of_gt, le_of_lt]

theorem isPos_ceil {x : JSNum} (hx : IsPos x) : IsPos x.ceil := by
  cases x <;> simp_all [IsPos, ceil]

theorem isPos_le_zero {x : JSNum} (hx : IsPos x) : x.le (fin 0) = false :=
  ((isPos_iff x).1 hx).2

theorem isPos_gt_zero {x : JSNum} (hx : IsPos x) : x.gt (fin 0) = true := by
  cases x <;> simp_all [IsPos, gt, lt]

theorem isPos_of_one_le {x : JSNum} (hx : (fin 1).le x = true) : IsPos x := by
  cases x <;> simp_all [IsPos, le]
  linarith

theorem ge_eq_false_of_lt {x y : JSNum} (h : x.lt y = true) : x.ge y = false := by
  cases x <;> cases y <;> simp_all [ge, le, lt]

theorem isPos_iff_lt (x : JSNum) : IsPos x ↔ (fin 0).lt x = true := by
  cases x <;> simp [IsPos, lt]

end JSNum

/-! ## Renewable sizer: validation and lookup -/

/-- A request is not answered by a 400 exactly when its five fields are truthy
and its three numbers are strictly positive. -/
theorem not_400_iff (body : RenewableBody) :
    (∀ msg, calculateRenewableImpact body ≠ Response.error 400 msg) ↔
      (body.solutionName.truthy = true ∧ body.co2EmissionsPerDay.truthy = true ∧
        body.selectedRenewable.truthy = true ∧
        body.desiredReductionPercentage.truthy = true ∧ body.availableLand.truthy = true) ∧
      body.co2EmissionsPerDay.toNumber.IsPos ∧
      body.desiredReductionPercentage.toNumber.IsPos ∧
      body.availableLand.toNumber.IsPos := by
  simp only [JSNum.isPos_iff]
  unfold calculateRenewableImpact
  dsimp only
  constructor
  · intro h
    split_ifs at h with h1 h2 h3 h4
    · exact absurd rfl (h _)
    · exact absurd rfl (h _)
    · exact absurd rfl (h _)
    · simp_all
    · simp_all
  · rintro ⟨h1, h2, h3, h4⟩ msg
    split_ifs <;> simp_all

/-- An own entry of `renewableOptions` is one of the four rows of the table,
found under its key. -/
theorem getProperty_renewableOptions_own {v : JSVal} {r : RenewableOption}
    (h : getProperty renewableOptions v = Property.own r) :
    (v.propertyKey = some "Solar" ∧ r = ⟨0.4, 0.01, 8000, 1.5⟩) ∨
    (v.propertyKey = some "Wind" ∧ r = ⟨1.5, 0.05, 300000, 2⟩) ∨
    (v.propertyKey = some "Hydropower" ∧ r = ⟨5, 2, 5000000, 3⟩) ∨
    (v.propertyKey = some "HydrogenElectric" ∧ r = ⟨3, 1, 2000000, 2.5⟩) := by
  unfold getProperty at h
  cases hk : v.propertyKey with
  | none => simp [hk] at h
  | some k =>
    simp only [hk, renewableOptions, List.lookup] at h
    by_cases h1 : k = "Solar"
    · subst h1; simp at h; simp [h.symm]
    by_cases h2 : k = "Wind"
    · subst h2; simp at h; simp [h.symm]
    by_cases h3 : k = "Hydropower"
    · subst h3; simp at h; simp [h.symm]
    by_cases h4 : k = "HydrogenElectric"
    · subst h4; simp at h; simp [h.symm]
    · have e1 : (k == "Solar") = false := by simpa using h1
      have e2 : (k == "Wind") = false := by simpa using h2
      have e3 : (k == "Hydropower") = false := by simpa using h3
      have e4 : (k == "HydrogenElectric") = false := by simpa using h4
      simp only [e1, e2, e3, e4] at h
      cases hm : objectPrototypeMember k <;> simp [hm] at h

/-- The parameters of every row of `renewableOptions` are strictly positive. -/
theorem renewableOptions_pos {v : JSVal} {r : RenewableOption}
    (h : getProperty renewableOptions v = Property.own r) :
    0 < r.co2ReductionPerUnit ∧ 0 < r.landRequirementPerUnit ∧ 0 < r.costPerUnit := by
  rcases getProperty_renewableOptions_own h with ⟨_, rfl⟩ | ⟨_, rfl⟩ | ⟨_, rfl⟩ | ⟨_, rfl⟩ <;>
    norm_num

/-- The key `"Solar"` finds the row `solar`. -/
theorem getProperty_solar :
    getProperty renewableOptions (JSVal.str "Solar") = Property.own solar := by
  simp [getProperty, JSVal.propertyKey, renewableOptions, List.lookup, solar]

/-! ## Renewable sizer: the land branches -/

/-- The response of a request that passed validation and named a row of the
table. -/
theorem calculateRenewableImpact_known {body : RenewableBody} {r : RenewableOption}
    (hvalid : ∀ msg, calculateRenewableImpact body ≠ Response.error 400 msg)
    (hknown : getProperty renewableOptions body.selectedRenewable = Property.own r) :
    calculateRenewableImpact body =
      Response.ok 200 (renewableData (Property.own r) body.co2EmissionsPerDay.toNumber
        body.desiredReductionPercentage.toNumber body.availableLand.toNumber) := by
  obtain ⟨⟨h1, h2, h3, h4, h5⟩, hE, hP, hL⟩ := (not_400_iff body).1 hvalid
  rw [JSNum.isPos_iff] at hE hP hL
  unfold calculateRenewableImpact
  simp [h1, h2, h3, h4, h5, hE.1, hE.2, hP.1, hP.2, hL.1, hL.2, hknown, Property.truthy]

/-- The target, the required units and the reduction of the required units are
strictly positive for positive inputs. -/
theorem required_pos {r : RenewableOption} {e p : JSNum} (hr : 0 < r.co2ReductionPerUnit)
    (he : e.IsPos) (hp : p.IsPos) :
    (targetCo2Reduction e p).IsPos ∧ (requiredUnits r (targetCo2Reduction e p)).IsPos ∧
      (requiredUnits r (targetCo2Reduction e p) * JSNum.fin r.co2ReductionPerUnit).IsPos := by
  have ht : (targetCo2Reduction e p).IsPos :=
    JSNum.isPos_div_fin (JSNum.isPos_mul he hp) (by norm_num)
  have hu : (requiredUnits r (targetCo2Reduction e p)).IsPos :=
    JSNum.isPos_ceil (JSNum.isPos_div_fin ht hr)
  exact ⟨ht, hu, JSNum.isPos_mul hu hr⟩

/-! ## Renewable sizer: validation gates and the lookup guard -/

/-- C4 (failing input). With `selectedRenewable = "constructor"` the lookup
`renewableOptions[selectedRenewable]` finds the member inherited from
`Object.prototype`, the guard `!renewable` does not fire, and the handler
answers 200 with `NaN` in every field computed from the renewable, where a
404 is expected. -/
theorem renewable_inherited_key_not_404 :
    calculateRenewableImpact
        { solarRequest 100 with selectedRenewable := JSVal.str "constructor" } =
      Response.ok 200
        { implementationCost := JSNum.nan
          targetCo2Reduction := JSNum.fin 500
          totalCo2ReductionPerDay := JSNum.nan
          landProvided := JSNum.fin 100
          timeToAchieveNeutrality := JSNum.nan
          carbonCreditsSavedPerDay := JSNum.nan
          carbonCreditsSavedPerYear := JSNum.nan
          costOfCarbonCreditsSavedPerYear := JSNum.nan } := by
  have hk : getProperty renewableOptions (JSVal.str "constructor") =
      Property.inherited (JSVal.obj "function Object() \x7b [native code] \x7d") := by
    simp [getProperty, JSVal.propertyKey, renewableOptions, List.lookup,
      objectPrototypeMember]
  simp [calculateRenewableImpact, solarRequest, JSVal.truthy, JSVal.toNumber, hk,
    Property.truthy, renewableData, deployment, Property.co2ReductionPerUnit,
    Property.landRequirementPerUnit, Property.costPerUnit, JSNum.fin_div_fin_eq]
  norm_num [JSNum.div_eq, JSNum.mul_eq, JSNum.div, JSNum.mul, JSNum.ceil, JSNum.floor,
    JSNum.ge, JSNum.gt, JSNum.le, JSNum.lt]

/-! ## Capture economics -/

/-- The three rows of `captureEfficiencyMap`, the default for an absent
technology, and the worked example: 1000 tons with an unlisted technology
capture 850 tons. -/
theorem ccsCaptureEfficiency_table :
    ccsCaptureEfficiency (JSVal.str "Post-combustion") = JSVal.num (JSNum.fin 0.85) ∧
    ccsCaptureEfficiency (JSVal.str "Pre-combustion") = JSVal.num (JSNum.fin 0.90) ∧
    ccsCaptureEfficiency (JSVal.str "Oxy-fuel combustion") = JSVal.num (JSNum.fin 0.95) ∧
    ccsCaptureEfficiency JSVal.undefined = JSVal.num (JSNum.fin 0.85) ∧
    ccsCaptureEfficiency (JSVal.str "Membrane") = JSVal.num (JSNum.fin 0.85) ∧
    (ccsRecord
      { mineName := JSVal.str "Mine", annualEmissions := JSVal.num (JSNum.fin 1000),
        mineSize := JSVal.str "Large", ccsTechnology := JSVal.str "Membrane",
        installationCostPerTon := JSVal.undefined,
        annualMaintenanceCost := JSVal.undefined }).capturedCO2 = JSNum.fin 850 := by
  refine ⟨?_, ?_, ?_, ?_, ?_, ?_⟩ <;>
    simp [ccsRecord, ccsCaptureEfficiency, getNumberProperty, getProperty,
      JSVal.propertyKey, captureEfficiencyMap, List.lookup, objectPrototypeMember,
      JSVal.orElse, JSVal.truthy, convertToNumber, JSVal.toNumber] <;>
    norm_num

/-- C5 (failing input). With `ccsTechnology = "constructor"` the lookup
`captureEfficiencyMap[ccsTechnology]` finds the member inherited from
`Object.prototype`, which is truthy, so the default `|| 0.85` is not taken:
the efficiency is a function and `capturedCO2` of 1000 tons is `NaN`, not 850. -/
theorem ccs_inherited_key_efficiency :
    ccsCaptureEfficiency (JSVal.str "constructor") =
        JSVal.obj "function Object() \x7b [native code] \x7d" ∧
    ccsCaptureEfficiency (JSVal.str "constructor") ≠ JSVal.num (JSNum.fin 0.85) ∧
    (ccsRecord
      { mineName := JSVal.str "Mine", annualEmissions := JSVal.num (JSNum.fin 1000),
        mineSize := JSVal.str "Large", ccsTechnology := JSVal.str "constructor",
        installationCostPerTon := JSVal.undefined,
        annualMaintenanceCost := JSVal.undefined }).capturedCO2 = JSNum.nan := by
  have hk : ccsCaptureEfficiency (JSVal.str "constructor") =
      JSVal.obj "function Object() \x7b [native code] \x7d" := by
    simp [ccsCaptureEfficiency, getNumberProperty, getProperty, JSVal.propertyKey,
      captureEfficiencyMap, List.lookup, objectPrototypeMember, JSVal.orElse, JSVal.truthy]
  have hn : stringToNumber "function Object() \x7b [native code] \x7d" = JSNum.nan := by
    rfl
  refine ⟨hk, ?_, ?_⟩
  · rw [hk]; simp
  · simp [ccsRecord, hk, convertToNumber, JSVal.toNumber, hn, JSNum.mul_eq, JSNum.mul]

/-- A value that converts to a finite number is kept by `convertToNumber`. -/
theorem convertToNumber_of_fin {v : JSVal} {q : ℚ} (h : v.toNumber = JSNum.fin q)
    (d : JSNum) : convertToNumber v d = JSNum.fin q := by
  simp [convertToNumber, h]

/-! ## Sink calculator -/

@[simp] theorem toNumber_num (n : JSNum) : (JSVal.num n).toNumber = n := rfl

@[simp] theorem toNumber_undefined : JSVal.undefined.toNumber = JSNum.nan := rfl

/-- A value that converts to a non-zero finite number is truthy. -/
theorem truthy_of_toNumber_ne_zero {v : JSVal} {t : ℚ} (h : v.toNumber = JSNum.fin t)
    (ht : t ≠ 0) : v.truthy = true := by
  cases v with
  | undefined => simp [JSVal.toNumber] at h
  | null =>
    simp only [JSVal.toNumber, JSNum.fin.injEq] at h
    exact absurd h.symm ht
  | bool b =>
    cases b
    · simp only [JSVal.toNumber, Bool.false_eq_true, if_false, JSNum.fin.injEq] at h
      exact absurd h.symm ht
    · rfl
  | num n =>
    simp only [JSVal.toNumber] at h
    subst h
    simp [JSVal.truthy, ht]
  | str s =>
    by_cases hs : s = ""
    · subst hs
      have h0 : (JSVal.str "").toNumber = JSNum.fin 0 := rfl
      rw [h0, JSNum.fin.injEq] at h
      exact absurd h.symm ht
    · simp [JSVal.truthy, hs]
  | obj p => rfl

/-- The period `timeframe || 1` is the timeframe itself when it converts to a
non-zero finite number. -/
theorem orElse_of_toNumber_ne_zero {v : JSVal} {t : ℚ} (h : v.toNumber = JSNum.fin t)
    (ht : t ≠ 0) (w : JSVal) : v.orElse w = v := by
  simp [JSVal.orElse, truthy_of_toNumber_ne_zero h ht]

/-- C9. `createSink`: for positive `areaCovered = a`, `carbonSequestrationRate = r`
and `timeframe = t`, the result has `dailySequestrationRate = a * r / 365` and
`totalSequestration = a * r * t`, both non-negative; when the timeframe is not
provided, `totalSequestration = a * r * 1`. -/
theorem createSink_positive (body : SinkBody) (a r : ℚ)
    (ha : body.areaCovered.toNumber = JSNum.fin a) (hapos : 0 < a)
    (hr : body.carbonSequestrationRate.toNumber = JSNum.fin r) (hrpos : 0 < r) :
    (∀ t : ℚ, body.timeframe.toNumber = JSNum.fin t → 0 < t →
      createSink true body =
          Response.ok 201
            { dailySequestrationRate := JSNum.fin (a * r / 365)
              totalSequestration := JSNum.fin (a * r * t)
              period := body.timeframe } ∧
        0 ≤ a * r / 365 ∧ 0 ≤ a * r * t) ∧
    (body.timeframe = JSVal.undefined →
      createSink true body =
          Response.ok 201
            { dailySequestrationRate := JSNum.fin (a * r / 365)
              totalSequestration := JSNum.fin (a * r * 1)
              period := JSVal.num (JSNum.fin 1) } ∧
        0 ≤ a * r / 365 ∧ 0 ≤ a * r * 1) := by
  have hd : 0 ≤ a * r / 365 := by positivity
  constructor
  · intro t ht htpos
    refine ⟨?_, hd, by positivity⟩
    simp [createSink, ha, hr, orElse_of_toNumber_ne_zero ht (ne_of_gt htpos), ht,
      JSNum.fin_div_fin_eq]
  · intro hu
    refine ⟨?_, hd, by positivity⟩
    simp [createSink, ha, hr, hu, JSVal.orElse, JSVal.truthy, JSNum.fin_div_fin_eq]

/-- Witness for C9: 10 hectares at 2 tons per hectare and year, over 3 years and
without a timeframe. -/
theorem createSink_positive_witness :
    (createSink true
        (groveRequest (JSVal.num (JSNum.fin 10)) (JSVal.str "2") (JSVal.num (JSNum.fin 3))) =
        Response.ok 201
          { dailySequestrationRate := JSNum.fin (10 * 2 / 365)
            totalSequestration := JSNum.fin (10 * 2 * 3)
            period := JSVal.num (JSNum.fin 3) } ∧
      (0 : ℚ) ≤ 10 * 2 / 365 ∧ (0 : ℚ) ≤ 10 * 2 * 3) ∧
    (createSink true
        (groveRequest (JSVal.num (JSNum.fin 10)) (JSVal.str "2") JSVal.undefined) =
        Response.ok 201
          { dailySequestrationRate := JSNum.fin (10 * 2 / 365)
            totalSequestration := JSNum.fin (10 * 2 * 1)
            period := JSVal.num (JSNum.fin 1) } ∧
      (0 : ℚ) ≤ 10 * 2 / 365 ∧ (0 : ℚ) ≤ 10 * 2 * 1) :=
  ⟨(createSink_positive
      (groveRequest (JSVal.num (JSNum.fin 10)) (JSVal.str "2") (JSVal.num (JSNum.fin 3)))
      10 2 rfl (by norm_num) rfl (by norm_num)).1 3 rfl (by norm_num),
    (createSink_positive
      (groveRequest (JSVal.num (JSNum.fin 10)) (JSVal.str "2") JSVal.undefined)
      10 2 rfl (by norm_num) rfl (by norm_num)).2 rfl⟩

/-- C10. `createExistingSink`: for positive `carbonSequestrationRate = r`,
`areaCovered = a` and `timeframe = t`, `dailySequestrationRate = r / 365` and
`totalSequestration = a * r * t`; the daily rate is the same for every other
`areaCovered`, while the total for the area `k * a` is `k` times the total
(the sign of `a` and `r` plays no part). -/
theorem createExistingSink_positive (body : SinkBody) (a r t : ℚ)
    (ha : body.areaCovered.toNumber = JSNum.fin a)
    (hr : body.carbonSequestrationRate.toNumber = JSNum.fin r)
    (ht : body.timeframe.toNumber = JSNum.fin t) (htpos : 0 < t) :
    createExistingSink true body =
        Response.ok 201
          { dailySequestrationRate := JSNum.fin (r / 365)
            totalSequestration := JSNum.fin (a * r * t)
            period := body.timeframe } ∧
    (∀ area : JSVal, ∃ d : SinkData,
      createExistingSink true { body with areaCovered := area } = Response.ok 201 d ∧
        d.dailySequestrationRate = JSNum.fin (r / 365)) ∧
    (∀ k : ℚ,
      createExistingSink true { body with areaCovered := JSVal.num (JSNum.fin (k * a)) } =
        Response.ok 201
          { dailySequestrationRate := JSNum.fin (r / 365)
            totalSequestration := JSNum.fin (k * (a * r * t))
            period := body.timeframe }) := by
  have ho := orElse_of_toNumber_ne_zero ht (ne_of_gt htpos) (JSVal.num (JSNum.fin 1))
  refine ⟨?_, ?_, ?_⟩
  · simp [createExistingSink, ha, hr, ho, ht, JSNum.fin_div_fin_eq]
  · intro area
    refine ⟨_, rfl, ?_⟩
    simp [hr, JSNum.fin_div_fin_eq]
  · intro k
    simp [createExistingSink, hr, ho, ht, JSNum.fin_div_fin_eq]
    ring

/-- Witness for C10: a rate of 730 tons per year on 4 hectares over 2 years. -/
theorem createExistingSink_positive_witness :
    createExistingSink true
        (groveRequest (JSVal.num (JSNum.fin 4)) (JSVal.num (JSNum.fin 730))
          (JSVal.num (JSNum.fin 2))) =
      Response.ok 201
        { dailySequestrationRate := JSNum.fin (730 / 365)
          totalSequestration := JSNum.fin (4 * 730 * 2)
          period := JSVal.num (JSNum.fin 2) } :=
  (createExistingSink_positive
    (groveRequest (JSVal.num (JSNum.fin 4)) (JSVal.num (JSNum.fin 730))
      (JSVal.num (JSNum.fin 2)))
    4 730 2 rfl rfl rfl (by norm_num)).1

/-! ## Renewable sizer: divisor and fractional sub-case -/

namespace JSNum

theorem isPos_fin_or_posInf {x : JSNum} (hx : IsPos x) : (∃ q : ℚ, 0 < q ∧ x = fin q) ∨ x = posInf := by
  cases x <;> simp_all [IsPos]

theorem isNaN_eq_false_of_isPos {x : JSNum} (hx : IsPos x) : x.isNaN = false :=
  ((isPos_iff x).1 hx).1

/-- A number that is not `>=` a strictly positive number is a finite number. -/
theorem fin_of_ge_eq_false {x y : JSNum} (hx : IsPos x) (hy : IsPos y)
    (h : x.ge y = false) : ∃ l : ℚ, 0 < l ∧ x = fin l := by
  cases x <;> cases y <;> simp_all [IsPos, ge, le]

end JSNum

/-- The three cases of the land branches for a row of the table. -/
theorem deployment_own (r : RenewableOption) (t u lr l : JSNum) :
    deployment (Property.own r) t u lr l =
      if l.ge lr = true then
        { totalReductionPerDay := u * JSNum.fin r.co2ReductionPerUnit
          timeToAchieveNeutrality := (t / (u * JSNum.fin r.co2ReductionPerUnit)).ceil
          implementationCost := u * JSNum.fin r.costPerUnit }
      else if (deployableUnits r l * JSNum.fin r.co2ReductionPerUnit).gt (JSNum.fin 0) = true then
        { totalReductionPerDay := deployableUnits r l * JSNum.fin r.co2ReductionPerUnit
          timeToAchieveNeutrality :=
            (t / (deployableUnits r l * JSNum.fin r.co2ReductionPerUnit)).ceil
          implementationCost := deployableUnits r l * JSNum.fin r.costPerUnit }
      else
        { totalReductionPerDay :=
            l * (JSNum.fin r.co2ReductionPerUnit / JSNum.fin r.landRequirementPerUnit)
          timeToAchieveNeutrality :=
            (t / (l * (JSNum.fin r.co2ReductionPerUnit /
              JSNum.fin r.landRequirementPerUnit))).ceil
          implementationCost := deployableUnits r l * JSNum.fin r.costPerUnit } := rfl

/-- The computing part for a row of the table, in terms of the named
quantities. -/
theorem renewableData_own (r : RenewableOption) (e p l : JSNum) :
    renewableData (Property.own r) e p l =
      { implementationCost :=
          (deployment (Property.own r) (targetCo2Reduction e p)
            (requiredUnits r (targetCo2Reduction e p))
            (landRequired r (targetCo2Reduction e p)) l).implementationCost
        targetCo2Reduction := targetCo2Reduction e p
        totalCo2ReductionPerDay :=
          if (deployment (Property.own r) (targetCo2Reduction e p)
              (requiredUnits r (targetCo2Reduction e p))
              (landRequired r (targetCo2Reduction e p)) l).totalReductionPerDay.le
              (JSNum.fin 0) = true then JSNum.fin 0.01
          else (deployment (Property.own r) (targetCo2Reduction e p)
            (requiredUnits r (targetCo2Reduction e p))
            (landRequired r (targetCo2Reduction e p)) l).totalReductionPerDay
        landProvided := l
        timeToAchieveNeutrality :=
          (deployment (Property.own r) (targetCo2Reduction e p)
            (requiredUnits r (targetCo2Reduction e p))
            (landRequired r (targetCo2Reduction e p)) l).timeToAchieveNeutrality
        carbonCreditsSavedPerDay :=
          if (deployment (Property.own r) (targetCo2Reduction e p)
              (requiredUnits r (targetCo2Reduction e p))
              (landRequired r (targetCo2Reduction e p)) l).totalReductionPerDay.le
              (JSNum.fin 0) = true then JSNum.fin 0.01
          else (deployment (Property.own r) (targetCo2Reduction e p)
            (requiredUnits r (targetCo2Reduction e p))
            (landRequired r (targetCo2Reduction e p)) l).totalReductionPerDay
        carbonCreditsSavedPerYear :=
          (if (deployment (Property.own r) (targetCo2Reduction e p)
              (requiredUnits r (targetCo2Reduction e p))
              (landRequired r (targetCo2Reduction e p)) l).totalReductionPerDay.le
              (JSNum.fin 0) = true then JSNum.fin 0.01
          else (deployment (Property.own r) (targetCo2Reduction e p)
            (requiredUnits r (targetCo2Reduction e p))
            (landRequired r (targetCo2Reduction e p)) l).totalReductionPerDay) *
            JSNum.fin 365
        costOfCarbonCreditsSavedPerYear :=
          (if (deployment (Property.own r) (targetCo2Reduction e p)
              (requiredUnits r (targetCo2Reduction e p))
              (landRequired r (targetCo2Reduction e p)) l).totalReductionPerDay.le
              (JSNum.fin 0) = true then JSNum.fin 0.01
          else (deployment (Property.own r) (targetCo2Reduction e p)
            (requiredUnits r (targetCo2Reduction e p))
            (landRequired r (targetCo2Reduction e p)) l).totalReductionPerDay) *
            JSNum.fin 365 * JSNum.fin 300 } := rfl

/-- In exact arithmetic: for a request that passed validation and named a row
of the table, the value of `totalReductionPerDay` left by the land branches is
strictly positive
and is the divisor of `timeToAchieveNeutrality`; the clamp of line 194 leaves it
unchanged. -/
theorem renewable_divisor_pos (body : RenewableBody) (r : RenewableOption)
    (hvalid : ∀ msg, calculateRenewableImpact body ≠ Response.error 400 msg)
    (hknown : getProperty renewableOptions body.selectedRenewable = Property.own r) :
    ∃ (d : Deployment) (out : RenewableData),
      d = deployment (Property.own r)
        (targetCo2Reduction body.co2EmissionsPerDay.toNumber
          body.desiredReductionPercentage.toNumber)
        (requiredUnits r (targetCo2Reduction body.co2EmissionsPerDay.toNumber
          body.desiredReductionPercentage.toNumber))
        (landRequired r (targetCo2Reduction body.co2EmissionsPerDay.toNumber
          body.desiredReductionPercentage.toNumber))
        body.availableLand.toNumber ∧
      calculateRenewableImpact body = Response.ok 200 out ∧
      (JSNum.fin 0).lt d.totalReductionPerDay = true ∧
      d.timeToAchieveNeutrality =
        (out.targetCo2Reduction / d.totalReductionPerDay).ceil ∧
      out.timeToAchieveNeutrality = d.timeToAchieveNeutrality ∧
      out.totalCo2ReductionPerDay = d.totalReductionPerDay := by
  obtain ⟨_, hE, hP, hL⟩ := (not_400_iff body).1 hvalid
  obtain ⟨hco2, hland, _⟩ := renewableOptions_pos hknown
  obtain ⟨hT, hU, hUc⟩ := required_pos (r := r) hco2 hE hP
  have hLR : (landRequired r (targetCo2Reduction body.co2EmissionsPerDay.toNumber
      body.desiredReductionPercentage.toNumber)).IsPos := JSNum.isPos_mul hU hland
  have hpos : (deployment (Property.own r)
        (targetCo2Reduction body.co2EmissionsPerDay.toNumber
          body.desiredReductionPercentage.toNumber)
        (requiredUnits r (targetCo2Reduction body.co2EmissionsPerDay.toNumber
          body.desiredReductionPercentage.toNumber))
        (landRequired r (targetCo2Reduction body.co2EmissionsPerDay.toNumber
          body.desiredReductionPercentage.toNumber))
        body.availableLand.toNumber).totalReductionPerDay.IsPos := by
    rw [deployment_own]
    split_ifs with h1 h2
    · exact hUc
    · exact (JSNum.isPos_iff_lt _).2 h2
    · have h1f : body.availableLand.toNumber.ge (landRequired r
          (targetCo2Reduction body.co2EmissionsPerDay.toNumber
            body.desiredReductionPercentage.toNumber)) = false := by simpa using h1
      obtain ⟨l, hl, hlq⟩ := JSNum.fin_of_ge_eq_false hL hLR h1f
      show (body.availableLand.toNumber *
        (JSNum.fin r.co2ReductionPerUnit / JSNum.fin r.landRequirementPerUnit)).IsPos
      rw [hlq, JSNum.fin_div_fin_eq, if_neg (ne_of_gt hland)]
      exact mul_pos hl (div_pos hco2 hland)
  refine ⟨_, _, rfl, calculateRenewableImpact_known hvalid hknown,
    (JSNum.isPos_iff_lt _).1 hpos, ?_, rfl, ?_⟩
  · rw [deployment_own]
    split_ifs <;> rfl
  · show (if _ then _ else _) = _
    rw [if_neg]
    · rfl
    · have := JSNum.isPos_le_zero hpos
      simpa using this

/-- C11 (failing input). The request with `selectedRenewable = "constructor"`
passes validation and the guard `!renewable` (it is answered 200), yet the
value of `totalReductionPerDay` that divides `targetCo2Reduction` is `NaN`,
which is not strictly positive; the clamp `<= 0` does not catch it and the
reported time is `NaN`. -/
theorem renewable_inherited_key_divisor :
    (∃ out : RenewableData,
      calculateRenewableImpact
          { solarRequest 100 with selectedRenewable := JSVal.str "constructor" } =
        Response.ok 200 out ∧
      out.totalCo2ReductionPerDay = JSNum.nan ∧ out.timeToAchieveNeutrality = JSNum.nan) ∧
    (deployment (getProperty renewableOptions (JSVal.str "constructor"))
      (targetCo2Reduction (JSNum.fin 1000) (JSNum.fin 50))
      ((targetCo2Reduction (JSNum.fin 1000) (JSNum.fin 50) /
        (getProperty renewableOptions (JSVal.str "constructor")).co2ReductionPerUnit).ceil)
      ((targetCo2Reduction (JSNum.fin 1000) (JSNum.fin 50) /
        (getProperty renewableOptions (JSVal.str "constructor")).co2ReductionPerUnit).ceil *
        (getProperty renewableOptions (JSVal.str "constructor")).landRequirementPerUnit)
      (JSNum.fin 100)).totalReductionPerDay = JSNum.nan ∧
    (JSNum.fin 0).lt JSNum.nan = false := by
  have hk : getProperty renewableOptions (JSVal.str "constructor") =
      Property.inherited (JSVal.obj "function Object() \x7b [native code] \x7d") := by
    simp [getProperty, JSVal.propertyKey, renewableOptions, List.lookup,
      objectPrototypeMember]
  refine ⟨⟨renewableData (getProperty renewableOptions (JSVal.str "constructor"))
    (JSNum.fin 1000) (JSNum.fin 50) (JSNum.fin 100), ?_, ?_, ?_⟩, ?_, rfl⟩
  · simp [calculateRenewableImpact, solarRequest, JSVal.truthy, JSVal.toNumber, hk,
      Property.truthy]
  · simp [renewableData, deployment, hk, Property.co2ReductionPerUnit,
      Property.landRequirementPerUnit, Property.costPerUnit, JSVal.toNumber, solarRequest,
      JSNum.div_eq, JSNum.mul_eq, JSNum.div, JSNum.mul, JSNum.ceil, JSNum.floor,
      JSNum.ge, JSNum.gt, JSNum.le, JSNum.lt]
  · simp [renewableData, deployment, hk, Property.co2ReductionPerUnit,
      Property.landRequirementPerUnit, Property.costPerUnit, JSVal.toNumber, solarRequest,
      JSNum.div_eq, JSNum.mul_eq, JSNum.div, JSNum.mul, JSNum.ceil, JSNum.floor,
      JSNum.ge, JSNum.gt, JSNum.le, JSNum.lt]
  · simp [deployment, hk, Property.co2ReductionPerUnit,
      Property.landRequirementPerUnit, Property.costPerUnit, JSVal.toNumber,
      JSNum.div_eq, JSNum.mul_eq, JSNum.div, JSNum.mul, JSNum.ceil, JSNum.floor,
      JSNum.ge, JSNum.gt, JSNum.le, JSNum.lt, targetCo2Reduction]

namespace JSNum

/-- Rounding up a strictly positive number gives at least one. -/
theorem one_le_ceil_of_isPos {x : JSNum} (hx : IsPos x) :
    (∃ n : ℤ, 1 ≤ n ∧ x.ceil = fin n) ∨ x.ceil = posInf := by
  cases x with
  | fin q =>
    left
    exact ⟨⌈q⌉, Int.one_le_ceil_iff.2 hx, rfl⟩
  | posInf => right; rfl
  | negInf => exact absurd hx (by simp [IsPos])
  | nan => exact absurd hx (by simp [IsPos])

end JSNum

/-- C15. Renewable sizer, fractional sub-case: a request that passes
validation, names a row `r` of the table and has
`availableLand < landRequirementPerUnit` is in Branch B with
`deployableUnits = 0`; it is answered with
`totalReductionPerDay = availableLand * (co2ReductionPerUnit / landRequirementPerUnit)`,
which is strictly positive and strictly less than `co2ReductionPerUnit`, and
with `implementationCost = deployableUnits * costPerUnit = 0`. -/
theorem renewable_fractional (body : RenewableBody) (r : RenewableOption)
    (hvalid : ∀ msg, calculateRenewableImpact body ≠ Response.error 400 msg)
    (hknown : getProperty renewableOptions body.selectedRenewable = Property.own r)
    (hsmall : body.availableLand.toNumber.lt (JSNum.fin r.landRequirementPerUnit) = true) :
    body.availableLand.toNumber.lt
      (landRequired r (targetCo2Reduction body.co2EmissionsPerDay.toNumber
        body.desiredReductionPercentage.toNumber)) = true ∧
    deployableUnits r body.availableLand.toNumber = JSNum.fin 0 ∧
    ∃ out : RenewableData, calculateRenewableImpact body = Response.ok 200 out ∧
      out.totalCo2ReductionPerDay =
        body.availableLand.toNumber *
          (JSNum.fin r.co2ReductionPerUnit / JSNum.fin r.landRequirementPerUnit) ∧
      (JSNum.fin 0).lt out.totalCo2ReductionPerDay = true ∧
      out.totalCo2ReductionPerDay.lt (JSNum.fin r.co2ReductionPerUnit) = true ∧
      out.implementationCost =
        deployableUnits r body.availableLand.toNumber * JSNum.fin r.costPerUnit ∧
      out.implementationCost = JSNum.fin 0 := by
  obtain ⟨_, hE, hP, hL⟩ := (not_400_iff body).1 hvalid
  obtain ⟨hco2, hland, _⟩ := renewableOptions_pos hknown
  obtain ⟨_, hU, _⟩ := required_pos (r := r) hco2 hE hP
  -- the land is a positive rational below one footprint
  obtain ⟨l, hl0, hl⟩ : ∃ l : ℚ, 0 < l ∧ body.availableLand.toNumber = JSNum.fin l := by
    rcases JSNum.isPos_fin_or_posInf hL with h | h
    · exact h
    · rw [h] at hsmall; simp [JSNum.lt] at hsmall
  have hl1 : l < r.landRequirementPerUnit := by
    rw [hl] at hsmall; simpa using hsmall
  have hdu : deployableUnits r body.availableLand.toNumber = JSNum.fin 0 := by
    have hfl : ⌊l / r.landRequirementPerUnit⌋ = 0 := by
      rw [Int.floor_eq_zero_iff]
      exact ⟨le_of_lt (div_pos hl0 hland), (div_lt_one hland).2 hl1⟩
    simp [deployableUnits, hl, JSNum.fin_div_fin_eq, ne_of_gt hland, hfl]
  have hB : body.availableLand.toNumber.lt
      (landRequired r (targetCo2Reduction body.co2EmissionsPerDay.toNumber
        body.desiredReductionPercentage.toNumber)) = true := by
    have hU' := JSNum.one_le_ceil_of_isPos
      (JSNum.isPos_div_fin (required_pos (r := r) hco2 hE hP).1 hco2)
    unfold landRequired requiredUnits
    rcases hU' with ⟨n, hn, hc⟩ | hc
    · rw [hc, hl]
      simp only [JSNum.fin_mul_fin, JSNum.fin_lt_fin, decide_eq_true_eq]
      have h1 : (1 : ℚ) ≤ (n : ℚ) := by exact_mod_cast hn
      nlinarith
    · rw [hc, hl]
      simp [JSNum.mul_eq, JSNum.mul, JSNum.infTimes, ne_of_gt hland, hland, JSNum.lt]
  have hge := JSNum.ge_eq_false_of_lt hB
  have hfrac : 0 < l * (r.co2ReductionPerUnit / r.landRequirementPerUnit) :=
    mul_pos hl0 (div_pos hco2 hland)
  have hd : deployment (Property.own r)
      (targetCo2Reduction body.co2EmissionsPerDay.toNumber
        body.desiredReductionPercentage.toNumber)
      (requiredUnits r (targetCo2Reduction body.co2EmissionsPerDay.toNumber
        body.desiredReductionPercentage.toNumber))
      (landRequired r (targetCo2Reduction body.co2EmissionsPerDay.toNumber
        body.desiredReductionPercentage.toNumber))
      body.availableLand.toNumber =
      { totalReductionPerDay :=
          JSNum.fin (l * (r.co2ReductionPerUnit / r.landRequirementPerUnit))
        timeToAchieveNeutrality :=
          (targetCo2Reduction body.co2EmissionsPerDay.toNumber
            body.desiredReductionPercentage.toNumber /
            JSNum.fin (l * (r.co2ReductionPerUnit / r.landRequirementPerUnit))).ceil
        implementationCost := JSNum.fin 0 } := by
    rw [deployment_own, if_neg (by simp [hge]), hdu]
    simp [hl, JSNum.fin_div_fin_eq, ne_of_gt hland]
  refine ⟨hB, hdu, _, calculateRenewableImpact_known hvalid hknown, ?_, ?_, ?_, ?_, ?_⟩
  all_goals
    simp only [renewableData]
    erw [hd]
  · simp [hl, JSNum.fin_div_fin_eq, ne_of_gt hland, not_le_of_gt hfrac]
  · simp [not_le_of_gt hfrac, hfrac]
  · simp [not_le_of_gt hfrac]
    calc l * (r.co2ReductionPerUnit / r.landRequirementPerUnit)
        = r.co2ReductionPerUnit * (l / r.landRequirementPerUnit) := by ring
      _ < r.co2ReductionPerUnit * 1 :=
          mul_lt_mul_of_pos_left ((div_lt_one hland).2 hl1) hco2
      _ = r.co2ReductionPerUnit := mul_one _
  · simp [hdu]

/-- The Solar request of the worked examples passes validation for every
positive amount of land. -/
theorem solarRequest_valid {land : ℚ} (h : 0 < land) (msg : String) :
    calculateRenewableImpact (solarRequest land) ≠ Response.error 400 msg := by
  refine (not_400_iff (solarRequest land)).2 ⟨⟨rfl, ?_, rfl, ?_, ?_⟩, ?_, ?_, ?_⟩ msg
  · simp [solarRequest, JSVal.truthy]
  · simp [solarRequest, JSVal.truthy]
  · simp [solarRequest, JSVal.truthy, ne_of_gt h]
  · simp [solarRequest, JSVal.toNumber, JSNum.IsPos]
  · simp [solarRequest, JSVal.toNumber, JSNum.IsPos]
  · simp [solarRequest, JSVal.toNumber, JSNum.IsPos, h]

/-- Witness for C15: the Solar request with 0.005 hectares (half a footprint)
deploys no unit, reduces 0.2 tons per day and costs nothing. -/
theorem renewable_fractional_witness :
    (∀ msg, calculateRenewableImpact (solarRequest 0.005) ≠ Response.error 400 msg) ∧
    getProperty renewableOptions (solarRequest 0.005).selectedRenewable = Property.own solar ∧
    (solarRequest 0.005).availableLand.toNumber.lt
      (JSNum.fin solar.landRequirementPerUnit) = true ∧
    (solarRequest 0.005).availableLand.toNumber *
        (JSNum.fin solar.co2ReductionPerUnit / JSNum.fin solar.landRequirementPerUnit) =
      JSNum.fin 0.2 ∧
    ((solarRequest 0.005).availableLand.toNumber.lt
      (landRequired solar (targetCo2Reduction (solarRequest 0.005).co2EmissionsPerDay.toNumber
        (solarRequest 0.005).desiredReductionPercentage.toNumber)) = true ∧
    deployableUnits solar (solarRequest 0.005).availableLand.toNumber = JSNum.fin 0 ∧
    ∃ out : RenewableData,
      calculateRenewableImpact (solarRequest 0.005) = Response.ok 200 out ∧
      out.totalCo2ReductionPerDay =
        (solarRequest 0.005).availableLand.toNumber *
          (JSNum.fin solar.co2ReductionPerUnit / JSNum.fin solar.landRequirementPerUnit) ∧
      (JSNum.fin 0).lt out.totalCo2ReductionPerDay = true ∧
      out.totalCo2ReductionPerDay.lt (JSNum.fin solar.co2ReductionPerUnit) = true ∧
      out.implementationCost =
        deployableUnits solar (solarRequest 0.005).availableLand.toNumber *
          JSNum.fin solar.costPerUnit ∧
      out.implementationCost = JSNum.fin 0) := by
  have h3 : (solarRequest 0.005).availableLand.toNumber.lt
      (JSNum.fin solar.landRequirementPerUnit) = true := by
    simp [solarRequest, JSVal.toNumber, solar]
    norm_num
  have h4 : (solarRequest 0.005).availableLand.toNumber *
        (JSNum.fin solar.co2ReductionPerUnit / JSNum.fin solar.landRequirementPerUnit) =
      JSNum.fin 0.2 := by
    simp [solarRequest, JSVal.toNumber, solar, JSNum.fin_div_fin_eq]
    norm_num
  exact ⟨solarRequest_valid (by norm_num), getProperty_solar, h3, h4,
    renewable_fractional (solarRequest 0.005) solar (solarRequest_valid (by norm_num))
      getProperty_solar h3⟩

/-! ## Capture economics: defaults, signs and status -/

/-- Every member inherited from `Object.prototype` is truthy and converts to
`NaN`. -/
theorem objectPrototypeMember_some {k : String} {v : JSVal}
    (h : objectPrototypeMember k = some v) : v.truthy = true ∧ v.toNumber = JSNum.nan := by
  by_cases h1 : k = "__proto__"
  · subst h1
    simp [objectPrototypeMember] at h
    subst h
    exact ⟨rfl, rfl⟩
  by_cases h2 : k ∈ ["constructor", "hasOwnProperty", "isPrototypeOf",
      "propertyIsEnumerable", "toLocaleString", "toString", "valueOf",
      "__defineGetter__", "__defineSetter__", "__lookupGetter__",
      "__lookupSetter__"]
  · simp only [List.mem_cons, List.mem_singleton, List.not_mem_nil, or_false] at h2
    rcases h2 with rfl | rfl | rfl | rfl | rfl | rfl | rfl | rfl | rfl | rfl | rfl <;>
      (simp [objectPrototypeMember] at h; subst h; exact ⟨rfl, rfl⟩)
  · simp [objectPrototypeMember, h1, h2] at h

/-- A value found by `List.lookup` is one of the values of the table. -/
theorem mem_of_lookup {k : String} {a : ℚ} :
    ∀ {table : List (String × ℚ)}, table.lookup k = some a → a ∈ table.map Prod.snd
  | [], h => by simp [List.lookup] at h
  | (k', b) :: rest, h => by
    simp only [List.lookup] at h
    cases hk : (k == k') with
    | true =>
      rw [hk] at h
      simp only [Option.some.injEq] at h
      simp [h]
    | false =>
      rw [hk] at h
      simp only [List.map_cons, List.mem_cons]
      exact Or.inr (mem_of_lookup h)

/-- When `table[key] || d` converts to a finite number, that number is the
default `d` or a value of the table. -/
theorem efficiency_fin {table : List (String × ℚ)} {key : JSVal} {d e : ℚ}
    (h : ((getNumberProperty table key).orElse (JSVal.num (JSNum.fin d))).toNumber =
      JSNum.fin e) :
    e = d ∨ e ∈ table.map Prod.snd := by
  unfold JSVal.orElse at h
  split_ifs at h with ht
  · unfold getNumberProperty getProperty at h ht
    cases hk : key.propertyKey with
    | none => simp [hk, JSVal.truthy] at ht
    | some k =>
      simp only [hk] at h ht
      cases hl : table.lookup k with
      | some a =>
        simp only [hl, toNumber_num, JSNum.fin.injEq] at h
        exact Or.inr (h ▸ mem_of_lookup hl)
      | none =>
        simp only [hl] at h ht
        cases hm : objectPrototypeMember k with
        | some v =>
          simp only [hm] at h
          rw [(objectPrototypeMember_some hm).2] at h
          exact absurd h (by simp)
        | none => simp [hm, JSVal.truthy] at ht
  · simp only [toNumber_num, JSNum.fin.injEq] at h
    exact Or.inl h.symm

/-- A numeric CCS capture efficiency is strictly positive. -/
theorem ccsCaptureEfficiency_pos {t : JSVal} {e : ℚ}
    (h : (ccsCaptureEfficiency t).toNumber = JSNum.fin e) : 0 < e := by
  rcases efficiency_fin h with rfl | hm
  · norm_num
  · simp only [captureEfficiencyMap, List.map_cons, List.map_nil, List.mem_cons,
      List.mem_singleton, List.not_mem_nil, or_false] at hm
    rcases hm with rfl | rfl | rfl <;> norm_num

/-- A numeric MCS capture efficiency is strictly positive. -/
theorem mcsCaptureEfficiency_pos {t : JSVal} {e : ℚ}
    (h : (mcsCaptureEfficiency t).toNumber = JSNum.fin e) : 0 < e := by
  rcases efficiency_fin h with rfl | hm
  · norm_num
  · simp only [mcsCaptureEfficiencyMap, List.map_cons, List.map_nil, List.mem_cons,
      List.mem_singleton, List.not_mem_nil, or_false] at hm
    rcases hm with rfl | rfl | rfl <;> norm_num

/-- The record of the CCS request with the Post-combustion technology and the
default costs. -/
theorem ccsRequest_postCombustion :
    ccsRecord (ccsRequest (JSVal.str "Post-combustion")) =
      { annualEmissions := JSNum.fin 1000
        installationCostPerTon := JSNum.fin 2000
        annualMaintenanceCost := JSNum.fin 10000000
        captureEfficiency := JSVal.num (JSNum.fin 0.85)
        capturedCO2 := JSNum.fin 850
        installationCost := JSNum.fin 1700000
        maintenanceCost := JSNum.fin 10000000
        carbonCreditRevenue := JSNum.fin 1275000
        totalCostForFirstYear := JSNum.fin 11700000
        totalRevenueForFirstYear := JSNum.fin 1275000
        netProfitForFirstYear := JSNum.fin (-10425000)
        annualNetProfit := JSNum.fin (-8725000)
        totalProfitForTenYears := JSNum.fin (-88950000) } := by
  simp [ccsRecord, ccsRequest, ccsCaptureEfficiency_table.1, convertToNumber, JSNum.isNaN]
  norm_num

/-- C12 (counterexample). With 1000 tons, Post-combustion and the default costs
(all non-negative) the three profit fields of the CCS record are negative. -/
theorem ccs_profit_negative :
    (ccsRecord (ccsRequest (JSVal.str "Post-combustion"))).annualEmissions = JSNum.fin 1000 ∧
    (ccsRecord (ccsRequest (JSVal.str "Post-combustion"))).installationCostPerTon =
      JSNum.fin 2000 ∧
    (ccsRecord (ccsRequest (JSVal.str "Post-combustion"))).annualMaintenanceCost =
      JSNum.fin 10000000 ∧
    (ccsRecord (ccsRequest (JSVal.str "Post-combustion"))).netProfitForFirstYear =
      JSNum.fin (-10425000) ∧
    (ccsRecord (ccsRequest (JSVal.str "Post-combustion"))).annualNetProfit =
      JSNum.fin (-8725000) ∧
    (ccsRecord (ccsRequest (JSVal.str "Post-combustion"))).totalProfitForTenYears =
      JSNum.fin (-88950000) ∧
    (JSNum.fin 0).le
      (ccsRecord (ccsRequest (JSVal.str "Post-combustion"))).netProfitForFirstYear = false := by
  rw [ccsRequest_postCombustion]
  refine ⟨rfl, rfl, rfl, rfl, rfl, rfl, ?_⟩
  norm_num

/-- C12 (amended). For a CCS or MCS calculation whose converted annual
emissions, cost per ton and maintenance cost are finite and non-negative and
whose technology yields a numeric efficiency, the captured mass, the
installation cost, the revenues and the first-year cost are non-negative
(nothing is said of the three profit fields, which can be negative). -/
theorem capture_quantities_nonneg :
    (∀ (body : CCSBody) (a c m e : ℚ),
      (ccsRecord body).annualEmissions = JSNum.fin a → 0 ≤ a →
      (ccsRecord body).installationCostPerTon = JSNum.fin c → 0 ≤ c →
      (ccsRecord body).annualMaintenanceCost = JSNum.fin m → 0 ≤ m →
      (ccsCaptureEfficiency body.ccsTechnology).toNumber = JSNum.fin e →
      (JSNum.fin 0).le (ccsRecord body).capturedCO2 = true ∧
      (JSNum.fin 0).le (ccsRecord body).installationCost = true ∧
      (JSNum.fin 0).le (ccsRecord body).carbonCreditRevenue = true ∧
      (JSNum.fin 0).le (ccsRecord body).totalCostForFirstYear = true ∧
      (JSNum.fin 0).le (ccsRecord body).totalRevenueForFirstYear = true) ∧
    (∀ (body : MCSBody) (a c m e : ℚ),
      (mcsRecord body).annualMethaneEmissions = JSNum.fin a → 0 ≤ a →
      (mcsRecord body).installationCostPerTon = JSNum.fin c → 0 ≤ c →
      (mcsRecord body).annualMaintenanceCost = JSNum.fin m → 0 ≤ m →
      (mcsCaptureEfficiency body.mcsTechnology).toNumber = JSNum.fin e →
      (JSNum.fin 0).le (mcsRecord body).capturedMethane = true ∧
      (JSNum.fin 0).le (mcsRecord body).co2Equivalent = true ∧
      (JSNum.fin 0).le (mcsRecord body).installationCost = true ∧
      (JSNum.fin 0).le (mcsRecord body).carbonCreditRevenue = true ∧
      (JSNum.fin 0).le (mcsRecord body).methaneRevenue = true ∧
      (JSNum.fin 0).le (mcsRecord body).totalRevenue = true ∧
      (JSNum.fin 0).le (mcsRecord body).totalCostForFirstYear = true) := by
  constructor
  · intro body a c m e ha ha0 hc hc0 hm hm0 he
    have hepos := ccsCaptureEfficiency_pos he
    have ha' : convertToNumber body.annualEmissions (JSNum.fin 0) = JSNum.fin a := ha
    have hc' : convertToNumber body.installationCostPerTon (JSNum.fin 2000) = JSNum.fin c := hc
    have hm' : convertToNumber body.annualMaintenanceCost (JSNum.fin 10000000) =
        JSNum.fin m := hm
    have hae : 0 ≤ a * e := mul_nonneg ha0 (le_of_lt hepos)
    simp only [ccsRecord, ha', hc', hm', he, JSNum.fin_mul_fin, JSNum.fin_add_fin,
      JSNum.fin_le_fin, decide_eq_true_eq]
    refine ⟨hae, by positivity, by positivity, by positivity, by positivity⟩
  · intro body a c m e ha ha0 hc hc0 hm hm0 he
    have hepos := mcsCaptureEfficiency_pos he
    have ha' : convertToNumber body.annualMethaneEmissions (JSNum.fin 0) = JSNum.fin a := ha
    have hc' : convertToNumber body.installationCostPerTon (JSNum.fin 3000) = JSNum.fin c := hc
    have hm' : convertToNumber body.annualMaintenanceCost (JSNum.fin 10000000) =
        JSNum.fin m := hm
    have hae : 0 ≤ a * e := mul_nonneg ha0 (le_of_lt hepos)
    simp only [mcsRecord, ha', hc', hm', he, JSNum.fin_mul_fin, JSNum.fin_add_fin,
      JSNum.fin_le_fin, decide_eq_true_eq]
    refine ⟨hae, by positivity, by positivity, by positivity, by positivity, by positivity,
      by positivity⟩

/-- Witness for C12 (amended): the CCS request with Post-combustion and the
default costs. -/
theorem capture_quantities_nonneg_witness :
    (JSNum.fin 0).le (ccsRecord (ccsRequest (JSVal.str "Post-combustion"))).capturedCO2 =
        true ∧
    (JSNum.fin 0).le
      (ccsRecord (ccsRequest (JSVal.str "Post-combustion"))).installationCost = true ∧
    (JSNum.fin 0).le
      (ccsRecord (ccsRequest (JSVal.str "Post-combustion"))).carbonCreditRevenue = true ∧
    (JSNum.fin 0).le
      (ccsRecord (ccsRequest (JSVal.str "Post-combustion"))).totalCostForFirstYear = true ∧
    (JSNum.fin 0).le
      (ccsRecord (ccsRequest (JSVal.str "Post-combustion"))).totalRevenueForFirstYear = true :=
  capture_quantities_nonneg.1 (ccsRequest (JSVal.str "Post-combustion")) 1000 2000 10000000
    0.85 (by rw [ccsRequest_postCombustion]) (by norm_num)
    (by rw [ccsRequest_postCombustion]) (by norm_num)
    (by rw [ccsRequest_postCombustion]) (by norm_num)
    (by show (ccsCaptureEfficiency (JSVal.str "Post-combustion")).toNumber = _
        rw [ccsCaptureEfficiency_table.1]; rfl)

/-- C13. CCS default-value substitution: an absent `installationCostPerTon`
gives `costPerTon = 2000`, an absent `annualMaintenanceCost` gives
`maintenanceCost = 10,000,000`, a field that converts to a finite number is used
unchanged, and with both absent `installationCost = capturedCO2 * 2000` and
`totalCostForFirstYear = capturedCO2 * 2000 + 10,000,000`. -/
theorem ccs_defaults (body : CCSBody) :
    (body.installationCostPerTon = JSVal.undefined →
      (ccsRecord body).installationCostPerTon = JSNum.fin 2000) ∧
    (body.annualMaintenanceCost = JSVal.undefined →
      (ccsRecord body).maintenanceCost = JSNum.fin 10000000 ∧
      (ccsRecord body).annualMaintenanceCost = JSNum.fin 10000000) ∧
    (∀ c : ℚ, body.installationCostPerTon.toNumber = JSNum.fin c →
      (ccsRecord body).installationCostPerTon = JSNum.fin c) ∧
    (∀ m : ℚ, body.annualMaintenanceCost.toNumber = JSNum.fin m →
      (ccsRecord body).maintenanceCost = JSNum.fin m ∧
      (ccsRecord body).annualMaintenanceCost = JSNum.fin m) ∧
    (body.installationCostPerTon = JSVal.undefined →
      body.annualMaintenanceCost = JSVal.undefined →
      (ccsRecord body).installationCost = (ccsRecord body).capturedCO2 * JSNum.fin 2000 ∧
      (ccsRecord body).totalCostForFirstYear =
        (ccsRecord body).capturedCO2 * JSNum.fin 2000 + JSNum.fin 10000000) := by
  refine ⟨?_, ?_, ?_, ?_, ?_⟩
  · intro h
    simp [ccsRecord, convertToNumber, h, JSNum.isNaN]
  · intro h
    simp [ccsRecord, convertToNumber, h, JSNum.isNaN]
  · intro c h
    simp [ccsRecord, convertToNumber_of_fin h]
  · intro m h
    simp [ccsRecord, convertToNumber_of_fin h]
  · intro h1 h2
    simp [ccsRecord, convertToNumber, h1, h2, JSNum.isNaN]

/-- Witness for C13: the request without cost fields, and a request with the
costs 2500 (a number) and 400000 (a numeric string). -/
theorem ccs_defaults_witness :
    ((ccsRecord (ccsRequest (JSVal.str "Post-combustion"))).installationCostPerTon =
        JSNum.fin 2000 ∧
      (ccsRecord (ccsRequest (JSVal.str "Post-combustion"))).maintenanceCost =
        JSNum.fin 10000000 ∧
      (ccsRecord (ccsRequest (JSVal.str "Post-combustion"))).installationCost =
        (ccsRecord (ccsRequest (JSVal.str "Post-combustion"))).capturedCO2 *
          JSNum.fin 2000 ∧
      (ccsRecord (ccsRequest (JSVal.str "Post-combustion"))).totalCostForFirstYear =
        (ccsRecord (ccsRequest (JSVal.str "Post-combustion"))).capturedCO2 *
          JSNum.fin 2000 + JSNum.fin 10000000) ∧
    (ccsRecord
      { ccsRequest (JSVal.str "Post-combustion") with
        installationCostPerTon := JSVal.num (JSNum.fin 2500)
        annualMaintenanceCost := JSVal.str "400000" }).installationCostPerTon =
      JSNum.fin 2500 ∧
    (ccsRecord
      { ccsRequest (JSVal.str "Post-combustion") with
        installationCostPerTon := JSVal.num (JSNum.fin 2500)
        annualMaintenanceCost := JSVal.str "400000" }).maintenanceCost =
      JSNum.fin 400000 :=
  ⟨⟨(ccs_defaults (ccsRequest (JSVal.str "Post-combustion"))).1 rfl,
      ((ccs_defaults (ccsRequest (JSVal.str "Post-combustion"))).2.1 rfl).1,
      (ccs_defaults (ccsRequest (JSVal.str "Post-combustion"))).2.2.2.2 rfl rfl⟩,
    (ccs_defaults
      { ccsRequest (JSVal.str "Post-combustion") with
        installationCostPerTon := JSVal.num (JSNum.fin 2500)
        annualMaintenanceCost := JSVal.str "400000" }).2.2.1 2500 rfl,
    ((ccs_defaults
      { ccsRequest (JSVal.str "Post-combustion") with
        installationCostPerTon := JSVal.num (JSNum.fin 2500)
        annualMaintenanceCost := JSVal.str "400000" }).2.2.2.1 400000 rfl).1⟩

/-- C14 (counterexample). A persisted CCS calculation is answered with status
200: no response with status 201 is produced. -/
theorem ccs_status_not_201 :
    calculateCCS true (ccsRequest (JSVal.str "Post-combustion")) =
      Response.ok 200 (ccsRecord (ccsRequest (JSVal.str "Post-combustion"))) ∧
    ¬ ∃ d, calculateCCS true (ccsRequest (JSVal.str "Post-combustion")) = Response.ok 201 d := by
  refine ⟨rfl, ?_⟩
  rintro ⟨d, hd⟩
  have h : Response.ok 200 (ccsRecord (ccsRequest (JSVal.str "Post-combustion"))) =
      Response.ok 201 d := hd
  simp at h

/-- C14 (amended). Every persisted `calculateCCS` and `calculateMCS` request is
answered with status 200, every persisted `createSink` and `createExistingSink`
request with status 201, and every computed renewable answer has status 200;
a failed write gives status 500 in the four persisting handlers. -/
theorem response_status (ccs : CCSBody) (mcs : MCSBody) (sink : SinkBody)
    (renewable : RenewableBody) :
    calculateCCS true ccs = Response.ok 200 (ccsRecord ccs) ∧
    calculateMCS true mcs = Response.ok 200 (mcsRecord mcs) ∧
    (∃ d, createSink true sink = Response.ok 201 d) ∧
    (∃ d, createExistingSink true sink = Response.ok 201 d) ∧
    (∀ status d, calculateRenewableImpact renewable = Response.ok status d → status = 200) ∧
    (∃ msg, calculateCCS false ccs = Response.error 500 msg) ∧
    (∃ msg, calculateMCS false mcs = Response.error 500 msg) ∧
    (∃ msg, createSink false sink = Response.error 500 msg) ∧
    (∃ msg, createExistingSink false sink = Response.error 500 msg) := by
  refine ⟨rfl, rfl, ⟨_, rfl⟩, ⟨_, rfl⟩, ?_, ⟨_, rfl⟩, ⟨_, rfl⟩, ⟨_, rfl⟩, ⟨_, rfl⟩⟩
  intro status d h
  unfold calculateRenewableImpact at h
  dsimp only at h
  split_ifs at h
  simp at h
  exact h.1.symm

/-- The rows of the MCS efficiency table, the default for an absent or unlisted
technology, and the cost and profit formulas of `calculateMCS`, which are those
of `calculateCCS` with `totalRevenue` in the place of `carbonCreditRevenue`. -/
theorem mcs_pipeline (body : MCSBody) :
    mcsCaptureEfficiency (JSVal.str "Flaring") = JSVal.num (JSNum.fin 0.9) ∧
    mcsCaptureEfficiency (JSVal.str "CatalyticOxidation") = JSVal.num (JSNum.fin 0.85) ∧
    mcsCaptureEfficiency (JSVal.str "MembraneSeparation") = JSVal.num (JSNum.fin 0.92) ∧
    mcsCaptureEfficiency JSVal.undefined = JSVal.num (JSNum.fin 0.85) ∧
    mcsCaptureEfficiency (JSVal.str "Venting") = JSVal.num (JSNum.fin 0.85) ∧
    (mcsRecord body).capturedMethane =
      (mcsRecord body).annualMethaneEmissions *
        (mcsCaptureEfficiency body.mcsTechnology).toNumber ∧
    (mcsRecord body).installationCost =
      (mcsRecord body).capturedMethane * (mcsRecord body).installationCostPerTon ∧
    (mcsRecord body).totalCostForFirstYear =
      (mcsRecord body).installationCost + (mcsRecord body).maintenanceCost ∧
    (mcsRecord body).netProfitForFirstYear =
      (mcsRecord body).totalRevenue - (mcsRecord body).totalCostForFirstYear ∧
    (mcsRecord body).annualNetProfit =
      (mcsRecord body).totalRevenue - (mcsRecord body).maintenanceCost ∧
    (mcsRecord body).totalProfitForTenYears =
      (mcsRecord body).netProfitForFirstYear + (mcsRecord body).annualNetProfit * JSNum.fin 9 := by
  refine ⟨?_, ?_, ?_, ?_, ?_, rfl, rfl, rfl, rfl, rfl, rfl⟩ <;>
    simp [mcsCaptureEfficiency, getNumberProperty, getProperty, JSVal.propertyKey,
      mcsCaptureEfficiencyMap, List.lookup, objectPrototypeMember, JSVal.orElse,
      JSVal.truthy] <;>
    norm_num

/-- C16 (failing input). With `mcsTechnology = "constructor"` the lookup
`captureEfficiencyMap[mcsTechnology]` finds the member inherited from
`Object.prototype`, which is truthy, so the default `|| 0.85` is not taken: the
efficiency is a function, and the captured methane of 1000 tons and every
cost and profit field computed from it are `NaN`. -/
theorem mcs_inherited_key_efficiency :
    mcsCaptureEfficiency (JSVal.str "constructor") =
        JSVal.obj "function Object() \x7b [native code] \x7d" ∧
    mcsCaptureEfficiency (JSVal.str "constructor") ≠ JSVal.num (JSNum.fin 0.85) ∧
    (mcsRecord (mcsRequest (JSVal.str "constructor"))).annualMethaneEmissions =
      JSNum.fin 1000 ∧
    (mcsRecord (mcsRequest (JSVal.str "constructor"))).capturedMethane = JSNum.nan ∧
    (mcsRecord (mcsRequest (JSVal.str "constructor"))).installationCost = JSNum.nan ∧
    (mcsRecord (mcsRequest (JSVal.str "constructor"))).totalProfitForTenYears = JSNum.nan := by
  have hk : mcsCaptureEfficiency (JSVal.str "constructor") =
      JSVal.obj "function Object() \x7b [native code] \x7d" := by
    simp [mcsCaptureEfficiency, getNumberProperty, getProperty, JSVal.propertyKey,
      mcsCaptureEfficiencyMap, List.lookup, objectPrototypeMember, JSVal.orElse, JSVal.truthy]
  have hn : (JSVal.obj "function Object() \x7b [native code] \x7d").toNumber = JSNum.nan := by
    rfl
  refine ⟨hk, ?_, ?_, ?_, ?_, ?_⟩
  · rw [hk]; simp
  · simp [mcsRecord, mcsRequest, convertToNumber, JSNum.isNaN]
  · simp [mcsRecord, mcsRequest, hk, hn, convertToNumber, JSNum.isNaN, JSNum.mul_eq, JSNum.mul]
  · simp [mcsRecord, mcsRequest, hk, hn, convertToNumber, JSNum.isNaN, JSNum.mul_eq, JSNum.mul]
  · simp [mcsRecord, mcsRequest, hk, hn, convertToNumber, JSNum.isNaN, JSNum.mul_eq,
      JSNum.add_eq, JSNum.sub_eq, JSNum.mul, JSNum.add, JSNum.neg]

/-! ## Sink calculator: the timeframe default -/

namespace JSNum

/-- Multiplying by one changes no number. -/
theorem mul_fin_one (x : JSNum) : x * fin 1 = x := by
  cases x <;> simp [mul_eq, mul, infTimes]

end JSNum

/-- C20. Sink timeframe default: in `createSink` and `createExistingSink` a
supplied timeframe of `0` is replaced by `1`, so that
`totalSequestration = areaCovered * carbonSequestrationRate` and the reported
period is 1; for every other numeric timeframe `t` (a number that is neither
`0` nor `NaN`) the total is `areaCovered * carbonSequestrationRate * t` and the
reported period is `t`. -/
theorem sink_timeframe_default (body : SinkBody) :
    (body.timeframe = JSVal.num (JSNum.fin 0) →
      (∃ d, createSink true body = Response.ok 201 d ∧
        d.totalSequestration =
          body.areaCovered.toNumber * body.carbonSequestrationRate.toNumber ∧
        d.period = JSVal.num (JSNum.fin 1)) ∧
      (∃ d, createExistingSink true body = Response.ok 201 d ∧
        d.totalSequestration =
          body.areaCovered.toNumber * body.carbonSequestrationRate.toNumber ∧
        d.period = JSVal.num (JSNum.fin 1))) ∧
    (∀ t : JSNum, t ≠ JSNum.fin 0 → t ≠ JSNum.nan → body.timeframe = JSVal.num t →
      (∃ d, createSink true body = Response.ok 201 d ∧
        d.totalSequestration =
          body.areaCovered.toNumber * body.carbonSequestrationRate.toNumber * t ∧
        d.period = JSVal.num t) ∧
      (∃ d, createExistingSink true body = Response.ok 201 d ∧
        d.totalSequestration =
          body.areaCovered.toNumber * body.carbonSequestrationRate.toNumber * t ∧
        d.period = JSVal.num t)) := by
  constructor
  · intro h0
    have ho : body.timeframe.orElse (JSVal.num (JSNum.fin 1)) = JSVal.num (JSNum.fin 1) := by
      simp [h0, JSVal.orElse, JSVal.truthy]
    refine ⟨⟨_, rfl, ?_, ?_⟩, ⟨_, rfl, ?_, ?_⟩⟩
    · show _ * (body.timeframe.orElse (JSVal.num (JSNum.fin 1))).toNumber = _
      rw [ho]
      exact JSNum.mul_fin_one _
    · exact ho
    · show _ * (body.timeframe.orElse (JSVal.num (JSNum.fin 1))).toNumber = _
      rw [ho]
      exact JSNum.mul_fin_one _
    · exact ho
  · intro t ht0 htn h
    have ho : body.timeframe.orElse (JSVal.num (JSNum.fin 1)) = JSVal.num t := by
      simp [h, JSVal.orElse, JSVal.truthy, ht0, htn]
    refine ⟨⟨_, rfl, ?_, ?_⟩, ⟨_, rfl, ?_, ?_⟩⟩
    · show _ * (body.timeframe.orElse (JSVal.num (JSNum.fin 1))).toNumber = _
      rw [ho]
      rfl
    · exact ho
    · show _ * (body.timeframe.orElse (JSVal.num (JSNum.fin 1))).toNumber = _
      rw [ho]
      rfl
    · exact ho

/-- Witness for C20: 10 hectares at 2 tons, with the timeframe 0 (total 20, one
year) and with the timeframe 3 (total 60). -/
theorem sink_timeframe_default_witness :
    (createSink true
        (groveRequest (JSVal.num (JSNum.fin 10)) (JSVal.num (JSNum.fin 2))
          (JSVal.num (JSNum.fin 0))) =
      Response.ok 201
        { dailySequestrationRate := JSNum.fin (10 * 2 / 365)
          totalSequestration := JSNum.fin 20
          period := JSVal.num (JSNum.fin 1) }) ∧
    ((∃ d, createSink true
        (groveRequest (JSVal.num (JSNum.fin 10)) (JSVal.num (JSNum.fin 2))
          (JSVal.num (JSNum.fin 0))) = Response.ok 201 d ∧
        d.totalSequestration =
          (groveRequest (JSVal.num (JSNum.fin 10)) (JSVal.num (JSNum.fin 2))
            (JSVal.num (JSNum.fin 0))).areaCovered.toNumber *
          (groveRequest (JSVal.num (JSNum.fin 10)) (JSVal.num (JSNum.fin 2))
            (JSVal.num (JSNum.fin 0))).carbonSequestrationRate.toNumber ∧
        d.period = JSVal.num (JSNum.fin 1)) ∧
      (∃ d, createExistingSink true
        (groveRequest (JSVal.num (JSNum.fin 10)) (JSVal.num (JSNum.fin 2))
          (JSVal.num (JSNum.fin 0))) = Response.ok 201 d ∧
        d.totalSequestration =
          (groveRequest (JSVal.num (JSNum.fin 10)) (JSVal.num (JSNum.fin 2))
            (JSVal.num (JSNum.fin 0))).areaCovered.toNumber *
          (groveRequest (JSVal.num (JSNum.fin 10)) (JSVal.num (JSNum.fin 2))
            (JSVal.num (JSNum.fin 0))).carbonSequestrationRate.toNumber ∧
        d.period = JSVal.num (JSNum.fin 1))) ∧
    ((∃ d, createSink true
        (groveRequest (JSVal.num (JSNum.fin 10)) (JSVal.num (JSNum.fin 2))
          (JSVal.num (JSNum.fin 3))) = Response.ok 201 d ∧
        d.totalSequestration =
          (groveRequest (JSVal.num (JSNum.fin 10)) (JSVal.num (JSNum.fin 2))
            (JSVal.num (JSNum.fin 3))).areaCovered.toNumber *
          (groveRequest (JSVal.num (JSNum.fin 10)) (JSVal.num (JSNum.fin 2))
            (JSVal.num (JSNum.fin 3))).carbonSequestrationRate.toNumber * JSNum.fin 3 ∧
        d.period = JSVal.num (JSNum.fin 3)) ∧
      (∃ d, createExistingSink true
        (groveRequest (JSVal.num (JSNum.fin 10)) (JSVal.num (JSNum.fin 2))
          (JSVal.num (JSNum.fin 3))) = Response.ok 201 d ∧
        d.totalSequestration =
          (groveRequest (JSVal.num (JSNum.fin 10)) (JSVal.num (JSNum.fin 2))
            (JSVal.num (JSNum.fin 3))).areaCovered.toNumber *
          (groveRequest (JSVal.num (JSNum.fin 10)) (JSVal.num (JSNum.fin 2))
            (JSVal.num (JSNum.fin 3))).carbonSequestrationRate.toNumber * JSNum.fin 3 ∧
        d.period = JSVal.num (JSNum.fin 3))) := by
  refine ⟨?_, (sink_timeframe_default _).1 rfl,
    (sink_timeframe_default _).2 (JSNum.fin 3) (by simp) (by simp) rfl⟩
  simp [createSink, groveRequest, JSVal.orElse, JSVal.truthy, JSNum.fin_div_fin_eq]
  norm_num

namespace Binary64

/-! ## Binary64: rounding -/

theorem floor_le_roundHalfEven (x : ℚ) : ⌊x⌋ ≤ roundHalfEven x := by
  unfold roundHalfEven
  split_ifs <;> omega

theorem roundHalfEven_eq {x : ℚ} {n : ℤ} (h1 : (n : ℚ) - 1 / 2 < x) (h2 : x < n + 1 / 2) :
    roundHalfEven x = n := by
  unfold roundHalfEven
  rcases le_or_lt (n : ℚ) x with hx | hx
  · have hf : ⌊x⌋ = n := by
      rw [Int.floor_eq_iff]
      constructor
      · exact hx
      · linarith
    rw [hf, if_pos (by linarith)]
  · have hf : ⌊x⌋ = n - 1 := by
      rw [Int.floor_eq_iff]
      push_cast
      constructor
      · linarith
      · linarith
    rw [hf]
    push_cast
    rw [if_neg (by linarith), if_pos (by linarith)]
    ring

/-- The exponent used by `round64` for a positive rational between two
consecutive powers of two. -/
theorem exponent_eq {q : ℚ} {e : ℤ} (hq : 0 < q) (he : -1022 ≤ e)
    (hlo : (2 : ℚ) ^ e ≤ q ∨ e = -1022) (hhi : q < (2 : ℚ) ^ (e + 1)) :
    max (Int.log 2 q) (-1022) = e := by
  have hlt : Int.log 2 q < e + 1 := (Int.lt_zpow_iff_log_lt (by norm_num) hq).1
      (by exact_mod_cast hhi)
  rcases hlo with h | h
  · have hle : e ≤ Int.log 2 q := (Int.zpow_le_iff_le_log (by norm_num) hq).1 (by exact_mod_cast h)
    have : Int.log 2 q = e := by omega
    rw [this]
    exact max_eq_left he
  · subst h
    exact max_eq_right (by omega)

/-- Evaluation of `round64` at a positive rational, from its exponent `e` and
its rounded significand `n`. -/
theorem round64_of_pos {q : ℚ} (e n : ℤ) (hq : 0 < q) (he : -1022 ≤ e)
    (hlo : (2 : ℚ) ^ e ≤ q ∨ e = -1022) (hhi : q < (2 : ℚ) ^ (e + 1))
    (h1 : (n : ℚ) - 1 / 2 < q / (2 : ℚ) ^ (e - 52))
    (h2 : q / (2 : ℚ) ^ (e - 52) < n + 1 / 2)
    (hfin : (n : ℚ) * (2 : ℚ) ^ (e - 52) < (2 : ℚ) ^ (1024 : ℕ)) :
    round64 q = JSNum.fin ((n : ℚ) * (2 : ℚ) ^ (e - 52)) := by
  unfold round64
  rw [if_neg (ne_of_gt hq)]
  simp only [abs_of_pos hq, exponent_eq hq he hlo hhi, roundHalfEven_eq h1 h2]
  rw [if_neg (not_le_of_gt hfin), if_pos hq]

theorem round64_zero : round64 0 = JSNum.fin 0 := by
  simp [round64]

theorem round64_neg (q : ℚ) : round64 (-q) = (round64 q).neg := by
  unfold round64
  by_cases h0 : q = 0
  · simp [h0, JSNum.neg]
  · rw [if_neg (by simpa using h0), if_neg h0]
    simp only [abs_neg, Left.neg_pos_iff]
    rcases lt_or_gt_of_ne h0 with h | h
    · have h' : ¬ 0 < q := not_lt_of_gt h
      split_ifs <;> simp [JSNum.neg]
    · have h' : ¬ q < 0 := not_lt_of_gt h
      split_ifs <;> simp [JSNum.neg]

/-- A rational in the normal range rounds to a strictly positive number. -/
theorem round64_isPos {q : ℚ} (hq : (2 : ℚ) ^ (-1022 : ℤ) ≤ q) : (round64 q).IsPos := by
  have hq0 : 0 < q := lt_of_lt_of_le (by positivity) hq
  have he : (2 : ℚ) ^ (max (Int.log 2 q) (-1022)) ≤ q := by
    rcases le_total (Int.log 2 q) (-1022) with h | h
    · rw [max_eq_right h]; exact hq
    · rw [max_eq_left h]
      exact_mod_cast Int.zpow_log_le_self (by norm_num) hq0
  have hu : (0 : ℚ) < (2 : ℚ) ^ (max (Int.log 2 q) (-1022) - 52) := by positivity
  have hx : (1 : ℚ) ≤ q / (2 : ℚ) ^ (max (Int.log 2 q) (-1022) - 52) := by
    rw [le_div_iff₀ hu, one_mul]
    refine le_trans ?_ he
    exact zpow_le_zpow_right₀ (by norm_num) (by omega)
  have hn : (1 : ℤ) ≤ roundHalfEven (q / (2 : ℚ) ^ (max (Int.log 2 q) (-1022) - 52)) :=
    le_trans (Int.le_floor.2 (by exact_mod_cast hx)) (floor_le_roundHalfEven _)
  have hr : (0 : ℚ) <
      (roundHalfEven (q / (2 : ℚ) ^ (max (Int.log 2 q) (-1022) - 52)) : ℚ) *
        (2 : ℚ) ^ (max (Int.log 2 q) (-1022) - 52) :=
    mul_pos (by exact_mod_cast (by omega : (0 : ℤ) <
      roundHalfEven (q / (2 : ℚ) ^ (max (Int.log 2 q) (-1022) - 52)))) hu
  unfold round64
  rw [if_neg (ne_of_gt hq0)]
  simp only [abs_of_pos hq0, if_pos hq0]
  split_ifs
  · trivial
  · exact hr

theorem mul_fin (a b : ℚ) : mul (JSNum.fin a) (JSNum.fin b) = round64 (a * b) := rfl

theorem add_fin (a b : ℚ) : add (JSNum.fin a) (JSNum.fin b) = round64 (a + b) := rfl

theorem sub_fin (a b : ℚ) : sub (JSNum.fin a) (JSNum.fin b) = round64 (a - b) := by
  show round64 (a + -b) = round64 (a - b)
  rw [sub_eq_add_neg]

theorem div_fin (a : ℚ) {b : ℚ} (hb : b ≠ 0) :
    div (JSNum.fin a) (JSNum.fin b) = round64 (a / b) := by
  show normalize (JSNum.div (JSNum.fin a) (JSNum.fin b)) = round64 (a / b)
  simp [JSNum.div, hb, normalize]

theorem normalize_fin (a : ℚ) : normalize (JSNum.fin a) = round64 a := rfl

theorem lit_eq (a : ℚ) : lit a = round64 a := rfl

theorem normalize_nan : normalize JSNum.nan = JSNum.nan := rfl

/-- Evaluation of `round64` at a negative rational. -/
theorem round64_of_neg {q : ℚ} (e n : ℤ) (hq : q < 0) (he : -1022 ≤ e)
    (hlo : (2 : ℚ) ^ e ≤ -q ∨ e = -1022) (hhi : -q < (2 : ℚ) ^ (e + 1))
    (h1 : (n : ℚ) - 1 / 2 < -q / (2 : ℚ) ^ (e - 52))
    (h2 : -q / (2 : ℚ) ^ (e - 52) < n + 1 / 2)
    (hfin : (n : ℚ) * (2 : ℚ) ^ (e - 52) < (2 : ℚ) ^ (1024 : ℕ)) :
    round64 q = JSNum.fin (-((n : ℚ) * (2 : ℚ) ^ (e - 52))) := by
  have h := round64_neg (-q)
  rw [neg_neg] at h
  rw [h, round64_of_pos e n (by linarith) he hlo hhi h1 h2 hfin]
  rfl

/-- Rounding never produces `NaN`. -/
theorem round64_isNaN (q : ℚ) : (round64 q).isNaN = false := by
  unfold round64
  dsimp only
  split_ifs <;> rfl

/-- A tie above an even integer rounds down to it. -/
theorem roundHalfEven_tie_down {x : ℚ} {n : ℤ} (h : x = (n : ℚ) + 1 / 2) (hn : n % 2 = 0) :
    roundHalfEven x = n := by
  have hf : ⌊x⌋ = n := by
    rw [Int.floor_eq_iff]
    constructor <;> linarith
  unfold roundHalfEven
  rw [hf, if_neg (by linarith), if_neg (by linarith), if_pos hn]

/-- A tie below an even integer rounds up to it. -/
theorem roundHalfEven_tie_up {x : ℚ} {n : ℤ} (h : x = (n : ℚ) - 1 / 2) (hn : n % 2 = 0) :
    roundHalfEven x = n := by
  have hf : ⌊x⌋ = n - 1 := by
    rw [Int.floor_eq_iff]
    push_cast
    constructor <;> linarith
  unfold roundHalfEven
  rw [hf]
  push_cast
  rw [if_neg (by linarith), if_neg (by linarith), if_neg (by omega)]
  ring

/-- Evaluation of `round64` at a positive rational from its exponent `e` and
the value `n` of its rounded significand. -/
theorem round64_of_pos_significand {q : ℚ} (e n : ℤ) (hq : 0 < q) (he : -1022 ≤ e)
    (hlo : (2 : ℚ) ^ e ≤ q ∨ e = -1022) (hhi : q < (2 : ℚ) ^ (e + 1))
    (hr : roundHalfEven (q / (2 : ℚ) ^ (e - 52)) = n)
    (hfin : (n : ℚ) * (2 : ℚ) ^ (e - 52) < (2 : ℚ) ^ (1024 : ℕ)) :
    round64 q = JSNum.fin ((n : ℚ) * (2 : ℚ) ^ (e - 52)) := by
  unfold round64
  rw [if_neg (ne_of_gt hq)]
  simp only [abs_of_pos hq, exponent_eq hq he hlo hhi, hr]
  rw [if_neg (not_le_of_gt hfin), if_pos hq]

/-- Evaluation of `round64` at a positive rational half-way above the even
significand `n`. -/
theorem round64_of_pos_tie_down {q : ℚ} (e n : ℤ) (hq : 0 < q) (he : -1022 ≤ e)
    (hlo : (2 : ℚ) ^ e ≤ q ∨ e = -1022) (hhi : q < (2 : ℚ) ^ (e + 1))
    (h : q / (2 : ℚ) ^ (e - 52) = (n : ℚ) + 1 / 2) (hn : n % 2 = 0)
    (hfin : (n : ℚ) * (2 : ℚ) ^ (e - 52) < (2 : ℚ) ^ (1024 : ℕ)) :
    round64 q = JSNum.fin ((n : ℚ) * (2 : ℚ) ^ (e - 52)) :=
  round64_of_pos_significand e n hq he hlo hhi (roundHalfEven_tie_down h hn) hfin

/-- Evaluation of `round64` at a positive rational half-way below the even
significand `n`. -/
theorem round64_of_pos_tie_up {q : ℚ} (e n : ℤ) (hq : 0 < q) (he : -1022 ≤ e)
    (hlo : (2 : ℚ) ^ e ≤ q ∨ e = -1022) (hhi : q < (2 : ℚ) ^ (e + 1))
    (h : q / (2 : ℚ) ^ (e - 52) = (n : ℚ) - 1 / 2) (hn : n % 2 = 0)
    (hfin : (n : ℚ) * (2 : ℚ) ^ (e - 52) < (2 : ℚ) ^ (1024 : ℕ)) :
    round64 q = JSNum.fin ((n : ℚ) * (2 : ℚ) ^ (e - 52)) :=
  round64_of_pos_significand e n hq he hlo hhi (roundHalfEven_tie_up h hn) hfin

/-- Evaluation of `round64` at a negative rational half-way above the even
significand `n` in magnitude. -/
theorem round64_of_neg_tie_down {q : ℚ} (e n : ℤ) (hq : q < 0) (he : -1022 ≤ e)
    (hlo : (2 : ℚ) ^ e ≤ -q ∨ e = -1022) (hhi : -q < (2 : ℚ) ^ (e + 1))
    (h : -q / (2 : ℚ) ^ (e - 52) = (n : ℚ) + 1 / 2) (hn : n % 2 = 0)
    (hfin : (n : ℚ) * (2 : ℚ) ^ (e - 52) < (2 : ℚ) ^ (1024 : ℕ)) :
    round64 q = JSNum.fin (-((n : ℚ) * (2 : ℚ) ^ (e - 52))) := by
  have h0 := round64_neg (-q)
  rw [neg_neg] at h0
  rw [h0, round64_of_pos_tie_down e n (by linarith) he hlo hhi h hn hfin]
  rfl

/-- Evaluation of `round64` at a negative rational half-way below the even
significand `n` in magnitude. -/
theorem round64_of_neg_tie_up {q : ℚ} (e n : ℤ) (hq : q < 0) (he : -1022 ≤ e)
    (hlo : (2 : ℚ) ^ e ≤ -q ∨ e = -1022) (hhi : -q < (2 : ℚ) ^ (e + 1))
    (h : -q / (2 : ℚ) ^ (e - 52) = (n : ℚ) - 1 / 2) (hn : n % 2 = 0)
    (hfin : (n : ℚ) * (2 : ℚ) ^ (e - 52) < (2 : ℚ) ^ (1024 : ℕ)) :
    round64 q = JSNum.fin (-((n : ℚ) * (2 : ℚ) ^ (e - 52))) := by
  have h0 := round64_neg (-q)
  rw [neg_neg] at h0
  rw [h0, round64_of_pos_tie_up e n (by linarith) he hlo hhi h hn hfin]
  rfl

/-- A rational from `2 ^ 1024` on rounds to `Infinity`. -/
theorem round64_overflow {q : ℚ} (hq : (2 : ℚ) ^ (1024 : ℕ) ≤ q) : round64 q = JSNum.posInf := by
  have hq0 : 0 < q := lt_of_lt_of_le (by positivity) hq
  have hq' : (2 : ℚ) ^ (1024 : ℤ) ≤ q := by
    rw [show (1024 : ℤ) = ((1024 : ℕ) : ℤ) from rfl, zpow_natCast]
    exact hq
  have hlog : (1024 : ℤ) ≤ Int.log 2 q := by
    apply (Int.zpow_le_iff_le_log (by norm_num) hq0).1
    rw [Nat.cast_ofNat]
    exact hq'
  have hmax : max (Int.log 2 q) (-1022) = Int.log 2 q := max_eq_left (by omega)
  have hlo : (2 : ℚ) ^ (Int.log 2 q) ≤ q := by
    exact_mod_cast Int.zpow_log_le_self (by norm_num) hq0
  have hu : (0 : ℚ) < (2 : ℚ) ^ (Int.log 2 q - 52) := by positivity
  have hsplit : (2 : ℚ) ^ (Int.log 2 q) = (2 : ℚ) ^ (52 : ℕ) * (2 : ℚ) ^ (Int.log 2 q - 52) := by
    rw [← zpow_natCast, ← zpow_add₀ (by norm_num)]
    congr 1
    push_cast
    ring
  have hx : (((2 : ℤ) ^ (52 : ℕ) : ℤ) : ℚ) ≤ q / (2 : ℚ) ^ (Int.log 2 q - 52) := by
    rw [le_div_iff₀ hu, Int.cast_pow, Int.cast_ofNat, ← hsplit]
    exact hlo
  have hn : (2 : ℤ) ^ (52 : ℕ) ≤ roundHalfEven (q / (2 : ℚ) ^ (Int.log 2 q - 52)) :=
    le_trans (Int.le_floor.2 hx) (floor_le_roundHalfEven _)
  have hr : (2 : ℚ) ^ (1024 : ℕ) ≤
      (roundHalfEven (q / (2 : ℚ) ^ (Int.log 2 q - 52)) : ℚ) * (2 : ℚ) ^ (Int.log 2 q - 52) := by
    have h1 : (2 : ℚ) ^ (52 : ℕ) ≤ (roundHalfEven (q / (2 : ℚ) ^ (Int.log 2 q - 52)) : ℚ) := by
      have h0 : (((2 : ℤ) ^ (52 : ℕ) : ℤ) : ℚ) ≤
          (roundHalfEven (q / (2 : ℚ) ^ (Int.log 2 q - 52)) : ℚ) := Int.cast_le.2 hn
      rwa [Int.cast_pow, Int.cast_ofNat] at h0
    calc (2 : ℚ) ^ (1024 : ℕ) = (2 : ℚ) ^ (1024 : ℤ) := by
          rw [show (1024 : ℤ) = ((1024 : ℕ) : ℤ) from rfl, zpow_natCast]
      _ ≤ (2 : ℚ) ^ (Int.log 2 q) := zpow_le_zpow_right₀ (by norm_num) hlog
      _ = (2 : ℚ) ^ (52 : ℕ) * (2 : ℚ) ^ (Int.log 2 q - 52) := hsplit
      _ ≤ _ := mul_le_mul_of_nonneg_right h1 (le_of_lt hu)
  unfold round64
  rw [if_neg (ne_of_gt hq0)]
  simp only [abs_of_pos hq0, hmax, if_pos hr, if_pos hq0]

/-- An integer of magnitude below `2 ^ 53` is a binary64 number. -/
theorem round64_intCast (n : ℤ) (h : |n| < 2 ^ 53) : round64 (n : ℚ) = JSNum.fin n := by
  have pos : ∀ m : ℤ, 0 < m → m < 2 ^ 53 → round64 (m : ℚ) = JSNum.fin m := by
    intro m hm0 hm
    have hq : (0 : ℚ) < (m : ℚ) := by exact_mod_cast hm0
    have hlo : (2 : ℚ) ^ (Int.log 2 (m : ℚ)) ≤ (m : ℚ) := by
      exact_mod_cast Int.zpow_log_le_self (by norm_num) hq
    have hhi : (m : ℚ) < (2 : ℚ) ^ (Int.log 2 (m : ℚ) + 1) := by
      exact_mod_cast Int.lt_zpow_succ_log_self (by norm_num) (m : ℚ)
    have he0 : 0 ≤ Int.log 2 (m : ℚ) := by
      apply (Int.zpow_le_iff_le_log (by norm_num) hq).1
      have : (1 : ℚ) ≤ (m : ℚ) := by exact_mod_cast hm0
      simpa using this
    have he52 : Int.log 2 (m : ℚ) < 53 := by
      apply (Int.lt_zpow_iff_log_lt (by norm_num) hq).1
      have : (m : ℚ) < 2 ^ 53 := by exact_mod_cast hm
      exact_mod_cast this
    obtain ⟨k, hk⟩ : ∃ k : ℕ, (k : ℤ) = 52 - Int.log 2 (m : ℚ) :=
      ⟨(52 - Int.log 2 (m : ℚ)).toNat, Int.toNat_of_nonneg (by omega)⟩
    have hexp : Int.log 2 (m : ℚ) - 52 = -(k : ℤ) := by omega
    have hu : (2 : ℚ) ^ (Int.log 2 (m : ℚ) - 52) = ((2 : ℚ) ^ k)⁻¹ := by
      rw [hexp, zpow_neg, zpow_natCast]
    have hpow : (0 : ℚ) < (2 : ℚ) ^ k := by positivity
    have hdiv : (m : ℚ) / (2 : ℚ) ^ (Int.log 2 (m : ℚ) - 52) = ((m * 2 ^ k : ℤ) : ℚ) := by
      rw [hu]
      push_cast
      field_simp
    have hback : ((m * 2 ^ k : ℤ) : ℚ) * (2 : ℚ) ^ (Int.log 2 (m : ℚ) - 52) = (m : ℚ) := by
      rw [hu]
      push_cast
      field_simp
    have hbig : (m : ℚ) < (2 : ℚ) ^ (1024 : ℕ) := by
      have h1 : (m : ℚ) < 2 ^ 53 := by exact_mod_cast hm
      exact lt_trans h1 (by norm_num)
    rw [round64_of_pos (Int.log 2 (m : ℚ)) (m * 2 ^ k) hq (by omega) (Or.inl hlo) hhi
      (by rw [hdiv]; linarith) (by rw [hdiv]; linarith) (by rw [hback]; exact hbig), hback]
  rcases lt_trichotomy n 0 with hn | hn | hn
  · have h1 : round64 ((-n : ℤ) : ℚ) = JSNum.fin ((-n : ℤ) : ℚ) :=
      pos (-n) (by omega) (by rw [abs_of_neg hn] at h; exact h)
    have h2 := round64_neg ((-n : ℤ) : ℚ)
    rw [h1] at h2
    have h3 : -(((-n : ℤ) : ℚ)) = (n : ℚ) := by push_cast; ring
    rw [h3] at h2
    rw [h2]
    simp [JSNum.neg]
  · subst hn
    simp [round64_zero]
  · exact pos n hn (by rw [abs_of_pos hn] at h; exact h)

/-! ### The literals of the source as binary64 numbers -/

theorem lit_0_4 : lit (0.4 : ℚ) = JSNum.fin ((3602879701896397 : ℚ) / 9007199254740992) := by
  rw [lit_eq, round64_of_pos (-2) 7205759403792794] <;> norm_num

theorem lit_1_5 : lit (1.5 : ℚ) = JSNum.fin ((3 : ℚ) / 2) := by
  rw [lit_eq, round64_of_pos (0) 6755399441055744] <;> norm_num

theorem lit_5 : lit (5 : ℚ) = JSNum.fin 5 := by
  rw [lit_eq, round64_of_pos (2) 5629499534213120] <;> norm_num

theorem lit_3 : lit (3 : ℚ) = JSNum.fin 3 := by
  rw [lit_eq, round64_of_pos (1) 6755399441055744] <;> norm_num

theorem lit_0_01 : lit (0.01 : ℚ) = JSNum.fin ((5764607523034235 : ℚ) / 576460752303423488) := by
  rw [lit_eq, round64_of_pos (-7) 5764607523034235] <;> norm_num

theorem lit_0_05 : lit (0.05 : ℚ) = JSNum.fin ((3602879701896397 : ℚ) / 72057594037927936) := by
  rw [lit_eq, round64_of_pos (-5) 7205759403792794] <;> norm_num

theorem lit_2 : lit (2 : ℚ) = JSNum.fin 2 := by
  rw [lit_eq, round64_of_pos (1) 4503599627370496] <;> norm_num

theorem lit_1 : lit (1 : ℚ) = JSNum.fin 1 := by
  rw [lit_eq, round64_of_pos (0) 4503599627370496] <;> norm_num

theorem lit_8000 : lit (8000 : ℚ) = JSNum.fin 8000 := by
  rw [lit_eq, round64_of_pos (12) 8796093022208000] <;> norm_num

theorem lit_300000 : lit (300000 : ℚ) = JSNum.fin 300000 := by
  rw [lit_eq, round64_of_pos (18) 5153960755200000] <;> norm_num

theorem lit_5000000 : lit (5000000 : ℚ) = JSNum.fin 5000000 := by
  rw [lit_eq, round64_of_pos (22) 5368709120000000] <;> norm_num

theorem lit_2000000 : lit (2000000 : ℚ) = JSNum.fin 2000000 := by
  rw [lit_eq, round64_of_pos (20) 8589934592000000] <;> norm_num

theorem lit_100 : lit (100 : ℚ) = JSNum.fin 100 := by
  rw [lit_eq, round64_of_pos (6) 7036874417766400] <;> norm_num

theorem lit_365 : lit (365 : ℚ) = JSNum.fin 365 := by
  rw [lit_eq, round64_of_pos (8) 6421147906211840] <;> norm_num

theorem lit_300 : lit (300 : ℚ) = JSNum.fin 300 := by
  rw [lit_eq, round64_of_pos (8) 5277655813324800] <;> norm_num

theorem lit_0_85 : lit (0.85 : ℚ) = JSNum.fin ((7656119366529843 : ℚ) / 9007199254740992) := by
  rw [lit_eq, round64_of_pos (-1) 7656119366529843] <;> norm_num

theorem lit_0_9 : lit (0.9 : ℚ) = JSNum.fin ((8106479329266893 : ℚ) / 9007199254740992) := by
  rw [lit_eq, round64_of_pos (-1) 8106479329266893] <;> norm_num

theorem lit_0_90 : lit (0.90 : ℚ) = JSNum.fin ((8106479329266893 : ℚ) / 9007199254740992) := by
  rw [lit_eq, round64_of_pos (-1) 8106479329266893] <;> norm_num

theorem lit_0_95 : lit (0.95 : ℚ) = JSNum.fin ((4278419646001971 : ℚ) / 4503599627370496) := by
  rw [lit_eq, round64_of_pos (-1) 8556839292003942] <;> norm_num

theorem lit_0_92 : lit (0.92 : ℚ) = JSNum.fin ((8286623314361713 : ℚ) / 9007199254740992) := by
  rw [lit_eq, round64_of_pos (-1) 8286623314361713] <;> norm_num

theorem lit_1500 : lit (1500 : ℚ) = JSNum.fin 1500 := by
  rw [lit_eq, round64_of_pos (10) 6597069766656000] <;> norm_num

theorem lit_9 : lit (9 : ℚ) = JSNum.fin 9 := by
  rw [lit_eq, round64_of_pos (3) 5066549580791808] <;> norm_num

theorem lit_25 : lit (25 : ℚ) = JSNum.fin 25 := by
  rw [lit_eq, round64_of_pos (4) 7036874417766400] <;> norm_num

theorem lit_500 : lit (500 : ℚ) = JSNum.fin 500 := by
  rw [lit_eq, round64_of_pos (8) 8796093022208000] <;> norm_num

theorem lit_2000 : lit (2000 : ℚ) = JSNum.fin 2000 := by
  rw [lit_eq, round64_of_pos (10) 8796093022208000] <;> norm_num

theorem lit_3000 : lit (3000 : ℚ) = JSNum.fin 3000 := by
  rw [lit_eq, round64_of_pos (11) 6597069766656000] <;> norm_num

theorem lit_10000000 : lit (10000000 : ℚ) = JSNum.fin 10000000 := by
  rw [lit_eq, round64_of_pos (23) 5368709120000000] <;> norm_num

theorem lit_0 : lit (0 : ℚ) = JSNum.fin 0 := by
  rw [lit_eq, round64_zero]

theorem lit_38000 : lit (38000 : ℚ) = JSNum.fin 38000 := by
  rw [lit_eq, round64_of_pos (15) 5222680231936000] <;> norm_num

theorem lit_10 : lit (10 : ℚ) = JSNum.fin 10 := by
  rw [lit_eq, round64_of_pos (3) 5629499534213120] <;> norm_num

/-! ### The rows `Solar` and `Wind` as binary64 numbers -/

theorem solar_co2ReductionPerUnit :
    lit solar.co2ReductionPerUnit = JSNum.fin ((3602879701896397 : ℚ) / 9007199254740992) :=
  lit_0_4

theorem solar_landRequirementPerUnit :
    lit solar.landRequirementPerUnit =
      JSNum.fin ((5764607523034235 : ℚ) / 576460752303423488) :=
  lit_0_01

theorem solar_costPerUnit : lit solar.costPerUnit = JSNum.fin 8000 :=
  lit_8000

theorem wind_co2ReductionPerUnit : lit wind.co2ReductionPerUnit = JSNum.fin ((3 : ℚ) / 2) :=
  lit_1_5

theorem wind_landRequirementPerUnit :
    lit wind.landRequirementPerUnit = JSNum.fin ((3602879701896397 : ℚ) / 72057594037927936) :=
  lit_0_05

theorem wind_costPerUnit : lit wind.costPerUnit = JSNum.fin 300000 :=
  lit_300000

/-! ### Exact integer arithmetic in binary64 -/

theorem mul_intCast (a b : ℤ) (h : |a * b| < 9007199254740992) :
    mul (JSNum.fin (a : ℚ)) (JSNum.fin (b : ℚ)) = JSNum.fin ((a * b : ℤ) : ℚ) := by
  rw [mul_fin, ← Int.cast_mul]
  exact round64_intCast _ (lt_of_lt_of_eq h (by norm_num))

theorem add_intCast (a b : ℤ) (h : |a + b| < 9007199254740992) :
    add (JSNum.fin (a : ℚ)) (JSNum.fin (b : ℚ)) = JSNum.fin ((a + b : ℤ) : ℚ) := by
  rw [add_fin, ← Int.cast_add]
  exact round64_intCast _ (lt_of_lt_of_eq h (by norm_num))

theorem sub_intCast (a b : ℤ) (h : |a - b| < 9007199254740992) :
    sub (JSNum.fin (a : ℚ)) (JSNum.fin (b : ℚ)) = JSNum.fin ((a - b : ℤ) : ℚ) := by
  rw [sub_fin, ← Int.cast_sub]
  exact round64_intCast _ (lt_of_lt_of_eq h (by norm_num))

/-- The profit arithmetic of lines 268-281 and 379-383 on integers small enough
for every intermediate result to be exact: the ten-year total is
`10 * revenue - installationCost - 10 * maintenanceCost`, and the later years
differ from the first by the installation cost. -/
theorem profit_intCast (R I M : ℤ) (h : 10 * |R| + |I| + 10 * |M| < 9007199254740992) :
    add (sub (JSNum.fin (R : ℚ)) (add (JSNum.fin (I : ℚ)) (JSNum.fin (M : ℚ))))
        (mul (sub (JSNum.fin (R : ℚ)) (JSNum.fin (M : ℚ))) (lit 9)) =
      sub (sub (mul (lit 10) (JSNum.fin (R : ℚ))) (JSNum.fin (I : ℚ)))
        (mul (lit 10) (JSNum.fin (M : ℚ))) ∧
    sub (sub (JSNum.fin (R : ℚ)) (JSNum.fin (M : ℚ)))
        (sub (JSNum.fin (R : ℚ)) (add (JSNum.fin (I : ℚ)) (JSNum.fin (M : ℚ)))) =
      JSNum.fin (I : ℚ) := by
  obtain ⟨r1, r2⟩ := abs_le.1 (le_refl |R|)
  obtain ⟨i1, i2⟩ := abs_le.1 (le_refl |I|)
  obtain ⟨m1, m2⟩ := abs_le.1 (le_refl |M|)
  have r0 := abs_nonneg R
  have i0 := abs_nonneg I
  have m0 := abs_nonneg M
  generalize |R| = r at *
  generalize |I| = i at *
  generalize |M| = m at *
  have e9 : lit 9 = JSNum.fin ((9 : ℤ) : ℚ) := by rw [lit_9]; norm_num
  have e10 : lit 10 = JSNum.fin ((10 : ℤ) : ℚ) := by rw [lit_10]; norm_num
  rw [e9, e10]
  rw [add_intCast I M (by rw [abs_lt]; constructor <;> omega),
    sub_intCast R (I + M) (by rw [abs_lt]; constructor <;> omega),
    sub_intCast R M (by rw [abs_lt]; constructor <;> omega),
    mul_intCast (R - M) 9 (by rw [abs_lt]; constructor <;> omega),
    add_intCast (R - (I + M)) ((R - M) * 9) (by rw [abs_lt]; constructor <;> omega),
    mul_intCast 10 R (by rw [abs_lt]; constructor <;> omega),
    sub_intCast (10 * R) I (by rw [abs_lt]; constructor <;> omega),
    mul_intCast 10 M (by rw [abs_lt]; constructor <;> omega),
    sub_intCast (10 * R - I) (10 * M) (by rw [abs_lt]; constructor <;> omega),
    sub_intCast (R - M) (R - (I + M)) (by rw [abs_lt]; constructor <;> omega)]
  constructor
  · congr 2
    ring
  · congr 2
    ring

/-- The revenue arithmetic of lines 370-377 on an integer quantity small enough
for every product to be exact: the total revenue is the quantity times 38000. -/
theorem revenue_intCast (x : ℤ) (h : 38000 * |x| < 9007199254740992) :
    add (mul (mul (JSNum.fin (x : ℚ)) (lit 25)) (lit 1500)) (mul (JSNum.fin (x : ℚ)) (lit 500)) =
      mul (JSNum.fin (x : ℚ)) (lit 38000) := by
  obtain ⟨x1, x2⟩ := abs_le.1 (le_refl |x|)
  have x0 := abs_nonneg x
  generalize |x| = a at *
  have e25 : lit 25 = JSNum.fin ((25 : ℤ) : ℚ) := by rw [lit_25]; norm_num
  have e1500 : lit 1500 = JSNum.fin ((1500 : ℤ) : ℚ) := by rw [lit_1500]; norm_num
  have e500 : lit 500 = JSNum.fin ((500 : ℤ) : ℚ) := by rw [lit_500]; norm_num
  have e38000 : lit 38000 = JSNum.fin ((38000 : ℤ) : ℚ) := by rw [lit_38000]; norm_num
  rw [e25, e1500, e500, e38000]
  rw [mul_intCast x 25 (by rw [abs_lt]; constructor <;> omega),
    mul_intCast (x * 25) 1500 (by rw [abs_lt]; constructor <;> omega),
    mul_intCast x 500 (by rw [abs_lt]; constructor <;> omega),
    add_intCast (x * 25 * 1500) (x * 500) (by rw [abs_lt]; constructor <;> omega),
    mul_intCast x 38000 (by rw [abs_lt]; constructor <;> omega)]
  congr 2
  ring

/-! ### The renewable handler in binary64 -/

/-- The answer to a request whose three conversions succeed, which is not
answered 400, and which names a row of the table. -/
theorem calculateRenewableImpact_row {body : RenewableRequest} {e p l : JSNum}
    {r : RenewableOption}
    (hE : body.co2EmissionsPerDay.toNumber = some e)
    (hP : body.desiredReductionPercentage.toNumber = some p)
    (hL : body.availableLand.toNumber = some l)
    (hvalid : ∀ msg, calculateRenewableImpact body ≠ Response.error 400 msg)
    (hknown : getProperty renewableOptions body.selectedRenewable = some (Property.own r)) :
    calculateRenewableImpact body = Response.ok 200 (renewableData (Property.own r) e p l) ∧
      e.IsPos ∧ p.IsPos ∧ l.IsPos := by
  unfold calculateRenewableImpact at hvalid ⊢
  rw [hE, hP, hL] at hvalid
  rw [hE, hP, hL]
  dsimp only at hvalid ⊢
  simp only [JSNum.isPos_iff]
  split_ifs at hvalid ⊢ with h1 h2 h3
  · exact absurd rfl (hvalid _)
  · exact absurd rfl (hvalid _)
  · exact absurd rfl (hvalid _)
  · rw [hknown]
    simp only [Property.truthy, Bool.not_true, Bool.false_eq_true, if_false, true_and]
    simp only [Bool.or_eq_true, not_or, Bool.not_eq_true] at h2 h3
    exact ⟨⟨h2.1.1, h3.1.1⟩, ⟨h2.1.2, h3.1.2⟩, ⟨h2.2, h3.2⟩⟩

/-- The computing part in Branch A. -/
theorem renewableData_branch_A (r : RenewableOption) (e p l : JSNum)
    (h : l.ge (landRequired (Property.own r) (targetCo2Reduction e p)) = true) :
    renewableData (Property.own r) e p l =
      { implementationCost :=
          mul (requiredUnits (Property.own r) (targetCo2Reduction e p)) (lit r.costPerUnit)
        targetCo2Reduction := targetCo2Reduction e p
        totalCo2ReductionPerDay :=
          clamp (mul (requiredUnits (Property.own r) (targetCo2Reduction e p))
            (lit r.co2ReductionPerUnit))
        landProvided := l
        timeToAchieveNeutrality :=
          (div (targetCo2Reduction e p)
            (mul (requiredUnits (Property.own r) (targetCo2Reduction e p))
              (lit r.co2ReductionPerUnit))).ceil
        carbonCreditsSavedPerDay :=
          clamp (mul (requiredUnits (Property.own r) (targetCo2Reduction e p))
            (lit r.co2ReductionPerUnit))
        carbonCreditsSavedPerYear :=
          mul (clamp (mul (requiredUnits (Property.own r) (targetCo2Reduction e p))
            (lit r.co2ReductionPerUnit))) (lit 365)
        costOfCarbonCreditsSavedPerYear :=
          mul (mul (clamp (mul (requiredUnits (Property.own r) (targetCo2Reduction e p))
            (lit r.co2ReductionPerUnit))) (lit 365)) (lit 300) } := by
  simp only [renewableData, deployment, h, if_true, co2ReductionPerUnit, costPerUnit]

/-- The computing part in the else branch when the deployable units reduce a
positive amount. -/
theorem renewableData_branch_B (r : RenewableOption) (e p l : JSNum)
    (h : l.ge (landRequired (Property.own r) (targetCo2Reduction e p)) = false)
    (hpos : (mul (deployableUnits (Property.own r) l) (lit r.co2ReductionPerUnit)).gt
      (JSNum.fin 0) = true) :
    renewableData (Property.own r) e p l =
      { implementationCost := mul (deployableUnits (Property.own r) l) (lit r.costPerUnit)
        targetCo2Reduction := targetCo2Reduction e p
        totalCo2ReductionPerDay :=
          clamp (mul (deployableUnits (Property.own r) l) (lit r.co2ReductionPerUnit))
        landProvided := l
        timeToAchieveNeutrality :=
          (div (targetCo2Reduction e p)
            (mul (deployableUnits (Property.own r) l) (lit r.co2ReductionPerUnit))).ceil
        carbonCreditsSavedPerDay :=
          clamp (mul (deployableUnits (Property.own r) l) (lit r.co2ReductionPerUnit))
        carbonCreditsSavedPerYear :=
          mul (clamp (mul (deployableUnits (Property.own r) l) (lit r.co2ReductionPerUnit)))
            (lit 365)
        costOfCarbonCreditsSavedPerYear :=
          mul (mul (clamp (mul (deployableUnits (Property.own r) l)
            (lit r.co2ReductionPerUnit))) (lit 365)) (lit 300) } := by
  have hpos' : (mul (div l (lit r.landRequirementPerUnit)).floor
      (lit r.co2ReductionPerUnit)).gt (JSNum.fin 0) = true := hpos
  simp only [renewableData, deployment, h, Bool.false_eq_true, if_false, co2ReductionPerUnit,
    costPerUnit, landRequirementPerUnit, hpos', if_true, deployableUnits]

/-- The clamp leaves a strictly positive number unchanged. -/
theorem clamp_of_isPos {x : JSNum} (hx : x.IsPos) : clamp x = x := by
  unfold clamp
  rw [JSNum.isPos_le_zero hx]
  simp

/-- The product of a number `>= 1` and a rational `>= 1/4` is strictly
positive after rounding. -/
theorem mul_isPos_of_one_le {x : JSNum} (hx : (JSNum.fin 1).le x = true) {c : ℚ}
    (hc : 1 / 4 ≤ c) : (mul x (JSNum.fin c)).IsPos := by
  cases x with
  | fin k =>
    have hk : (1 : ℚ) ≤ k := by simpa using hx
    rw [mul_fin]
    apply round64_isPos
    have h1 : (2 : ℚ) ^ (-1022 : ℤ) ≤ 1 / 4 := by
      rw [show (1 / 4 : ℚ) = (2 : ℚ) ^ (-2 : ℤ) by norm_num]
      exact zpow_le_zpow_right₀ (by norm_num) (by norm_num)
    calc (2 : ℚ) ^ (-1022 : ℤ) ≤ 1 / 4 := h1
      _ ≤ c := hc
      _ = 1 * c := (one_mul c).symm
      _ ≤ k * c := mul_le_mul_of_nonneg_right hk (by linarith)
  | posInf =>
    have hc0 : (0 : ℚ) < c := by linarith
    show (normalize (JSNum.mul JSNum.posInf (JSNum.fin c))).IsPos
    simp [JSNum.mul, JSNum.infTimes, ne_of_gt hc0, hc0, normalize, JSNum.IsPos]
  | negInf => simp [JSNum.le] at hx
  | nan => simp [JSNum.le] at hx

/-- The answer to a request built by `request` from three positive JSON
numbers and the name of a row. -/
theorem calculateRenewableImpact_request (name : String) (r : RenewableOption)
    (E P L e p l : ℚ)
    (hname : name ≠ "")
    (hrow : GreenMines.getProperty renewableOptions (JSVal.str name) = Property.own r)
    (hE : lit E = JSNum.fin e) (hP : lit P = JSNum.fin p) (hL : lit L = JSNum.fin l)
    (hE' : normalize (JSNum.fin e) = JSNum.fin e) (hP' : normalize (JSNum.fin p) = JSNum.fin p)
    (hL' : normalize (JSNum.fin l) = JSNum.fin l)
    (he : 0 < e) (hp : 0 < p) (hl : 0 < l) :
    (request name E P L).co2EmissionsPerDay.toNumber = some (JSNum.fin e) ∧
    (request name E P L).desiredReductionPercentage.toNumber = some (JSNum.fin p) ∧
    (request name E P L).availableLand.toNumber = some (JSNum.fin l) ∧
    getProperty renewableOptions (request name E P L).selectedRenewable =
      some (Property.own r) ∧
    calculateRenewableImpact (request name E P L) =
      Response.ok 200 (renewableData (Property.own r) (JSNum.fin e) (JSNum.fin p) (JSNum.fin l)) :=
          by
  have h1 : (request name E P L).co2EmissionsPerDay.toNumber = some (JSNum.fin e) := by
    simp only [request, jsonNumber, JSInput.toNumber, toNumber_num, hE, hE']
  have h2 : (request name E P L).desiredReductionPercentage.toNumber = some (JSNum.fin p) := by
    simp only [request, jsonNumber, JSInput.toNumber, toNumber_num, hP, hP']
  have h3 : (request name E P L).availableLand.toNumber = some (JSNum.fin l) := by
    simp only [request, jsonNumber, JSInput.toNumber, toNumber_num, hL, hL']
  have h4 : getProperty renewableOptions (request name E P L).selectedRenewable =
      some (Property.own r) := by
    simp only [request, getProperty, hrow]
  refine ⟨h1, h2, h3, h4, ?_⟩
  unfold calculateRenewableImpact
  rw [h1, h2, h3, h4]
  have t1 : (request name E P L).solutionName.truthy = true := by
    simp [request, JSInput.truthy, JSVal.truthy]
  have t2 : (request name E P L).co2EmissionsPerDay.truthy = true := by
    simp [request, jsonNumber, JSInput.truthy, JSVal.truthy, hE, JSNum.isNaN, ne_of_gt he]
  have t3 : (request name E P L).selectedRenewable.truthy = true := by
    simp [request, JSInput.truthy, JSVal.truthy, hname]
  have t4 : (request name E P L).desiredReductionPercentage.truthy = true := by
    simp [request, jsonNumber, JSInput.truthy, JSVal.truthy, hP, JSNum.isNaN, ne_of_gt hp]
  have t5 : (request name E P L).availableLand.truthy = true := by
    simp [request, jsonNumber, JSInput.truthy, JSVal.truthy, hL, JSNum.isNaN, ne_of_gt hl]
  simp [t1, t2, t3, t4, t5, JSNum.isNaN, JSNum.le, not_le_of_gt he, not_le_of_gt hp,
    not_le_of_gt hl, Property.truthy]

/-- Evaluation of the handler on the Solar request with 100 hectares. -/
theorem request_solar_100 :
    (request "Solar" 1000 50 100).co2EmissionsPerDay.toNumber = some (JSNum.fin 1000) ∧
    (request "Solar" 1000 50 100).desiredReductionPercentage.toNumber = some (JSNum.fin 50) ∧
    (request "Solar" 1000 50 100).availableLand.toNumber = some (JSNum.fin 100) ∧
    getProperty renewableOptions (request "Solar" 1000 50 100).selectedRenewable =
        some (Property.own solar) ∧
    targetCo2Reduction (JSNum.fin 1000) (JSNum.fin 50) = JSNum.fin 500 ∧
    requiredUnits (Property.own solar) (JSNum.fin 500) = JSNum.fin 1250 ∧
    landRequired (Property.own solar) (JSNum.fin 500) = JSNum.fin ((25 : ℚ) / 2) ∧
    calculateRenewableImpact (request "Solar" 1000 50 100) =
      Response.ok 200
      { implementationCost := JSNum.fin 10000000
        targetCo2Reduction := JSNum.fin 500
        totalCo2ReductionPerDay := JSNum.fin 500
        landProvided := JSNum.fin 100
        timeToAchieveNeutrality := JSNum.fin 1
        carbonCreditsSavedPerDay := JSNum.fin 500
        carbonCreditsSavedPerYear := JSNum.fin 182500
        costOfCarbonCreditsSavedPerYear := JSNum.fin 54750000 } := by
  have h1 : lit (1000 : ℚ) = JSNum.fin 1000 := by
    rw [lit_eq, round64_of_pos (9) 8796093022208000] <;> norm_num
  have h2 : lit (50 : ℚ) = JSNum.fin 50 := by
    rw [lit_eq, round64_of_pos (5) 7036874417766400] <;> norm_num
  have h3 : lit (100 : ℚ) = JSNum.fin 100 := by
    rw [lit_eq, round64_of_pos (6) 7036874417766400] <;> norm_num
  have h4 : normalize (JSNum.fin 1000) = JSNum.fin 1000 := by
    rw [normalize_fin, round64_of_pos (9) 8796093022208000] <;> norm_num
  have h5 : normalize (JSNum.fin 50) = JSNum.fin 50 := by
    rw [normalize_fin, round64_of_pos (5) 7036874417766400] <;> norm_num
  have h6 : normalize (JSNum.fin 100) = JSNum.fin 100 := by
    rw [normalize_fin, round64_of_pos (6) 7036874417766400] <;> norm_num
  have h7 : mul (JSNum.fin 1000) (JSNum.fin 50) = JSNum.fin 50000 := by
    rw [mul_fin, round64_of_pos (15) 6871947673600000] <;> norm_num
  have h8 : div (JSNum.fin 50000) (JSNum.fin 100) = JSNum.fin 500 := by
    rw [div_fin _ (by norm_num), round64_of_pos (8) 8796093022208000] <;> norm_num
  have h9 : div (JSNum.fin 500) (JSNum.fin ((3602879701896397 : ℚ) / 9007199254740992)) =
      JSNum.fin 1250 := by
    rw [div_fin _ (by norm_num), round64_of_pos (10) 5497558138880000] <;> norm_num
  have h10 : (JSNum.fin 1250).ceil = JSNum.fin 1250 := by
    have h : ⌈(1250 : ℚ)⌉ = 1250 := by
      rw [Int.ceil_eq_iff]
      norm_num
    rw [JSNum.ceil_fin, h]
    norm_num
  have h11 : mul (JSNum.fin 1250) (JSNum.fin ((5764607523034235 : ℚ) / 576460752303423488)) =
      JSNum.fin ((25 : ℚ) / 2) := by
    rw [mul_fin, round64_of_pos (3) 7036874417766400] <;> norm_num
  have h12 : mul (JSNum.fin 1250) (JSNum.fin ((3602879701896397 : ℚ) / 9007199254740992)) =
      JSNum.fin 500 := by
    rw [mul_fin, round64_of_pos (8) 8796093022208000] <;> norm_num
  have h13 : div (JSNum.fin 500) (JSNum.fin 500) = JSNum.fin 1 := by
    rw [div_fin _ (by norm_num), round64_of_pos (0) 4503599627370496] <;> norm_num
  have h14 : (JSNum.fin 1).ceil = JSNum.fin 1 := by
    have h : ⌈(1 : ℚ)⌉ = 1 := by
      rw [Int.ceil_eq_iff]
      norm_num
    rw [JSNum.ceil_fin, h]
    norm_num
  have h15 : mul (JSNum.fin 1250) (JSNum.fin 8000) = JSNum.fin 10000000 := by
    rw [mul_fin, round64_of_pos (23) 5368709120000000] <;> norm_num
  have h16 : mul (JSNum.fin 500) (JSNum.fin 365) = JSNum.fin 182500 := by
    rw [mul_fin, round64_of_pos (17) 6270652252160000] <;> norm_num
  have h17 : mul (JSNum.fin 182500) (JSNum.fin 300) = JSNum.fin 54750000 := by
    rw [mul_fin, round64_of_pos (25) 7348420608000000] <;> norm_num
  have hrow : GreenMines.getProperty renewableOptions (JSVal.str "Solar") = Property.own solar := by
    simp [GreenMines.getProperty, JSVal.propertyKey, renewableOptions, List.lookup, solar]
  obtain ⟨a1, a2, a3, a4, a5⟩ := calculateRenewableImpact_request "Solar" solar (1000) (50) (100)
    1000 50 100
    (by decide) hrow h1 h2 h3 h4 h5 h6 (by norm_num) (by norm_num) (by norm_num)
  have b5 : targetCo2Reduction (JSNum.fin 1000) (JSNum.fin 50) = JSNum.fin 500 := by
    simp only
        [targetCo2Reduction, solar_co2ReductionPerUnit, solar_landRequirementPerUnit,
        solar_costPerUnit, lit_100, lit_365, lit_300, lit_0_01, h1, h2, h3, h4, h5, h6, h7, h8, h9,
        h10, h11, h12, h13, h14, h15, h16, h17]
  have b6 : requiredUnits (Property.own solar) (JSNum.fin 500) = JSNum.fin 1250 := by
    simp only
        [requiredUnits, co2ReductionPerUnit, solar_co2ReductionPerUnit,
        solar_landRequirementPerUnit, solar_costPerUnit, lit_100, lit_365, lit_300, lit_0_01, h1,
        h2, h3, h4, h5, h6, h7, h8, h9, h10, h11, h12, h13, h14, h15, h16, h17]
  have b7 : landRequired (Property.own solar) (JSNum.fin 500) = JSNum.fin ((25 : ℚ) / 2) := by
    simp only
        [landRequired, b6, landRequirementPerUnit, solar_co2ReductionPerUnit,
        solar_landRequirementPerUnit, solar_costPerUnit, lit_100, lit_365, lit_300, lit_0_01, h1,
        h2, h3, h4, h5, h6, h7, h8, h9, h10, h11, h12, h13, h14, h15, h16, h17]
  have hge : (JSNum.fin 100).ge
      (landRequired (Property.own solar) (targetCo2Reduction (JSNum.fin 1000) (JSNum.fin 50))) =
      true := by
    rw [b5, b7, JSNum.fin_ge_fin]
    norm_num
  refine ⟨a1, a2, a3, a4, b5, b6, b7, ?_⟩
  rw [a5, renewableData_branch_A solar _ _ _ hge]
  have hclamp : clamp (JSNum.fin 500) = JSNum.fin 500 := by
    simp only [clamp, JSNum.fin_le_fin]
    norm_num
  simp only
      [b5, b6, hclamp, solar_co2ReductionPerUnit, solar_landRequirementPerUnit, solar_costPerUnit,
      lit_100, lit_365, lit_300, lit_0_01, h1, h2, h3, h4, h5, h6, h7, h8, h9, h10, h11, h12, h13,
      h14, h15, h16, h17]

/-- Evaluation of the handler on the Solar request with 5 hectares. -/
theorem request_solar_5 :
    (request "Solar" 1000 50 5).co2EmissionsPerDay.toNumber = some (JSNum.fin 1000) ∧
    (request "Solar" 1000 50 5).desiredReductionPercentage.toNumber = some (JSNum.fin 50) ∧
    (request "Solar" 1000 50 5).availableLand.toNumber = some (JSNum.fin 5) ∧
    getProperty renewableOptions (request "Solar" 1000 50 5).selectedRenewable =
        some (Property.own solar) ∧
    targetCo2Reduction (JSNum.fin 1000) (JSNum.fin 50) = JSNum.fin 500 ∧
    requiredUnits (Property.own solar) (JSNum.fin 500) = JSNum.fin 1250 ∧
    landRequired (Property.own solar) (JSNum.fin 500) = JSNum.fin ((25 : ℚ) / 2) ∧
    deployableUnits (Property.own solar) (JSNum.fin 5) = JSNum.fin 500 ∧
    calculateRenewableImpact (request "Solar" 1000 50 5) =
      Response.ok 200
      { implementationCost := JSNum.fin 4000000
        targetCo2Reduction := JSNum.fin 500
        totalCo2ReductionPerDay := JSNum.fin 200
        landProvided := JSNum.fin 5
        timeToAchieveNeutrality := JSNum.fin 3
        carbonCreditsSavedPerDay := JSNum.fin 200
        carbonCreditsSavedPerYear := JSNum.fin 73000
        costOfCarbonCreditsSavedPerYear := JSNum.fin 21900000 } := by
  have h1 : lit (1000 : ℚ) = JSNum.fin 1000 := by
    rw [lit_eq, round64_of_pos (9) 8796093022208000] <;> norm_num
  have h2 : lit (50 : ℚ) = JSNum.fin 50 := by
    rw [lit_eq, round64_of_pos (5) 7036874417766400] <;> norm_num
  have h3 : lit (5 : ℚ) = JSNum.fin 5 := by
    rw [lit_eq, round64_of_pos (2) 5629499534213120] <;> norm_num
  have h4 : normalize (JSNum.fin 1000) = JSNum.fin 1000 := by
    rw [normalize_fin, round64_of_pos (9) 8796093022208000] <;> norm_num
  have h5 : normalize (JSNum.fin 50) = JSNum.fin 50 := by
    rw [normalize_fin, round64_of_pos (5) 7036874417766400] <;> norm_num
  have h6 : normalize (JSNum.fin 5) = JSNum.fin 5 := by
    rw [normalize_fin, round64_of_pos (2) 5629499534213120] <;> norm_num
  have h7 : mul (JSNum.fin 1000) (JSNum.fin 50) = JSNum.fin 50000 := by
    rw [mul_fin, round64_of_pos (15) 6871947673600000] <;> norm_num
  have h8 : div (JSNum.fin 50000) (JSNum.fin 100) = JSNum.fin 500 := by
    rw [div_fin _ (by norm_num), round64_of_pos (8) 8796093022208000] <;> norm_num
  have h9 : div (JSNum.fin 500) (JSNum.fin ((3602879701896397 : ℚ) / 9007199254740992)) =
      JSNum.fin 1250 := by
    rw [div_fin _ (by norm_num), round64_of_pos (10) 5497558138880000] <;> norm_num
  have h10 : (JSNum.fin 1250).ceil = JSNum.fin 1250 := by
    have h : ⌈(1250 : ℚ)⌉ = 1250 := by
      rw [Int.ceil_eq_iff]
      norm_num
    rw [JSNum.ceil_fin, h]
    norm_num
  have h11 : mul (JSNum.fin 1250) (JSNum.fin ((5764607523034235 : ℚ) / 576460752303423488)) =
      JSNum.fin ((25 : ℚ) / 2) := by
    rw [mul_fin, round64_of_pos (3) 7036874417766400] <;> norm_num
  have h12 : div (JSNum.fin 5) (JSNum.fin ((5764607523034235 : ℚ) / 576460752303423488)) =
      JSNum.fin 500 := by
    rw [div_fin _ (by norm_num), round64_of_pos (8) 8796093022208000] <;> norm_num
  have h13 : (JSNum.fin 500).floor = JSNum.fin 500 := by
    have h : ⌊(500 : ℚ)⌋ = 500 := by
      rw [Int.floor_eq_iff]
      norm_num
    rw [JSNum.floor_fin, h]
    norm_num
  have h14 : mul (JSNum.fin 500) (JSNum.fin ((3602879701896397 : ℚ) / 9007199254740992)) =
      JSNum.fin 200 := by
    rw [mul_fin, round64_of_pos (7) 7036874417766400] <;> norm_num
  have h15 : div (JSNum.fin 500) (JSNum.fin 200) = JSNum.fin ((5 : ℚ) / 2) := by
    rw [div_fin _ (by norm_num), round64_of_pos (1) 5629499534213120] <;> norm_num
  have h16 : (JSNum.fin ((5 : ℚ) / 2)).ceil = JSNum.fin 3 := by
    have h : ⌈(((5 : ℚ) / 2) : ℚ)⌉ = 3 := by
      rw [Int.ceil_eq_iff]
      norm_num
    rw [JSNum.ceil_fin, h]
    norm_num
  have h17 : mul (JSNum.fin 500) (JSNum.fin 8000) = JSNum.fin 4000000 := by
    rw [mul_fin, round64_of_pos (21) 8589934592000000] <;> norm_num
  have h18 : mul (JSNum.fin 200) (JSNum.fin 365) = JSNum.fin 73000 := by
    rw [mul_fin, round64_of_pos (16) 5016521801728000] <;> norm_num
  have h19 : mul (JSNum.fin 73000) (JSNum.fin 300) = JSNum.fin 21900000 := by
    rw [mul_fin, round64_of_pos (24) 5878736486400000] <;> norm_num
  have hrow : GreenMines.getProperty renewableOptions (JSVal.str "Solar") = Property.own solar := by
    simp [GreenMines.getProperty, JSVal.propertyKey, renewableOptions, List.lookup, solar]
  obtain ⟨a1, a2, a3, a4, a5⟩ := calculateRenewableImpact_request "Solar" solar (1000) (50) (5)
    1000 50 5
    (by decide) hrow h1 h2 h3 h4 h5 h6 (by norm_num) (by norm_num) (by norm_num)
  have b5 : targetCo2Reduction (JSNum.fin 1000) (JSNum.fin 50) = JSNum.fin 500 := by
    simp only
        [targetCo2Reduction, solar_co2ReductionPerUnit, solar_landRequirementPerUnit,
        solar_costPerUnit, lit_100, lit_365, lit_300, lit_0_01, h1, h2, h3, h4, h5, h6, h7, h8, h9,
        h10, h11, h12, h13, h14, h15, h16, h17, h18, h19]
  have b6 : requiredUnits (Property.own solar) (JSNum.fin 500) = JSNum.fin 1250 := by
    simp only
        [requiredUnits, co2ReductionPerUnit, solar_co2ReductionPerUnit,
        solar_landRequirementPerUnit, solar_costPerUnit, lit_100, lit_365, lit_300, lit_0_01, h1,
        h2, h3, h4, h5, h6, h7, h8, h9, h10, h11, h12, h13, h14, h15, h16, h17, h18, h19]
  have b7 : landRequired (Property.own solar) (JSNum.fin 500) = JSNum.fin ((25 : ℚ) / 2) := by
    simp only
        [landRequired, b6, landRequirementPerUnit, solar_co2ReductionPerUnit,
        solar_landRequirementPerUnit, solar_costPerUnit, lit_100, lit_365, lit_300, lit_0_01, h1,
        h2, h3, h4, h5, h6, h7, h8, h9, h10, h11, h12, h13, h14, h15, h16, h17, h18, h19]
  have b8 : deployableUnits (Property.own solar) (JSNum.fin 5) = JSNum.fin 500 := by
    simp only
        [deployableUnits, landRequirementPerUnit, solar_co2ReductionPerUnit,
        solar_landRequirementPerUnit, solar_costPerUnit, lit_100, lit_365, lit_300, lit_0_01, h1,
        h2, h3, h4, h5, h6, h7, h8, h9, h10, h11, h12, h13, h14, h15, h16, h17, h18, h19]
  have hge : (JSNum.fin 5).ge
      (landRequired (Property.own solar) (targetCo2Reduction (JSNum.fin 1000) (JSNum.fin 50))) =
      false := by
    rw [b5, b7, JSNum.fin_ge_fin]
    norm_num
  have hpos : (mul (deployableUnits (Property.own solar) (JSNum.fin 5))
      (lit solar.co2ReductionPerUnit)).gt (JSNum.fin 0) = true := by
    simp only
        [b8, solar_co2ReductionPerUnit, solar_landRequirementPerUnit, solar_costPerUnit, lit_100,
        lit_365, lit_300, lit_0_01, h1, h2, h3, h4, h5, h6, h7, h8, h9, h10, h11, h12, h13, h14,
        h15, h16, h17, h18, h19, JSNum.fin_gt_fin]
    norm_num
  refine ⟨a1, a2, a3, a4, b5, b6, b7, b8, ?_⟩
  rw [a5, renewableData_branch_B solar _ _ _ hge hpos]
  have hclamp : clamp (JSNum.fin 200) = JSNum.fin 200 := by
    simp only [clamp, JSNum.fin_le_fin]
    norm_num
  simp only
      [b5, b8, hclamp, solar_co2ReductionPerUnit, solar_landRequirementPerUnit, solar_costPerUnit,
      lit_100, lit_365, lit_300, lit_0_01, h1, h2, h3, h4, h5, h6, h7, h8, h9, h10, h11, h12, h13,
      h14, h15, h16, h17, h18, h19]

/-- Evaluation of the handler on the Solar request with 350 tons per day and
a target of 8.8 %. -/
theorem request_solar_350 :
    (request "Solar" 350 8.8 100).co2EmissionsPerDay.toNumber = some (JSNum.fin 350) ∧
    (request "Solar" 350 8.8 100).desiredReductionPercentage.toNumber =
        some (JSNum.fin ((2476979795053773 : ℚ) / 281474976710656)) ∧
    (request "Solar" 350 8.8 100).availableLand.toNumber = some (JSNum.fin 100) ∧
    getProperty renewableOptions (request "Solar" 350 8.8 100).selectedRenewable =
        some (Property.own solar) ∧
    targetCo2Reduction (JSNum.fin 350) (JSNum.fin ((2476979795053773 : ℚ) / 281474976710656)) =
        JSNum.fin ((4334714641344103 : ℚ) / 140737488355328) ∧
    requiredUnits (Property.own solar) (JSNum.fin ((4334714641344103 : ℚ) / 140737488355328)) =
        JSNum.fin 77 ∧
    landRequired (Property.own solar) (JSNum.fin ((4334714641344103 : ℚ) / 140737488355328)) =
        JSNum.fin ((1733885856537641 : ℚ) / 2251799813685248) ∧
    calculateRenewableImpact (request "Solar" 350 8.8 100) =
      Response.ok 200
      { implementationCost := JSNum.fin 616000
        targetCo2Reduction := JSNum.fin ((4334714641344103 : ℚ) / 140737488355328)
        totalCo2ReductionPerDay := JSNum.fin ((8669429282688205 : ℚ) / 281474976710656)
        landProvided := JSNum.fin 100
        timeToAchieveNeutrality := JSNum.fin 2
        carbonCreditsSavedPerDay := JSNum.fin ((8669429282688205 : ℚ) / 281474976710656)
        carbonCreditsSavedPerYear := JSNum.fin 11242
        costOfCarbonCreditsSavedPerYear := JSNum.fin 3372600 } := by
  have h1 : lit (350 : ℚ) = JSNum.fin 350 := by
    rw [lit_eq, round64_of_pos (8) 6157265115545600] <;> norm_num
  have h2 : lit (8.8 : ℚ) = JSNum.fin ((2476979795053773 : ℚ) / 281474976710656) := by
    rw [lit_eq, round64_of_pos (3) 4953959590107546] <;> norm_num
  have h3 : lit (100 : ℚ) = JSNum.fin 100 := by
    rw [lit_eq, round64_of_pos (6) 7036874417766400] <;> norm_num
  have h4 : normalize (JSNum.fin 350) = JSNum.fin 350 := by
    rw [normalize_fin, round64_of_pos (8) 6157265115545600] <;> norm_num
  have h5 : normalize (JSNum.fin ((2476979795053773 : ℚ) / 281474976710656)) =
      JSNum.fin ((2476979795053773 : ℚ) / 281474976710656) := by
    rw [normalize_fin, round64_of_pos (3) 4953959590107546] <;> norm_num
  have h6 : normalize (JSNum.fin 100) = JSNum.fin 100 := by
    rw [normalize_fin, round64_of_pos (6) 7036874417766400] <;> norm_num
  have h7 : mul (JSNum.fin 350) (JSNum.fin ((2476979795053773 : ℚ) / 281474976710656)) =
      JSNum.fin ((6772991627100161 : ℚ) / 2199023255552) := by
    rw [mul_fin, round64_of_pos (11) 6772991627100161] <;> norm_num
  have h8 : div (JSNum.fin ((6772991627100161 : ℚ) / 2199023255552)) (JSNum.fin 100) =
      JSNum.fin ((4334714641344103 : ℚ) / 140737488355328) := by
    rw [div_fin _ (by norm_num), round64_of_pos (4) 8669429282688206] <;> norm_num
  have h9 : div (JSNum.fin ((4334714641344103 : ℚ) / 140737488355328))
      (JSNum.fin ((3602879701896397 : ℚ) / 9007199254740992)) = JSNum.fin 77 := by
    rw [div_fin _ (by norm_num), round64_of_pos (6) 5418393301680128] <;> norm_num
  have h10 : (JSNum.fin 77).ceil = JSNum.fin 77 := by
    have h : ⌈(77 : ℚ)⌉ = 77 := by
      rw [Int.ceil_eq_iff]
      norm_num
    rw [JSNum.ceil_fin, h]
    norm_num
  have h11 : mul (JSNum.fin 77) (JSNum.fin ((5764607523034235 : ℚ) / 576460752303423488)) =
      JSNum.fin ((1733885856537641 : ℚ) / 2251799813685248) := by
    rw [mul_fin, round64_of_pos (-1) 6935543426150564] <;> norm_num
  have h12 : mul (JSNum.fin 77) (JSNum.fin ((3602879701896397 : ℚ) / 9007199254740992)) =
      JSNum.fin ((8669429282688205 : ℚ) / 281474976710656) := by
    rw [mul_fin, round64_of_pos (4) 8669429282688205] <;> norm_num
  have h13 : div (JSNum.fin ((4334714641344103 : ℚ) / 140737488355328))
      (JSNum.fin ((8669429282688205 : ℚ) / 281474976710656)) =
      JSNum.fin ((4503599627370497 : ℚ) / 4503599627370496) := by
    rw [div_fin _ (by norm_num), round64_of_pos (0) 4503599627370497] <;> norm_num
  have h14 : (JSNum.fin ((4503599627370497 : ℚ) / 4503599627370496)).ceil = JSNum.fin 2 := by
    have h : ⌈(((4503599627370497 : ℚ) / 4503599627370496) : ℚ)⌉ = 2 := by
      rw [Int.ceil_eq_iff]
      norm_num
    rw [JSNum.ceil_fin, h]
    norm_num
  have h15 : mul (JSNum.fin 77) (JSNum.fin 8000) = JSNum.fin 616000 := by
    rw [mul_fin, round64_of_pos (19) 5291399708672000] <;> norm_num
  have h16 : mul (JSNum.fin ((8669429282688205 : ℚ) / 281474976710656)) (JSNum.fin 365) =
      JSNum.fin 11242 := by
    rw [mul_fin, round64_of_pos (13) 6180354859728896] <;> norm_num
  have h17 : mul (JSNum.fin 11242) (JSNum.fin 300) = JSNum.fin 3372600 := by
    rw [mul_fin, round64_of_pos (21) 7242603351244800] <;> norm_num
  have hrow : GreenMines.getProperty renewableOptions (JSVal.str "Solar") = Property.own solar := by
    simp [GreenMines.getProperty, JSVal.propertyKey, renewableOptions, List.lookup, solar]
  obtain ⟨a1, a2, a3, a4, a5⟩ := calculateRenewableImpact_request "Solar" solar (350) (8.8) (100)
    350 ((2476979795053773 : ℚ) / 281474976710656) 100
    (by decide) hrow h1 h2 h3 h4 h5 h6 (by norm_num) (by norm_num) (by norm_num)
  have b5 : targetCo2Reduction (JSNum.fin 350)
      (JSNum.fin ((2476979795053773 : ℚ) / 281474976710656)) =
      JSNum.fin ((4334714641344103 : ℚ) / 140737488355328) := by
    simp only
        [targetCo2Reduction, solar_co2ReductionPerUnit, solar_landRequirementPerUnit,
        solar_costPerUnit, lit_100, lit_365, lit_300, lit_0_01, h1, h2, h3, h4, h5, h6, h7, h8, h9,
        h10, h11, h12, h13, h14, h15, h16, h17]
  have b6 : requiredUnits (Property.own solar)
      (JSNum.fin ((4334714641344103 : ℚ) / 140737488355328)) = JSNum.fin 77 := by
    simp only
        [requiredUnits, co2ReductionPerUnit, solar_co2ReductionPerUnit,
        solar_landRequirementPerUnit, solar_costPerUnit, lit_100, lit_365, lit_300, lit_0_01, h1,
        h2, h3, h4, h5, h6, h7, h8, h9, h10, h11, h12, h13, h14, h15, h16, h17]
  have b7 : landRequired (Property.own solar)
      (JSNum.fin ((4334714641344103 : ℚ) / 140737488355328)) =
      JSNum.fin ((1733885856537641 : ℚ) / 2251799813685248) := by
    simp only
        [landRequired, b6, landRequirementPerUnit, solar_co2ReductionPerUnit,
        solar_landRequirementPerUnit, solar_costPerUnit, lit_100, lit_365, lit_300, lit_0_01, h1,
        h2, h3, h4, h5, h6, h7, h8, h9, h10, h11, h12, h13, h14, h15, h16, h17]
  have hge : (JSNum.fin 100).ge
      (landRequired (Property.own solar)
      (targetCo2Reduction (JSNum.fin 350) (JSNum.fin ((2476979795053773 : ℚ) / 281474976710656))))
      = true := by
    rw [b5, b7, JSNum.fin_ge_fin]
    norm_num
  refine ⟨a1, a2, a3, a4, b5, b6, b7, ?_⟩
  rw [a5, renewableData_branch_A solar _ _ _ hge]
  have hclamp : clamp (JSNum.fin ((8669429282688205 : ℚ) / 281474976710656)) =
      JSNum.fin ((8669429282688205 : ℚ) / 281474976710656) := by
    simp only [clamp, JSNum.fin_le_fin]
    norm_num
  simp only
      [b5, b6, hclamp, solar_co2ReductionPerUnit, solar_landRequirementPerUnit, solar_costPerUnit,
      lit_100, lit_365, lit_300, lit_0_01, h1, h2, h3, h4, h5, h6, h7, h8, h9, h10, h11, h12, h13,
      h14, h15, h16, h17]

/-- Evaluation of the handler on the Wind request with 25 tons per day, a
target of 100 % and 0.85 hectares. -/
theorem request_wind_17 :
    (request "Wind" 25 100 0.85).co2EmissionsPerDay.toNumber = some (JSNum.fin 25) ∧
    (request "Wind" 25 100 0.85).desiredReductionPercentage.toNumber = some (JSNum.fin 100) ∧
    (request "Wind" 25 100 0.85).availableLand.toNumber =
        some (JSNum.fin ((7656119366529843 : ℚ) / 9007199254740992)) ∧
    getProperty renewableOptions (request "Wind" 25 100 0.85).selectedRenewable =
        some (Property.own wind) ∧
    targetCo2Reduction (JSNum.fin 25) (JSNum.fin 100) = JSNum.fin 25 ∧
    requiredUnits (Property.own wind) (JSNum.fin 25) = JSNum.fin 17 ∧
    landRequired (Property.own wind) (JSNum.fin 25) =
        JSNum.fin ((1914029841632461 : ℚ) / 2251799813685248) ∧
    deployableUnits (Property.own wind) (JSNum.fin ((7656119366529843 : ℚ) / 9007199254740992)) =
        JSNum.fin 17 ∧
    calculateRenewableImpact (request "Wind" 25 100 0.85) =
      Response.ok 200
      { implementationCost := JSNum.fin 5100000
        targetCo2Reduction := JSNum.fin 25
        totalCo2ReductionPerDay := JSNum.fin ((51 : ℚ) / 2)
        landProvided := JSNum.fin ((7656119366529843 : ℚ) / 9007199254740992)
        timeToAchieveNeutrality := JSNum.fin 1
        carbonCreditsSavedPerDay := JSNum.fin ((51 : ℚ) / 2)
        carbonCreditsSavedPerYear := JSNum.fin ((18615 : ℚ) / 2)
        costOfCarbonCreditsSavedPerYear := JSNum.fin 2792250 } := by
  have h1 : lit (25 : ℚ) = JSNum.fin 25 := by
    rw [lit_eq, round64_of_pos (4) 7036874417766400] <;> norm_num
  have h2 : lit (100 : ℚ) = JSNum.fin 100 := by
    rw [lit_eq, round64_of_pos (6) 7036874417766400] <;> norm_num
  have h3 : lit (0.85 : ℚ) = JSNum.fin ((7656119366529843 : ℚ) / 9007199254740992) := by
    rw [lit_eq, round64_of_pos (-1) 7656119366529843] <;> norm_num
  have h4 : normalize (JSNum.fin 25) = JSNum.fin 25 := by
    rw [normalize_fin, round64_of_pos (4) 7036874417766400] <;> norm_num
  have h5 : normalize (JSNum.fin 100) = JSNum.fin 100 := by
    rw [normalize_fin, round64_of_pos (6) 7036874417766400] <;> norm_num
  have h6 : normalize (JSNum.fin ((7656119366529843 : ℚ) / 9007199254740992)) =
      JSNum.fin ((7656119366529843 : ℚ) / 9007199254740992) := by
    rw [normalize_fin, round64_of_pos (-1) 7656119366529843] <;> norm_num
  have h7 : mul (JSNum.fin 25) (JSNum.fin 100) = JSNum.fin 2500 := by
    rw [mul_fin, round64_of_pos (11) 5497558138880000] <;> norm_num
  have h8 : div (JSNum.fin 2500) (JSNum.fin 100) = JSNum.fin 25 := by
    rw [div_fin _ (by norm_num), round64_of_pos (4) 7036874417766400] <;> norm_num
  have h9 : div (JSNum.fin 25) (JSNum.fin ((3 : ℚ) / 2)) =
      JSNum.fin ((4691249611844267 : ℚ) / 281474976710656) := by
    rw [div_fin _ (by norm_num), round64_of_pos (4) 4691249611844267] <;> norm_num
  have h10 : (JSNum.fin ((4691249611844267 : ℚ) / 281474976710656)).ceil = JSNum.fin 17 := by
    have h : ⌈(((4691249611844267 : ℚ) / 281474976710656) : ℚ)⌉ = 17 := by
      rw [Int.ceil_eq_iff]
      norm_num
    rw [JSNum.ceil_fin, h]
    norm_num
  have h11 : mul (JSNum.fin 17) (JSNum.fin ((3602879701896397 : ℚ) / 72057594037927936)) =
      JSNum.fin ((1914029841632461 : ℚ) / 2251799813685248) := by
    rw [mul_fin, round64_of_pos (-1) 7656119366529844] <;> norm_num
  have h12 : div (JSNum.fin ((7656119366529843 : ℚ) / 9007199254740992))
      (JSNum.fin ((3602879701896397 : ℚ) / 72057594037927936)) = JSNum.fin 17 := by
    rw [div_fin _ (by norm_num), round64_of_pos (4) 4785074604081152] <;> norm_num
  have h13 : (JSNum.fin 17).floor = JSNum.fin 17 := by
    have h : ⌊(17 : ℚ)⌋ = 17 := by
      rw [Int.floor_eq_iff]
      norm_num
    rw [JSNum.floor_fin, h]
    norm_num
  have h14 : mul (JSNum.fin 17) (JSNum.fin ((3 : ℚ) / 2)) = JSNum.fin ((51 : ℚ) / 2) := by
    rw [mul_fin, round64_of_pos (4) 7177611906121728] <;> norm_num
  have h15 : div (JSNum.fin 25) (JSNum.fin ((51 : ℚ) / 2)) =
      JSNum.fin ((8830587504648031 : ℚ) / 9007199254740992) := by
    rw [div_fin _ (by norm_num), round64_of_pos (-1) 8830587504648031] <;> norm_num
  have h16 : (JSNum.fin ((8830587504648031 : ℚ) / 9007199254740992)).ceil = JSNum.fin 1 := by
    have h : ⌈(((8830587504648031 : ℚ) / 9007199254740992) : ℚ)⌉ = 1 := by
      rw [Int.ceil_eq_iff]
      norm_num
    rw [JSNum.ceil_fin, h]
    norm_num
  have h17 : mul (JSNum.fin 17) (JSNum.fin 300000) = JSNum.fin 5100000 := by
    rw [mul_fin, round64_of_pos (22) 5476083302400000] <;> norm_num
  have h18 : mul (JSNum.fin ((51 : ℚ) / 2)) (JSNum.fin 365) = JSNum.fin ((18615 : ℚ) / 2) := by
    rw [mul_fin, round64_of_pos (13) 5116852237762560] <;> norm_num
  have h19 : mul (JSNum.fin ((18615 : ℚ) / 2)) (JSNum.fin 300) = JSNum.fin 2792250 := by
    rw [mul_fin, round64_of_pos (21) 5996311216128000] <;> norm_num
  have hrow : GreenMines.getProperty renewableOptions (JSVal.str "Wind") = Property.own wind := by
    simp [GreenMines.getProperty, JSVal.propertyKey, renewableOptions, List.lookup, wind]
  obtain ⟨a1, a2, a3, a4, a5⟩ := calculateRenewableImpact_request "Wind" wind (25) (100) (0.85)
    25 100 ((7656119366529843 : ℚ) / 9007199254740992)
    (by decide) hrow h1 h2 h3 h4 h5 h6 (by norm_num) (by norm_num) (by norm_num)
  have b5 : targetCo2Reduction (JSNum.fin 25) (JSNum.fin 100) = JSNum.fin 25 := by
    simp only
        [targetCo2Reduction, wind_co2ReductionPerUnit, wind_landRequirementPerUnit,
        wind_costPerUnit, lit_100, lit_365, lit_300, lit_0_01, h1, h2, h3, h4, h5, h6, h7, h8, h9,
        h10, h11, h12, h13, h14, h15, h16, h17, h18, h19]
  have b6 : requiredUnits (Property.own wind) (JSNum.fin 25) = JSNum.fin 17 := by
    simp only
        [requiredUnits, co2ReductionPerUnit, wind_co2ReductionPerUnit, wind_landRequirementPerUnit,
        wind_costPerUnit, lit_100, lit_365, lit_300, lit_0_01, h1, h2, h3, h4, h5, h6, h7, h8, h9,
        h10, h11, h12, h13, h14, h15, h16, h17, h18, h19]
  have b7 : landRequired (Property.own wind) (JSNum.fin 25) =
      JSNum.fin ((1914029841632461 : ℚ) / 2251799813685248) := by
    simp only
        [landRequired, b6, landRequirementPerUnit, wind_co2ReductionPerUnit,
        wind_landRequirementPerUnit, wind_costPerUnit, lit_100, lit_365, lit_300, lit_0_01, h1, h2,
        h3, h4, h5, h6, h7, h8, h9, h10, h11, h12, h13, h14, h15, h16, h17, h18, h19]
  have b8 : deployableUnits (Property.own wind)
      (JSNum.fin ((7656119366529843 : ℚ) / 9007199254740992)) = JSNum.fin 17 := by
    simp only
        [deployableUnits, landRequirementPerUnit, wind_co2ReductionPerUnit,
        wind_landRequirementPerUnit, wind_costPerUnit, lit_100, lit_365, lit_300, lit_0_01, h1, h2,
        h3, h4, h5, h6, h7, h8, h9, h10, h11, h12, h13, h14, h15, h16, h17, h18, h19]
  have hge : (JSNum.fin ((7656119366529843 : ℚ) / 9007199254740992)).ge
      (landRequired (Property.own wind) (targetCo2Reduction (JSNum.fin 25) (JSNum.fin 100))) =
      false := by
    rw [b5, b7, JSNum.fin_ge_fin]
    norm_num
  have hpos : (mul
      (deployableUnits (Property.own wind) (JSNum.fin ((7656119366529843 : ℚ) / 9007199254740992)))
      (lit wind.co2ReductionPerUnit)).gt (JSNum.fin 0) = true := by
    simp only
        [b8, wind_co2ReductionPerUnit, wind_landRequirementPerUnit, wind_costPerUnit, lit_100,
        lit_365, lit_300, lit_0_01, h1, h2, h3, h4, h5, h6, h7, h8, h9, h10, h11, h12, h13, h14,
        h15, h16, h17, h18, h19, JSNum.fin_gt_fin]
    norm_num
  refine ⟨a1, a2, a3, a4, b5, b6, b7, b8, ?_⟩
  rw [a5, renewableData_branch_B wind _ _ _ hge hpos]
  have hclamp : clamp (JSNum.fin ((51 : ℚ) / 2)) = JSNum.fin ((51 : ℚ) / 2) := by
    simp only [clamp, JSNum.fin_le_fin]
    norm_num
  simp only
      [b5, b8, hclamp, wind_co2ReductionPerUnit, wind_landRequirementPerUnit, wind_costPerUnit,
      lit_100, lit_365, lit_300, lit_0_01, h1, h2, h3, h4, h5, h6, h7, h8, h9, h10, h11, h12, h13,
      h14, h15, h16, h17, h18, h19]

/-- Evaluation of the handler on a Solar request whose emissions and
percentage are both `1e-200`: their product underflows to 0. -/
theorem request_solar_underflow :
    (request "Solar" (1 / 10 ^ 200) (1 / 10 ^ 200) 100).co2EmissionsPerDay.toNumber =
        some (JSNum.fin ((1723641332219371 : ℚ) / 2 ^ 715)) ∧
    (request "Solar" (1 / 10 ^ 200) (1 / 10 ^ 200) 100).desiredReductionPercentage.toNumber =
        some (JSNum.fin ((1723641332219371 : ℚ) / 2 ^ 715)) ∧
    (request "Solar" (1 / 10 ^ 200) (1 / 10 ^ 200) 100).availableLand.toNumber =
        some (JSNum.fin 100) ∧
    getProperty renewableOptions
        (request "Solar" (1 / 10 ^ 200) (1 / 10 ^ 200) 100).selectedRenewable =
        some (Property.own solar) ∧
    targetCo2Reduction (JSNum.fin ((1723641332219371 : ℚ) / 2 ^ 715))
        (JSNum.fin ((1723641332219371 : ℚ) / 2 ^ 715)) = JSNum.fin 0 ∧
    requiredUnits (Property.own solar) (JSNum.fin 0) = JSNum.fin 0 ∧
    landRequired (Property.own solar) (JSNum.fin 0) = JSNum.fin 0 ∧
    calculateRenewableImpact (request "Solar" (1 / 10 ^ 200) (1 / 10 ^ 200) 100) =
      Response.ok 200
      { implementationCost := JSNum.fin 0
        targetCo2Reduction := JSNum.fin 0
        totalCo2ReductionPerDay := JSNum.fin ((5764607523034235 : ℚ) / 576460752303423488)
        landProvided := JSNum.fin 100
        timeToAchieveNeutrality := JSNum.nan
        carbonCreditsSavedPerDay := JSNum.fin ((5764607523034235 : ℚ) / 576460752303423488)
        carbonCreditsSavedPerYear := JSNum.fin ((8219069319951155 : ℚ) / 2251799813685248)
        costOfCarbonCreditsSavedPerYear := JSNum.fin 1095 } := by
  have h1 : lit (1 / 10 ^ 200 : ℚ) = JSNum.fin ((1723641332219371 : ℚ) / 2 ^ 715) := by
    rw [lit_eq, round64_of_pos (-665) 6894565328877484] <;> norm_num
  have h2 : lit (1 / 10 ^ 200 : ℚ) = JSNum.fin ((1723641332219371 : ℚ) / 2 ^ 715) := by
    rw [lit_eq, round64_of_pos (-665) 6894565328877484] <;> norm_num
  have h3 : lit (100 : ℚ) = JSNum.fin 100 := by
    rw [lit_eq, round64_of_pos (6) 7036874417766400] <;> norm_num
  have h4 : normalize (JSNum.fin ((1723641332219371 : ℚ) / 2 ^ 715)) =
      JSNum.fin ((1723641332219371 : ℚ) / 2 ^ 715) := by
    rw [normalize_fin, round64_of_pos (-665) 6894565328877484] <;> norm_num
  have h5 : normalize (JSNum.fin ((1723641332219371 : ℚ) / 2 ^ 715)) =
      JSNum.fin ((1723641332219371 : ℚ) / 2 ^ 715) := by
    rw [normalize_fin, round64_of_pos (-665) 6894565328877484] <;> norm_num
  have h6 : normalize (JSNum.fin 100) = JSNum.fin 100 := by
    rw [normalize_fin, round64_of_pos (6) 7036874417766400] <;> norm_num
  have h7 : mul (JSNum.fin ((1723641332219371 : ℚ) / 2 ^ 715))
      (JSNum.fin ((1723641332219371 : ℚ) / 2 ^ 715)) = JSNum.fin 0 := by
    rw [mul_fin, round64_of_pos (-1022) 0] <;> norm_num
  have h8 : div (JSNum.fin 0) (JSNum.fin 100) = JSNum.fin 0 := by
    rw [div_fin _ (by norm_num), show (0 / 100 : ℚ) = 0 by norm_num, round64_zero]
  have h9 : div (JSNum.fin 0) (JSNum.fin ((3602879701896397 : ℚ) / 9007199254740992)) =
      JSNum.fin 0 := by
    rw [div_fin _ (by norm_num), show (0 / ((3602879701896397 : ℚ) / 9007199254740992) : ℚ) =
        0 by norm_num, round64_zero]
  have h10 : (JSNum.fin 0).ceil = JSNum.fin 0 := by
    have h : ⌈(0 : ℚ)⌉ = 0 := by
      rw [Int.ceil_eq_iff]
      norm_num
    rw [JSNum.ceil_fin, h]
    norm_num
  have h11 : mul (JSNum.fin 0) (JSNum.fin ((5764607523034235 : ℚ) / 576460752303423488)) =
      JSNum.fin 0 := by
    rw [mul_fin, show (0 * ((5764607523034235 : ℚ) / 576460752303423488) : ℚ) = 0 by norm_num,
        round64_zero]
  have h12 : mul (JSNum.fin 0) (JSNum.fin ((3602879701896397 : ℚ) / 9007199254740992)) =
      JSNum.fin 0 := by
    rw [mul_fin, show (0 * ((3602879701896397 : ℚ) / 9007199254740992) : ℚ) = 0 by norm_num,
        round64_zero]
  have h13 : div (JSNum.fin 0) (JSNum.fin 0) = JSNum.nan := by
    rfl
  have h14 : JSNum.nan.ceil = JSNum.nan := by
    rfl
  have h15 : mul (JSNum.fin 0) (JSNum.fin 8000) = JSNum.fin 0 := by
    rw [mul_fin, show (0 * 8000 : ℚ) = 0 by norm_num, round64_zero]
  have h16 : mul (JSNum.fin ((5764607523034235 : ℚ) / 576460752303423488)) (JSNum.fin 365) =
      JSNum.fin ((8219069319951155 : ℚ) / 2251799813685248) := by
    rw [mul_fin, round64_of_pos (1) 8219069319951155] <;> norm_num
  have h17 : mul (JSNum.fin ((8219069319951155 : ℚ) / 2251799813685248)) (JSNum.fin 300) =
      JSNum.fin 1095 := by
    rw [mul_fin, round64_of_pos (10) 4815860929658880] <;> norm_num
  have hrow : GreenMines.getProperty renewableOptions (JSVal.str "Solar") = Property.own solar := by
    simp [GreenMines.getProperty, JSVal.propertyKey, renewableOptions, List.lookup, solar]
  obtain ⟨a1, a2, a3, a4,
      a5⟩ := calculateRenewableImpact_request "Solar" solar (1 / 10 ^ 200) (1 / 10 ^ 200) (100)
    ((1723641332219371 : ℚ) / 2 ^ 715) ((1723641332219371 : ℚ) / 2 ^ 715) 100
    (by decide) hrow h1 h2 h3 h4 h5 h6 (by norm_num) (by norm_num) (by norm_num)
  have b5 : targetCo2Reduction (JSNum.fin ((1723641332219371 : ℚ) / 2 ^ 715))
      (JSNum.fin ((1723641332219371 : ℚ) / 2 ^ 715)) = JSNum.fin 0 := by
    simp only
        [targetCo2Reduction, solar_co2ReductionPerUnit, solar_landRequirementPerUnit,
        solar_costPerUnit, lit_100, lit_365, lit_300, lit_0_01, h1, h2, h3, h4, h5, h6, h7, h8, h9,
        h10, h11, h12, h13, h14, h15, h16, h17]
  have b6 : requiredUnits (Property.own solar) (JSNum.fin 0) = JSNum.fin 0 := by
    simp only
        [requiredUnits, co2ReductionPerUnit, solar_co2ReductionPerUnit,
        solar_landRequirementPerUnit, solar_costPerUnit, lit_100, lit_365, lit_300, lit_0_01, h1,
        h2, h3, h4, h5, h6, h7, h8, h9, h10, h11, h12, h13, h14, h15, h16, h17]
  have b7 : landRequired (Property.own solar) (JSNum.fin 0) = JSNum.fin 0 := by
    simp only
        [landRequired, b6, landRequirementPerUnit, solar_co2ReductionPerUnit,
        solar_landRequirementPerUnit, solar_costPerUnit, lit_100, lit_365, lit_300, lit_0_01, h1,
        h2, h3, h4, h5, h6, h7, h8, h9, h10, h11, h12, h13, h14, h15, h16, h17]
  have hge : (JSNum.fin 100).ge
      (landRequired (Property.own solar)
      (targetCo2Reduction (JSNum.fin ((1723641332219371 : ℚ) / 2 ^ 715))
      (JSNum.fin ((1723641332219371 : ℚ) / 2 ^ 715)))) = true := by
    rw [b5, b7, JSNum.fin_ge_fin]
    norm_num
  refine ⟨a1, a2, a3, a4, b5, b6, b7, ?_⟩
  rw [a5, renewableData_branch_A solar _ _ _ hge]
  have hclamp : clamp (JSNum.fin 0) = JSNum.fin ((5764607523034235 : ℚ) / 576460752303423488) := by
    simp only [clamp, JSNum.fin_le_fin, lit_0_01]
    norm_num
  simp only
      [b5, b6, hclamp, solar_co2ReductionPerUnit, solar_landRequirementPerUnit, solar_costPerUnit,
      lit_100, lit_365, lit_300, lit_0_01, h1, h2, h3, h4, h5, h6, h7, h8, h9, h10, h11, h12, h13,
      h14, h15, h16, h17]

/-! ### The renewable sizer in binary64: claims -/

/-- A looked-up row is one of the four rows of `renewableOptions`, and its
`co2ReductionPerUnit` is a binary64 number `>= 1/4`. -/
theorem row_co2ReductionPerUnit {key : JSInput} {r : RenewableOption}
    (h : getProperty renewableOptions key = some (Property.own r)) :
    ∃ c : ℚ, lit r.co2ReductionPerUnit = JSNum.fin c ∧ 1 / 4 ≤ c := by
  cases key with
  | throwing => simp [getProperty] at h
  | value v =>
    have h' : GreenMines.getProperty renewableOptions v = Property.own r := by
      simpa [getProperty] using h
    rcases getProperty_renewableOptions_own h' with ⟨_, rfl⟩ | ⟨_, rfl⟩ | ⟨_, rfl⟩ | ⟨_, rfl⟩
    · exact ⟨_, lit_0_4, by norm_num⟩
    · exact ⟨_, lit_1_5, by norm_num⟩
    · exact ⟨_, lit_5, by norm_num⟩
    · exact ⟨_, lit_3, by norm_num⟩

/-- C1 (amended). Renewable sizer, Branch A, in binary64: a request whose
conversions succeed, that passes validation, names a row `r` and has
`availableLand >= landRequired` is answered 200 with
`targetCo2Reduction = co2EmissionsPerDay * desiredReductionPercentage / 100`,
`implementationCost = requiredUnits * costPerUnit`, and
`totalReductionPerDay = requiredUnits * co2ReductionPerUnit` whenever the
quotient `targetCo2Reduction / co2ReductionPerUnit` is positive; when the
product is `<= 0` (the target underflowed to 0) the clamp of line 194 reports
0.01 instead. -/
theorem renewable_branch_A_clamped (body : RenewableRequest) (r : RenewableOption)
    (e p l : JSNum)
    (hE : body.co2EmissionsPerDay.toNumber = some e)
    (hP : body.desiredReductionPercentage.toNumber = some p)
    (hL : body.availableLand.toNumber = some l)
    (hvalid : ∀ msg, calculateRenewableImpact body ≠ Response.error 400 msg)
    (hknown : getProperty renewableOptions body.selectedRenewable = some (Property.own r))
    (hland : l.ge (landRequired (Property.own r) (targetCo2Reduction e p)) = true) :
    ∃ out : RenewableData, calculateRenewableImpact body = Response.ok 200 out ∧
      out.targetCo2Reduction = div (mul e p) (lit 100) ∧
      out.implementationCost =
        mul (div out.targetCo2Reduction (lit r.co2ReductionPerUnit)).ceil (lit r.costPerUnit) ∧
      ((JSNum.fin 0).lt (div out.targetCo2Reduction (lit r.co2ReductionPerUnit)) = true →
        out.totalCo2ReductionPerDay =
          mul (div out.targetCo2Reduction (lit r.co2ReductionPerUnit)).ceil
            (lit r.co2ReductionPerUnit)) ∧
      ((mul (div out.targetCo2Reduction (lit r.co2ReductionPerUnit)).ceil
          (lit r.co2ReductionPerUnit)).le (JSNum.fin 0) = true →
        out.totalCo2ReductionPerDay = lit 0.01) := by
  obtain ⟨hresp, _, _, _⟩ := calculateRenewableImpact_row hE hP hL hvalid hknown
  obtain ⟨c, hc, hc4⟩ := row_co2ReductionPerUnit hknown
  refine ⟨_, hresp, ?_, ?_, ?_, ?_⟩
  · rw [renewableData_branch_A r e p l hland]; rfl
  · rw [renewableData_branch_A r e p l hland]; rfl
  · intro hq
    rw [renewableData_branch_A r e p l hland]
    show clamp _ = _
    have hq' : (JSNum.fin 0).lt (div (targetCo2Reduction e p) (lit r.co2ReductionPerUnit)) =
        true := hq
    have hu : (JSNum.fin 1).le
        (div (targetCo2Reduction e p) (lit r.co2ReductionPerUnit)).ceil = true := by
      rcases JSNum.one_le_ceil_of_isPos ((JSNum.isPos_iff_lt _).2 hq') with ⟨n, hn, hn'⟩ | h
      · rw [hn']
        have : (1 : ℚ) ≤ (n : ℚ) := by exact_mod_cast hn
        simpa using this
      · rw [h]; rfl
    have hpos := mul_isPos_of_one_le hu hc4
    rw [← hc] at hpos
    exact clamp_of_isPos hpos
  · intro hle
    rw [renewableData_branch_A r e p l hland]
    show clamp _ = _
    unfold clamp
    have hle' : (mul (requiredUnits (Property.own r) (targetCo2Reduction e p))
        (lit r.co2ReductionPerUnit)).le (JSNum.fin 0) = true := hle
    rw [hle']
    rfl

/-- C2. Renewable sizer, Branch B, in binary64: a request whose conversions
succeed, that passes validation, names a row `r`, has
`availableLand < landRequired` and
`deployableUnits = floor(availableLand / landRequirementPerUnit) >= 1` is
answered 200 with `totalReductionPerDay = deployableUnits * co2ReductionPerUnit`,
`implementationCost = deployableUnits * costPerUnit` and
`timeToAchieveNeutrality = ceil(targetCo2Reduction / totalReductionPerDay)`. -/
theorem renewable_branch_B_binary64 (body : RenewableRequest) (r : RenewableOption)
    (e p l : JSNum)
    (hE : body.co2EmissionsPerDay.toNumber = some e)
    (hP : body.desiredReductionPercentage.toNumber = some p)
    (hL : body.availableLand.toNumber = some l)
    (hvalid : ∀ msg, calculateRenewableImpact body ≠ Response.error 400 msg)
    (hknown : getProperty renewableOptions body.selectedRenewable = some (Property.own r))
    (hland : l.lt (landRequired (Property.own r) (targetCo2Reduction e p)) = true)
    (hunits : (JSNum.fin 1).le (div l (lit r.landRequirementPerUnit)).floor = true) :
    ∃ out : RenewableData, calculateRenewableImpact body = Response.ok 200 out ∧
      out.targetCo2Reduction = div (mul e p) (lit 100) ∧
      out.totalCo2ReductionPerDay =
        mul (div l (lit r.landRequirementPerUnit)).floor (lit r.co2ReductionPerUnit) ∧
      out.implementationCost =
        mul (div l (lit r.landRequirementPerUnit)).floor (lit r.costPerUnit) ∧
      out.timeToAchieveNeutrality =
        (div out.targetCo2Reduction out.totalCo2ReductionPerDay).ceil := by
  obtain ⟨hresp, _, _, _⟩ := calculateRenewableImpact_row hE hP hL hvalid hknown
  obtain ⟨c, hc, hc4⟩ := row_co2ReductionPerUnit hknown
  have hpos : (mul (deployableUnits (Property.own r) l) (lit r.co2ReductionPerUnit)).IsPos := by
    rw [hc]
    exact mul_isPos_of_one_le hunits hc4
  have hB := renewableData_branch_B r e p l (JSNum.ge_eq_false_of_lt hland)
    (JSNum.isPos_gt_zero hpos)
  rw [clamp_of_isPos hpos] at hB
  refine ⟨_, hresp, ?_, ?_, ?_, ?_⟩ <;> rw [hB] <;> rfl

/-- Rounding up gives 1 exactly on the numbers of `(0, 1]`. -/
theorem ceil_eq_one_iff (x : JSNum) :
    x.ceil = JSNum.fin 1 ↔ ∃ y : ℚ, x = JSNum.fin y ∧ 0 < y ∧ y ≤ 1 := by
  cases x with
  | fin q =>
    simp only [JSNum.ceil_fin, JSNum.fin.injEq, exists_eq_left']
    constructor
    · intro h
      have h1 : ⌈q⌉ = 1 := by exact_mod_cast h
      rw [Int.ceil_eq_iff] at h1
      constructor
      · simpa using h1.1
      · simpa using h1.2
    · rintro ⟨h0, h1⟩
      have : ⌈q⌉ = 1 := by
        rw [Int.ceil_eq_iff]
        constructor
        · simpa using h0
        · simpa using h1
      rw [this]
      norm_num
  | posInf => simp [JSNum.ceil]
  | negInf => simp [JSNum.ceil]
  | nan => simp [JSNum.ceil]

/-- Rounding up gives at least 2 exactly on the numbers above 1. -/
theorem two_le_ceil_iff (x : JSNum) :
    (JSNum.fin 2).le x.ceil = true ↔ (JSNum.fin 1).lt x = true := by
  cases x with
  | fin q =>
    simp only [JSNum.ceil_fin, JSNum.fin_le_fin, JSNum.fin_lt_fin, decide_eq_true_eq]
    constructor
    · intro h
      have h2 : (1 : ℤ) < ⌈q⌉ := by
        have : (2 : ℤ) ≤ ⌈q⌉ := by exact_mod_cast h
        omega
      simpa using Int.lt_ceil.1 h2
    · intro h
      have h2 : (1 : ℤ) < ⌈q⌉ := Int.lt_ceil.2 (by simpa using h)
      have : (2 : ℤ) ≤ ⌈q⌉ := by omega
      exact_mod_cast this
  | posInf => simp [JSNum.ceil, JSNum.le, JSNum.lt]
  | negInf => simp [JSNum.ceil, JSNum.le, JSNum.lt]
  | nan => simp [JSNum.ceil, JSNum.le, JSNum.lt]

/-- Rounding down does not exceed the number. -/
theorem floor_le_self {x : JSNum} (hx : x.isNaN = false) : x.floor.le x = true := by
  cases x with
  | fin q => simpa using Int.floor_le q
  | posInf => rfl
  | negInf => rfl
  | nan => simp [JSNum.isNaN] at hx

/-- C17 (amended). Renewable sizer, Branch A, in binary64: for a request whose
conversions succeed, that passes validation, names a row `r` and has
`availableLand >= landRequired`, `requiredUnits` is the least integer not below
the quotient `targetCo2Reduction / co2ReductionPerUnit` (when that is finite),
`timeToAchieveNeutrality = ceil(targetCo2Reduction / (requiredUnits *
co2ReductionPerUnit))`, and the time is 1 exactly when this last quotient is a
number of `(0, 1]`. -/
theorem renewable_branch_A_time (body : RenewableRequest) (r : RenewableOption)
    (e p l : JSNum)
    (hE : body.co2EmissionsPerDay.toNumber = some e)
    (hP : body.desiredReductionPercentage.toNumber = some p)
    (hL : body.availableLand.toNumber = some l)
    (hvalid : ∀ msg, calculateRenewableImpact body ≠ Response.error 400 msg)
    (hknown : getProperty renewableOptions body.selectedRenewable = some (Property.own r))
    (hland : l.ge (landRequired (Property.own r) (targetCo2Reduction e p)) = true) :
    ∃ out : RenewableData, calculateRenewableImpact body = Response.ok 200 out ∧
      (∀ x : ℚ, div out.targetCo2Reduction (lit r.co2ReductionPerUnit) = JSNum.fin x →
        requiredUnits (Property.own r) out.targetCo2Reduction = JSNum.fin (⌈x⌉ : ℤ) ∧
          x ≤ (⌈x⌉ : ℤ) ∧ ∀ n : ℤ, x ≤ n → ⌈x⌉ ≤ n) ∧
      out.timeToAchieveNeutrality =
        (div out.targetCo2Reduction
          (mul (requiredUnits (Property.own r) out.targetCo2Reduction)
            (lit r.co2ReductionPerUnit))).ceil ∧
      (out.timeToAchieveNeutrality = JSNum.fin 1 ↔
        ∃ y : ℚ, div out.targetCo2Reduction
          (mul (requiredUnits (Property.own r) out.targetCo2Reduction)
            (lit r.co2ReductionPerUnit)) = JSNum.fin y ∧ 0 < y ∧ y ≤ 1) := by
  obtain ⟨hresp, _, _, _⟩ := calculateRenewableImpact_row hE hP hL hvalid hknown
  refine ⟨_, hresp, ?_, ?_, ?_⟩
  · intro x hx
    rw [renewableData_branch_A r e p l hland] at hx ⊢
    refine ⟨?_, Int.le_ceil x, fun n hn => Int.ceil_le.2 hn⟩
    show (div (targetCo2Reduction e p) (lit r.co2ReductionPerUnit)).ceil = _
    have hx' : div (targetCo2Reduction e p) (lit r.co2ReductionPerUnit) = JSNum.fin x := hx
    rw [hx']
    rfl
  · rw [renewableData_branch_A r e p l hland]
  · rw [renewableData_branch_A r e p l hland]
    exact ceil_eq_one_iff _

/-- C18 (amended). Renewable sizer, Branch B with at least one deployable
unit, in binary64: for a request whose conversions succeed, that passes
validation, names a row `r`, has `availableLand < landRequired` and
`deployableUnits >= 1`, the deployed units do not exceed the quotient
`availableLand / landRequirementPerUnit`, the reduction
`deployableUnits * co2ReductionPerUnit` is strictly positive (neither the
fractional sub-case nor the clamp applies), the cost is
`deployableUnits * costPerUnit`, and `timeToAchieveNeutrality >= 2` exactly when
`targetCo2Reduction / totalReductionPerDay > 1`. -/
theorem renewable_branch_B_units (body : RenewableRequest) (r : RenewableOption)
    (e p l : JSNum)
    (hE : body.co2EmissionsPerDay.toNumber = some e)
    (hP : body.desiredReductionPercentage.toNumber = some p)
    (hL : body.availableLand.toNumber = some l)
    (hvalid : ∀ msg, calculateRenewableImpact body ≠ Response.error 400 msg)
    (hknown : getProperty renewableOptions body.selectedRenewable = some (Property.own r))
    (hland : l.lt (landRequired (Property.own r) (targetCo2Reduction e p)) = true)
    (hunits : (JSNum.fin 1).le (deployableUnits (Property.own r) l) = true) :
    ∃ out : RenewableData, calculateRenewableImpact body = Response.ok 200 out ∧
      (deployableUnits (Property.own r) l).le (div l (lit r.landRequirementPerUnit)) = true ∧
      out.totalCo2ReductionPerDay =
        mul (deployableUnits (Property.own r) l) (lit r.co2ReductionPerUnit) ∧
      (JSNum.fin 0).lt out.totalCo2ReductionPerDay = true ∧
      out.implementationCost =
        mul (deployableUnits (Property.own r) l) (lit r.costPerUnit) ∧
      ((JSNum.fin 2).le out.timeToAchieveNeutrality = true ↔
        (JSNum.fin 1).lt (div out.targetCo2Reduction out.totalCo2ReductionPerDay) = true) := by
  obtain ⟨hresp, _, _, _⟩ := calculateRenewableImpact_row hE hP hL hvalid hknown
  obtain ⟨c, hc, hc4⟩ := row_co2ReductionPerUnit hknown
  have hpos : (mul (deployableUnits (Property.own r) l) (lit r.co2ReductionPerUnit)).IsPos := by
    rw [hc]
    exact mul_isPos_of_one_le hunits hc4
  have hB := renewableData_branch_B r e p l (JSNum.ge_eq_false_of_lt hland)
    (JSNum.isPos_gt_zero hpos)
  rw [clamp_of_isPos hpos] at hB
  have hq : (div l (lit r.landRequirementPerUnit)).isNaN = false := by
    cases hd : div l (lit r.landRequirementPerUnit) with
    | nan =>
      have : deployableUnits (Property.own r) l = JSNum.nan := by
        show (div l (lit r.landRequirementPerUnit)).floor = _
        rw [hd]; rfl
      rw [this] at hunits
      simp [JSNum.le] at hunits
    | fin q => rfl
    | posInf => rfl
    | negInf => rfl
  refine ⟨_, hresp, floor_le_self hq, ?_, ?_, ?_, ?_⟩
  · rw [hB]
  · rw [hB]; exact (JSNum.isPos_iff_lt _).1 hpos
  · rw [hB]
  · rw [hB]; exact two_le_ceil_iff _

/-- C3 (amended). Renewable sizer validation with the exception path: a
request with a falsy (in particular missing) field is answered 400; a request
whose five fields are truthy and whose three conversions succeed is answered
400 when a converted number is `NaN` or `<= 0`; a request whose five fields are
truthy and one of whose conversions throws is answered 500, whatever the other
numbers are; none of these gets a computed result, and a computed result is
produced only when the three conversions succeed with strictly positive
numbers. -/
theorem renewable_validation_binary64 (body : RenewableRequest) :
    ((body.solutionName.truthy = false ∨ body.co2EmissionsPerDay.truthy = false ∨
        body.selectedRenewable.truthy = false ∨
        body.desiredReductionPercentage.truthy = false ∨
        body.availableLand.truthy = false) →
      ∃ msg, calculateRenewableImpact body = Response.error 400 msg) ∧
    (∀ e p l : JSNum, body.solutionName.truthy = true → body.co2EmissionsPerDay.truthy = true →
      body.selectedRenewable.truthy = true → body.desiredReductionPercentage.truthy = true →
      body.availableLand.truthy = true →
      body.co2EmissionsPerDay.toNumber = some e →
      body.desiredReductionPercentage.toNumber = some p →
      body.availableLand.toNumber = some l →
      (e.isNaN = true ∨ p.isNaN = true ∨ l.isNaN = true ∨ e.le (JSNum.fin 0) = true ∨
        p.le (JSNum.fin 0) = true ∨ l.le (JSNum.fin 0) = true) →
      ∃ msg, calculateRenewableImpact body = Response.error 400 msg) ∧
    (body.solutionName.truthy = true → body.co2EmissionsPerDay.truthy = true →
      body.selectedRenewable.truthy = true → body.desiredReductionPercentage.truthy = true →
      body.availableLand.truthy = true →
      (body.co2EmissionsPerDay.toNumber = none ∨
        body.desiredReductionPercentage.toNumber = none ∨
        body.availableLand.toNumber = none) →
      ∃ msg, calculateRenewableImpact body = Response.error 500 msg) ∧
    (∀ status out, calculateRenewableImpact body = Response.ok status out →
      ∃ e p l : JSNum, body.co2EmissionsPerDay.toNumber = some e ∧
        body.desiredReductionPercentage.toNumber = some p ∧
        body.availableLand.toNumber = some l ∧
        (JSNum.fin 0).lt e = true ∧ (JSNum.fin 0).lt p = true ∧
        (JSNum.fin 0).lt l = true) := by
  refine ⟨?_, ?_, ?_, ?_⟩
  · intro h
    unfold calculateRenewableImpact
    rw [if_pos]
    · exact ⟨_, rfl⟩
    · rcases h with h | h | h | h | h <;> simp [h]
  · intro e p l h1 h2 h3 h4 h5 hE hP hL h
    unfold calculateRenewableImpact
    rw [hE, hP, hL]
    dsimp only
    rw [if_neg (by simp [h1, h2, h3, h4, h5])]
    by_cases hn : (e.isNaN || p.isNaN || l.isNaN) = true
    · rw [if_pos hn]; exact ⟨_, rfl⟩
    · rw [if_neg hn, if_pos]
      · exact ⟨_, rfl⟩
      · simp only [Bool.or_eq_true, not_or, Bool.not_eq_true] at hn
        rcases h with h | h | h | h | h | h
        · rw [hn.1.1] at h; exact absurd h (by simp)
        · rw [hn.1.2] at h; exact absurd h (by simp)
        · rw [hn.2] at h; exact absurd h (by simp)
        · simp [h]
        · simp [h]
        · simp [h]
  · intro h1 h2 h3 h4 h5 h
    unfold calculateRenewableImpact
    rw [if_neg (by simp [h1, h2, h3, h4, h5])]
    rcases h with h | h | h
    · rw [h]; exact ⟨_, rfl⟩
    · rw [h]
      cases body.co2EmissionsPerDay.toNumber <;> exact ⟨_, rfl⟩
    · rw [h]
      cases body.co2EmissionsPerDay.toNumber <;>
        cases body.desiredReductionPercentage.toNumber <;> exact ⟨_, rfl⟩
  · intro status out h
    unfold calculateRenewableImpact at h
    split_ifs at h with h0
    cases hE : body.co2EmissionsPerDay.toNumber with
    | none => rw [hE] at h; simp at h
    | some e =>
      cases hP : body.desiredReductionPercentage.toNumber with
      | none => rw [hE, hP] at h; simp at h
      | some p =>
        cases hL : body.availableLand.toNumber with
        | none => rw [hE, hP, hL] at h; simp at h
        | some l =>
          rw [hE, hP, hL] at h
          dsimp only at h
          split_ifs at h with h2 h3
          simp only [Bool.or_eq_true, not_or, Bool.not_eq_true] at h2 h3
          refine ⟨e, p, l, rfl, rfl, rfl, ?_, ?_, ?_⟩
          · exact (JSNum.isPos_iff_lt _).1 ((JSNum.isPos_iff _).2 ⟨h2.1.1, h3.1.1⟩)
          · exact (JSNum.isPos_iff_lt _).1 ((JSNum.isPos_iff _).2 ⟨h2.1.2, h3.1.2⟩)
          · exact (JSNum.isPos_iff_lt _).1 ((JSNum.isPos_iff _).2 ⟨h2.2, h3.2⟩)

/-! ### Worked requests of the renewable sizer -/

/-- A request answered 200 is not answered 400. -/
theorem not_400_of_ok {body : RenewableRequest} {out : RenewableData}
    (h : calculateRenewableImpact body = Response.ok 200 out) :
    ∀ msg, calculateRenewableImpact body ≠ Response.error 400 msg := by
  intro msg h'
  rw [h] at h'
  exact Response.noConfusion h'

/-- C1 (counterexample). The Solar request with emissions `1e-200`, percentage
`1e-200` and 100 hectares passes validation and names a row; its product
underflows, so the target is 0, no unit is required, the land suffices
(Branch A), and `requiredUnits * co2ReductionPerUnit` is 0: the reported
`totalReductionPerDay` is the clamp value 0.01 instead, and the time, computed
before the clamp from `0 / 0`, is `NaN`. -/
theorem renewable_branch_A_underflow :
    ∃ out : RenewableData,
      calculateRenewableImpact (request "Solar" (1 / 10 ^ 200) (1 / 10 ^ 200) 100) =
        Response.ok 200 out ∧
      out.targetCo2Reduction = JSNum.fin 0 ∧
      (JSNum.fin 100).ge (landRequired (Property.own solar) out.targetCo2Reduction) = true ∧
      mul (requiredUnits (Property.own solar) out.targetCo2Reduction)
        (lit solar.co2ReductionPerUnit) = JSNum.fin 0 ∧
      out.totalCo2ReductionPerDay = lit 0.01 ∧
      out.totalCo2ReductionPerDay ≠
        mul (requiredUnits (Property.own solar) out.targetCo2Reduction)
          (lit solar.co2ReductionPerUnit) ∧
      out.timeToAchieveNeutrality = JSNum.nan := by
  obtain ⟨_, _, _, _, _, b6, b7, hresp⟩ := request_solar_underflow
  have hz : mul (JSNum.fin 0) (JSNum.fin ((3602879701896397 : ℚ) / 9007199254740992)) =
      JSNum.fin 0 := by
    rw [mul_fin, zero_mul, round64_zero]
  refine ⟨_, hresp, rfl, ?_, ?_, ?_, ?_, rfl⟩
  · show (JSNum.fin 100).ge (landRequired (Property.own solar) (JSNum.fin 0)) = true
    rw [b7, JSNum.fin_ge_fin]
    norm_num
  · show mul (requiredUnits (Property.own solar) (JSNum.fin 0)) _ = _
    rw [b6, solar_co2ReductionPerUnit, hz]
  · show JSNum.fin _ = lit 0.01
    rw [lit_0_01]
  · show JSNum.fin _ ≠ mul (requiredUnits (Property.own solar) (JSNum.fin 0)) _
    rw [b6, solar_co2ReductionPerUnit, hz]
    intro h
    have h' := JSNum.fin.inj h
    norm_num at h'

/-- Witness for C1 (amended): the Solar request with 1000 tons, 50 % and 100
hectares has target 500, requires 1250 units and 12.5 hectares, is in Branch A,
and is answered with reduction 500, cost 10,000,000 and one day. -/
theorem renewable_branch_A_clamped_witness :
    (∀ msg, calculateRenewableImpact (request "Solar" 1000 50 100) ≠ Response.error 400 msg) ∧
    (JSNum.fin 100).ge
      (landRequired (Property.own solar) (targetCo2Reduction (JSNum.fin 1000) (JSNum.fin 50))) =
        true ∧
    requiredUnits (Property.own solar) (JSNum.fin 500) = JSNum.fin 1250 ∧
    landRequired (Property.own solar) (JSNum.fin 500) = JSNum.fin ((25 : ℚ) / 2) ∧
    calculateRenewableImpact (request "Solar" 1000 50 100) =
      Response.ok 200
        { implementationCost := JSNum.fin 10000000
          targetCo2Reduction := JSNum.fin 500
          totalCo2ReductionPerDay := JSNum.fin 500
          landProvided := JSNum.fin 100
          timeToAchieveNeutrality := JSNum.fin 1
          carbonCreditsSavedPerDay := JSNum.fin 500
          carbonCreditsSavedPerYear := JSNum.fin 182500
          costOfCarbonCreditsSavedPerYear := JSNum.fin 54750000 } ∧
    ∃ out : RenewableData,
      calculateRenewableImpact (request "Solar" 1000 50 100) = Response.ok 200 out ∧
      out.targetCo2Reduction = div (mul (JSNum.fin 1000) (JSNum.fin 50)) (lit 100) ∧
      out.implementationCost =
        mul (div out.targetCo2Reduction (lit solar.co2ReductionPerUnit)).ceil
          (lit solar.costPerUnit) ∧
      ((JSNum.fin 0).lt (div out.targetCo2Reduction (lit solar.co2ReductionPerUnit)) = true →
        out.totalCo2ReductionPerDay =
          mul (div out.targetCo2Reduction (lit solar.co2ReductionPerUnit)).ceil
            (lit solar.co2ReductionPerUnit)) ∧
      ((mul (div out.targetCo2Reduction (lit solar.co2ReductionPerUnit)).ceil
          (lit solar.co2ReductionPerUnit)).le (JSNum.fin 0) = true →
        out.totalCo2ReductionPerDay = lit 0.01) := by
  obtain ⟨a1, a2, a3, a4, b5, b6, b7, hresp⟩ := request_solar_100
  have hland : (JSNum.fin 100).ge
      (landRequired (Property.own solar) (targetCo2Reduction (JSNum.fin 1000) (JSNum.fin 50))) =
        true := by
    rw [b5, b7, JSNum.fin_ge_fin]
    norm_num
  exact ⟨not_400_of_ok hresp, hland, b6, b7, hresp,
    renewable_branch_A_clamped (request "Solar" 1000 50 100) solar (JSNum.fin 1000)
      (JSNum.fin 50) (JSNum.fin 100) a1 a2 a3 (not_400_of_ok hresp) a4 hland⟩

/-- Witness for C2: the Solar request with 1000 tons, 50 % and 5 hectares needs
12.5 hectares, deploys 500 units, and is answered with reduction 200, cost
4,000,000 and three days. -/
theorem renewable_branch_B_binary64_witness :
    (∀ msg, calculateRenewableImpact (request "Solar" 1000 50 5) ≠ Response.error 400 msg) ∧
    (JSNum.fin 5).lt
      (landRequired (Property.own solar) (targetCo2Reduction (JSNum.fin 1000) (JSNum.fin 50))) =
        true ∧
    (div (JSNum.fin 5) (lit solar.landRequirementPerUnit)).floor = JSNum.fin 500 ∧
    calculateRenewableImpact (request "Solar" 1000 50 5) =
      Response.ok 200
        { implementationCost := JSNum.fin 4000000
          targetCo2Reduction := JSNum.fin 500
          totalCo2ReductionPerDay := JSNum.fin 200
          landProvided := JSNum.fin 5
          timeToAchieveNeutrality := JSNum.fin 3
          carbonCreditsSavedPerDay := JSNum.fin 200
          carbonCreditsSavedPerYear := JSNum.fin 73000
          costOfCarbonCreditsSavedPerYear := JSNum.fin 21900000 } ∧
    ∃ out : RenewableData,
      calculateRenewableImpact (request "Solar" 1000 50 5) = Response.ok 200 out ∧
      out.targetCo2Reduction = div (mul (JSNum.fin 1000) (JSNum.fin 50)) (lit 100) ∧
      out.totalCo2ReductionPerDay =
        mul (div (JSNum.fin 5) (lit solar.landRequirementPerUnit)).floor
          (lit solar.co2ReductionPerUnit) ∧
      out.implementationCost =
        mul (div (JSNum.fin 5) (lit solar.landRequirementPerUnit)).floor
          (lit solar.costPerUnit) ∧
      out.timeToAchieveNeutrality =
        (div out.targetCo2Reduction out.totalCo2ReductionPerDay).ceil := by
  obtain ⟨a1, a2, a3, a4, b5, b6, b7, b8, hresp⟩ := request_solar_5
  have hland : (JSNum.fin 5).lt
      (landRequired (Property.own solar) (targetCo2Reduction (JSNum.fin 1000) (JSNum.fin 50))) =
        true := by
    rw [b5, b7, JSNum.fin_lt_fin]
    norm_num
  have hunits : (JSNum.fin 1).le (div (JSNum.fin 5) (lit solar.landRequirementPerUnit)).floor =
      true := by
    have h : (div (JSNum.fin 5) (lit solar.landRequirementPerUnit)).floor = JSNum.fin 500 := b8
    rw [h, JSNum.fin_le_fin]
    norm_num
  exact ⟨not_400_of_ok hresp, hland, b8, hresp,
    renewable_branch_B_binary64 (request "Solar" 1000 50 5) solar (JSNum.fin 1000)
      (JSNum.fin 50) (JSNum.fin 5) a1 a2 a3 (not_400_of_ok hresp) a4 hland hunits⟩

/-- C3 (counterexample). A request whose five fields are truthy, whose
`co2EmissionsPerDay` cannot be converted and whose `availableLand` is `-1` is
answered 500, not 400: the conversion of the first number throws before any
number is checked. -/
theorem renewable_validation_throwing :
    throwingRequest.availableLand.toNumber = some (JSNum.fin (-1)) ∧
    (JSNum.fin (-1)).le (JSNum.fin 0) = true ∧
    calculateRenewableImpact throwingRequest = Response.error 500 "Internal server error" ∧
    ¬ ∃ msg, calculateRenewableImpact throwingRequest = Response.error 400 msg := by
  have hl : lit (-1 : ℚ) = JSNum.fin (-1) := by
    rw [lit_eq, round64_of_neg 0 4503599627370496] <;> norm_num
  have hn : normalize (JSNum.fin (-1)) = JSNum.fin (-1) := by
    rw [normalize_fin, round64_of_neg 0 4503599627370496] <;> norm_num
  have h50 : lit (50 : ℚ) = JSNum.fin 50 := by
    rw [lit_eq, round64_of_pos 5 7036874417766400] <;> norm_num
  have h500 : calculateRenewableImpact throwingRequest =
      Response.error 500 "Internal server error" := by
    simp [calculateRenewableImpact, throwingRequest, jsonNumber, JSInput.truthy, JSVal.truthy,
      JSInput.toNumber, hl, h50]
  refine ⟨?_, ?_, h500, ?_⟩
  · simp only [throwingRequest, jsonNumber, JSInput.toNumber, toNumber_num, hl, hn]
  · rw [JSNum.fin_le_fin]
    norm_num
  · rintro ⟨msg, h⟩
    rw [h500] at h
    simp at h

/-- Witness for C3 (amended): a request without `solutionName` is answered 400,
and the request whose first number cannot be converted is answered 500. -/
theorem renewable_validation_binary64_witness :
    (∃ msg, calculateRenewableImpact
      { request "Solar" 1000 50 100 with solutionName := JSInput.value JSVal.undefined } =
        Response.error 400 msg) ∧
    (∃ msg, calculateRenewableImpact throwingRequest = Response.error 500 msg) :=
  ⟨(renewable_validation_binary64
      { request "Solar" 1000 50 100 with solutionName := JSInput.value JSVal.undefined }).1
      (Or.inl rfl),
    (renewable_validation_binary64 throwingRequest).2.2.1 rfl rfl rfl
      (by
        have h50 : lit (50 : ℚ) = JSNum.fin 50 := by
          rw [lit_eq, round64_of_pos 5 7036874417766400] <;> norm_num
        simp [throwingRequest, jsonNumber, JSInput.truthy, JSVal.truthy, h50])
      (by
        have hl : lit (-1 : ℚ) = JSNum.fin (-1) := by
          rw [lit_eq, round64_of_neg 0 4503599627370496] <;> norm_num
        simp [throwingRequest, jsonNumber, JSInput.truthy, JSVal.truthy, hl])
      (Or.inl rfl)⟩

/-- C17 (counterexample). The Solar request with 350 tons, 8.8 % and 100
hectares passes validation and is in Branch A; the 77 units it requires reduce
slightly less than the target, and the time is 2 days. -/
theorem renewable_branch_A_two_days :
    ∃ out : RenewableData,
      calculateRenewableImpact (request "Solar" 350 8.8 100) = Response.ok 200 out ∧
      (JSNum.fin 100).ge (landRequired (Property.own solar) out.targetCo2Reduction) = true ∧
      requiredUnits (Property.own solar) out.targetCo2Reduction = JSNum.fin 77 ∧
      out.totalCo2ReductionPerDay =
        mul (requiredUnits (Property.own solar) out.targetCo2Reduction)
          (lit solar.co2ReductionPerUnit) ∧
      out.totalCo2ReductionPerDay.lt out.targetCo2Reduction = true ∧
      out.timeToAchieveNeutrality = JSNum.fin 2 := by
  obtain ⟨_, _, _, _, _, b6, b7, hresp⟩ := request_solar_350
  have hm : mul (JSNum.fin 77) (JSNum.fin ((3602879701896397 : ℚ) / 9007199254740992)) =
      JSNum.fin ((8669429282688205 : ℚ) / 281474976710656) := by
    rw [mul_fin, round64_of_pos 4 8669429282688205] <;> norm_num
  refine ⟨_, hresp, ?_, b6, ?_, ?_, rfl⟩
  · show (JSNum.fin 100).ge (landRequired (Property.own solar) (JSNum.fin _)) = true
    rw [b7, JSNum.fin_ge_fin]
    norm_num
  · show JSNum.fin _ = mul (requiredUnits (Property.own solar) (JSNum.fin _)) _
    rw [b6, solar_co2ReductionPerUnit, hm]
  · show (JSNum.fin _).lt (JSNum.fin _) = true
    rw [JSNum.fin_lt_fin]
    norm_num

/-- Witness for C17 (amended): the Solar request with 1000 tons, 50 % and 100
hectares is in Branch A and takes one day. -/
theorem renewable_branch_A_time_witness :
    (∀ msg, calculateRenewableImpact (request "Solar" 1000 50 100) ≠ Response.error 400 msg) ∧
    (JSNum.fin 100).ge
      (landRequired (Property.own solar) (targetCo2Reduction (JSNum.fin 1000) (JSNum.fin 50))) =
        true ∧
    ∃ out : RenewableData,
      calculateRenewableImpact (request "Solar" 1000 50 100) = Response.ok 200 out ∧
      (∀ x : ℚ, div out.targetCo2Reduction (lit solar.co2ReductionPerUnit) = JSNum.fin x →
        requiredUnits (Property.own solar) out.targetCo2Reduction = JSNum.fin (⌈x⌉ : ℤ) ∧
          x ≤ (⌈x⌉ : ℤ) ∧ ∀ n : ℤ, x ≤ n → ⌈x⌉ ≤ n) ∧
      out.timeToAchieveNeutrality =
        (div out.targetCo2Reduction
          (mul (requiredUnits (Property.own solar) out.targetCo2Reduction)
            (lit solar.co2ReductionPerUnit))).ceil ∧
      (out.timeToAchieveNeutrality = JSNum.fin 1 ↔
        ∃ y : ℚ, div out.targetCo2Reduction
          (mul (requiredUnits (Property.own solar) out.targetCo2Reduction)
            (lit solar.co2ReductionPerUnit)) = JSNum.fin y ∧ 0 < y ∧ y ≤ 1) := by
  obtain ⟨a1, a2, a3, a4, b5, b6, b7, hresp⟩ := request_solar_100
  have hland : (JSNum.fin 100).ge
      (landRequired (Property.own solar) (targetCo2Reduction (JSNum.fin 1000) (JSNum.fin 50))) =
        true := by
    rw [b5, b7, JSNum.fin_ge_fin]
    norm_num
  exact ⟨not_400_of_ok hresp, hland,
    renewable_branch_A_time (request "Solar" 1000 50 100) solar (JSNum.fin 1000)
      (JSNum.fin 50) (JSNum.fin 100) a1 a2 a3 (not_400_of_ok hresp) a4 hland⟩

/-- C18 (counterexample). The Wind request with 25 tons, 100 % and 0.85
hectares passes validation; 17 units are required, whose land
`17 * 0.05 = 0.8500000000000001` exceeds 0.85, so the else branch runs; there
`floor(0.85 / 0.05) = 17` units are deployed: as many as required, on more land
than is available, with a reduction of 25.5 above the target 25, the full cost
`17 * 300000`, and one day. -/
theorem renewable_branch_B_no_shortfall :
    ∃ out : RenewableData,
      calculateRenewableImpact (request "Wind" 25 100 0.85) = Response.ok 200 out ∧
      out.landProvided.lt (landRequired (Property.own wind) out.targetCo2Reduction) = true ∧
      deployableUnits (Property.own wind) out.landProvided = JSNum.fin 17 ∧
      out.landProvided.lt
        (mul (deployableUnits (Property.own wind) out.landProvided)
          (lit wind.landRequirementPerUnit)) = true ∧
      requiredUnits (Property.own wind) out.targetCo2Reduction = JSNum.fin 17 ∧
      out.targetCo2Reduction = JSNum.fin 25 ∧
      out.totalCo2ReductionPerDay = JSNum.fin ((51 : ℚ) / 2) ∧
      out.targetCo2Reduction.lt out.totalCo2ReductionPerDay = true ∧
      out.implementationCost =
        mul (requiredUnits (Property.own wind) out.targetCo2Reduction) (lit wind.costPerUnit) ∧
      out.timeToAchieveNeutrality = JSNum.fin 1 := by
  obtain ⟨_, _, _, _, _, b6, b7, b8, hresp⟩ := request_wind_17
  have hm : mul (JSNum.fin 17) (JSNum.fin 300000) = JSNum.fin 5100000 := by
    rw [mul_fin, round64_of_pos 22 5476083302400000] <;> norm_num
  have hl : mul (JSNum.fin 17) (JSNum.fin ((3602879701896397 : ℚ) / 72057594037927936)) =
      JSNum.fin ((1914029841632461 : ℚ) / 2251799813685248) := by
    rw [mul_fin, round64_of_pos (-1) 7656119366529844] <;> norm_num
  refine ⟨_, hresp, ?_, b8, ?_, b6, rfl, rfl, ?_, ?_, rfl⟩
  · show (JSNum.fin _).lt (landRequired (Property.own wind) (JSNum.fin 25)) = true
    rw [b7, JSNum.fin_lt_fin]
    norm_num
  · show (JSNum.fin _).lt (mul (deployableUnits (Property.own wind) (JSNum.fin _)) _) = true
    rw [b8, wind_landRequirementPerUnit, hl, JSNum.fin_lt_fin]
    norm_num
  · show (JSNum.fin _).lt (JSNum.fin _) = true
    rw [JSNum.fin_lt_fin]
    norm_num
  · show JSNum.fin _ = mul (requiredUnits (Property.own wind) (JSNum.fin 25)) _
    rw [b6, wind_costPerUnit, hm]

/-- Witness for C18 (amended): the Solar request with 1000 tons, 50 % and 5
hectares deploys 500 units and takes at least two days. -/
theorem renewable_branch_B_units_witness :
    (∀ msg, calculateRenewableImpact (request "Solar" 1000 50 5) ≠ Response.error 400 msg) ∧
    (JSNum.fin 5).lt
      (landRequired (Property.own solar) (targetCo2Reduction (JSNum.fin 1000) (JSNum.fin 50))) =
        true ∧
    (JSNum.fin 1).le (deployableUnits (Property.own solar) (JSNum.fin 5)) = true ∧
    ∃ out : RenewableData,
      calculateRenewableImpact (request "Solar" 1000 50 5) = Response.ok 200 out ∧
      (deployableUnits (Property.own solar) (JSNum.fin 5)).le
        (div (JSNum.fin 5) (lit solar.landRequirementPerUnit)) = true ∧
      out.totalCo2ReductionPerDay =
        mul (deployableUnits (Property.own solar) (JSNum.fin 5))
          (lit solar.co2ReductionPerUnit) ∧
      (JSNum.fin 0).lt out.totalCo2ReductionPerDay = true ∧
      out.implementationCost =
        mul (deployableUnits (Property.own solar) (JSNum.fin 5)) (lit solar.costPerUnit) ∧
      ((JSNum.fin 2).le out.timeToAchieveNeutrality = true ↔
        (JSNum.fin 1).lt (div out.targetCo2Reduction out.totalCo2ReductionPerDay) = true) := by
  obtain ⟨a1, a2, a3, a4, b5, b6, b7, b8, hresp⟩ := request_solar_5
  have hland : (JSNum.fin 5).lt
      (landRequired (Property.own solar) (targetCo2Reduction (JSNum.fin 1000) (JSNum.fin 50))) =
        true := by
    rw [b5, b7, JSNum.fin_lt_fin]
    norm_num
  have hunits : (JSNum.fin 1).le (deployableUnits (Property.own solar) (JSNum.fin 5)) = true := by
    rw [b8, JSNum.fin_le_fin]
    norm_num
  exact ⟨not_400_of_ok hresp, hland, hunits,
    renewable_branch_B_units (request "Solar" 1000 50 5) solar (JSNum.fin 1000)
      (JSNum.fin 50) (JSNum.fin 5) a1 a2 a3 (not_400_of_ok hresp) a4 hland hunits⟩

/-! ### The capture handlers in binary64 -/

/-- The answer of `calculateCCS` when the lookup and the three conversions
succeed and the record is saved. -/
theorem calculateCCS_figures {body : CCSRequest} {efficiency : JSVal} {a c m : JSNum}
    (hEff : captureEfficiency captureEfficiencyMap body.ccsTechnology = some efficiency)
    (ha : convertToNumber body.annualEmissions (lit 0) = some a)
    (hc : convertToNumber body.installationCostPerTon (lit 2000) = some c)
    (hm : convertToNumber body.annualMaintenanceCost (lit 10000000) = some m) :
    calculateCCS true body = Response.ok 200 (ccsFigures efficiency a c m) := by
  simp only [calculateCCS, ccsRecord, hEff, ha, hc, hm, if_true]

/-- The answer of `calculateMCS` when the lookup and the three conversions
succeed and the record is saved. -/
theorem calculateMCS_figures {body : MCSRequest} {efficiency : JSVal} {a c m : JSNum}
    (hEff : captureEfficiency mcsCaptureEfficiencyMap body.mcsTechnology = some efficiency)
    (ha : convertToNumber body.annualMethaneEmissions (lit 0) = some a)
    (hc : convertToNumber body.installationCostPerTon (lit 3000) = some c)
    (hm : convertToNumber body.annualMaintenanceCost (lit 10000000) = some m) :
    calculateMCS true body = Response.ok 200 (mcsFigures efficiency a c m) := by
  simp only [calculateMCS, mcsRecord, hEff, ha, hc, hm, if_true]

/-- C6. CCS economics in binary64: for every request whose efficiency lookup
gives `efficiency` and whose conversions give the numbers `a` (annual
emissions), `c` (cost per ton) and `m` (maintenance cost), defaults included,
`calculateCCS` answers 200 with `capturedCO2 = a * efficiency`,
`installationCost = capturedCO2 * c`, `carbonCreditRevenue = capturedCO2 * 1500`,
`totalCostForFirstYear = installationCost + m`,
`netProfitForFirstYear = carbonCreditRevenue - totalCostForFirstYear`,
`annualNetProfit = carbonCreditRevenue - m` and
`totalProfitForTenYears = netProfitForFirstYear + annualNetProfit * 9`, every
operation being the binary64 one. -/
theorem ccs_economics_binary64 (body : CCSRequest) (efficiency : JSVal) (a c m : JSNum)
    (hEff : captureEfficiency captureEfficiencyMap body.ccsTechnology = some efficiency)
    (ha : convertToNumber body.annualEmissions (lit 0) = some a)
    (hc : convertToNumber body.installationCostPerTon (lit 2000) = some c)
    (hm : convertToNumber body.annualMaintenanceCost (lit 10000000) = some m) :
    ∃ record : CCSRecord, calculateCCS true body = Response.ok 200 record ∧
      record.capturedCO2 = mul a (normalize efficiency.toNumber) ∧
      record.installationCost = mul record.capturedCO2 c ∧
      record.carbonCreditRevenue = mul record.capturedCO2 (lit 1500) ∧
      record.totalCostForFirstYear = add record.installationCost m ∧
      record.totalRevenueForFirstYear = record.carbonCreditRevenue ∧
      record.netProfitForFirstYear =
        sub record.carbonCreditRevenue record.totalCostForFirstYear ∧
      record.annualNetProfit = sub record.carbonCreditRevenue m ∧
      record.totalProfitForTenYears =
        add record.netProfitForFirstYear (mul record.annualNetProfit (lit 9)) :=
  ⟨_, calculateCCS_figures hEff ha hc hm, rfl, rfl, rfl, rfl, rfl, rfl, rfl, rfl⟩

/-- C7 (amended). MCS relations in binary64: for every request whose
efficiency lookup and conversions succeed, `calculateMCS` answers 200 with
`co2Equivalent = capturedMethane * 25`,
`carbonCreditRevenue = co2Equivalent * 1500`,
`methaneRevenue = capturedMethane * 500` and
`totalRevenue = carbonCreditRevenue + methaneRevenue`, every operation being the
binary64 one; and `totalRevenue = capturedMethane * 38000` when
`capturedMethane` is an integer `x` with `38000 * |x| < 2 ^ 53`. -/
theorem mcs_relations_binary64 (body : MCSRequest) (efficiency : JSVal) (a c m : JSNum)
    (hEff : captureEfficiency mcsCaptureEfficiencyMap body.mcsTechnology = some efficiency)
    (ha : convertToNumber body.annualMethaneEmissions (lit 0) = some a)
    (hc : convertToNumber body.installationCostPerTon (lit 3000) = some c)
    (hm : convertToNumber body.annualMaintenanceCost (lit 10000000) = some m) :
    ∃ record : MCSRecord, calculateMCS true body = Response.ok 200 record ∧
      record.capturedMethane = mul a (normalize efficiency.toNumber) ∧
      record.co2Equivalent = mul record.capturedMethane (lit 25) ∧
      record.carbonCreditRevenue = mul record.co2Equivalent (lit 1500) ∧
      record.methaneRevenue = mul record.capturedMethane (lit 500) ∧
      record.totalRevenue = add record.carbonCreditRevenue record.methaneRevenue ∧
      ∀ x : ℤ, record.capturedMethane = JSNum.fin (x : ℚ) → 38000 * |x| < 2 ^ 53 →
        record.totalRevenue = mul record.capturedMethane (lit 38000) := by
  refine ⟨_, calculateMCS_figures hEff ha hc hm, rfl, rfl, rfl, rfl, rfl, ?_⟩
  intro x hx hb
  show add (mul (mul (mcsFigures efficiency a c m).capturedMethane (lit 25)) (lit 1500))
      (mul (mcsFigures efficiency a c m).capturedMethane (lit 500)) =
    mul (mcsFigures efficiency a c m).capturedMethane (lit 38000)
  rw [hx]
  exact revenue_intCast x (lt_of_lt_of_eq hb (by norm_num))

/-- C19 (amended). Profit relations of `calculateCCS` and `calculateMCS` in
binary64: for every request whose efficiency lookup and conversions succeed the
handler answers 200 with
`netProfitForFirstYear = revenue - (installationCost + maintenanceCost)`,
`annualNetProfit = revenue - maintenanceCost` and
`totalProfitForTenYears = netProfitForFirstYear + annualNetProfit * 9`, every
operation being the binary64 one (`revenue` is `carbonCreditRevenue` for CCS and
`totalRevenue` for MCS); and when revenue, installation cost and maintenance
cost are integers `R`, `I`, `M` with `10 * |R| + |I| + 10 * |M| < 2 ^ 53`, then
`totalProfitForTenYears = 10 * revenue - installationCost - 10 * maintenanceCost`
and `annualNetProfit - netProfitForFirstYear = installationCost`. -/
theorem capture_profit_binary64 :
    (∀ (body : CCSRequest) (efficiency : JSVal) (a c m : JSNum),
      captureEfficiency captureEfficiencyMap body.ccsTechnology = some efficiency →
      convertToNumber body.annualEmissions (lit 0) = some a →
      convertToNumber body.installationCostPerTon (lit 2000) = some c →
      convertToNumber body.annualMaintenanceCost (lit 10000000) = some m →
      ∃ record : CCSRecord, calculateCCS true body = Response.ok 200 record ∧
        record.netProfitForFirstYear =
          sub record.carbonCreditRevenue (add record.installationCost record.maintenanceCost) ∧
        record.annualNetProfit = sub record.carbonCreditRevenue record.maintenanceCost ∧
        record.totalProfitForTenYears =
          add record.netProfitForFirstYear (mul record.annualNetProfit (lit 9)) ∧
        ∀ R I M : ℤ, record.carbonCreditRevenue = JSNum.fin (R : ℚ) →
          record.installationCost = JSNum.fin (I : ℚ) →
          record.maintenanceCost = JSNum.fin (M : ℚ) →
          10 * |R| + |I| + 10 * |M| < 2 ^ 53 →
          record.totalProfitForTenYears =
            sub (sub (mul (lit 10) record.carbonCreditRevenue) record.installationCost)
              (mul (lit 10) record.maintenanceCost) ∧
          sub record.annualNetProfit record.netProfitForFirstYear = record.installationCost) ∧
    (∀ (body : MCSRequest) (efficiency : JSVal) (a c m : JSNum),
      captureEfficiency mcsCaptureEfficiencyMap body.mcsTechnology = some efficiency →
      convertToNumber body.annualMethaneEmissions (lit 0) = some a →
      convertToNumber body.installationCostPerTon (lit 3000) = some c →
      convertToNumber body.annualMaintenanceCost (lit 10000000) = some m →
      ∃ record : MCSRecord, calculateMCS true body = Response.ok 200 record ∧
        record.netProfitForFirstYear =
          sub record.totalRevenue (add record.installationCost record.maintenanceCost) ∧
        record.annualNetProfit = sub record.totalRevenue record.maintenanceCost ∧
        record.totalProfitForTenYears =
          add record.netProfitForFirstYear (mul record.annualNetProfit (lit 9)) ∧
        ∀ R I M : ℤ, record.totalRevenue = JSNum.fin (R : ℚ) →
          record.installationCost = JSNum.fin (I : ℚ) →
          record.maintenanceCost = JSNum.fin (M : ℚ) →
          10 * |R| + |I| + 10 * |M| < 2 ^ 53 →
          record.totalProfitForTenYears =
            sub (sub (mul (lit 10) record.totalRevenue) record.installationCost)
              (mul (lit 10) record.maintenanceCost) ∧
          sub record.annualNetProfit record.netProfitForFirstYear = record.installationCost) := by
  constructor
  · intro body efficiency a c m hEff ha hc hm
    refine ⟨_, calculateCCS_figures hEff ha hc hm, rfl, rfl, rfl, ?_⟩
    intro R I M hR hI hM hb
    have h := profit_intCast R I M (lt_of_lt_of_eq hb (by norm_num))
    have e1 : (ccsFigures efficiency a c m).totalProfitForTenYears =
        add (sub (ccsFigures efficiency a c m).carbonCreditRevenue
            (add (ccsFigures efficiency a c m).installationCost
              (ccsFigures efficiency a c m).maintenanceCost))
          (mul (sub (ccsFigures efficiency a c m).carbonCreditRevenue
            (ccsFigures efficiency a c m).maintenanceCost) (lit 9)) := rfl
    have e2 : (ccsFigures efficiency a c m).annualNetProfit =
        sub (ccsFigures efficiency a c m).carbonCreditRevenue
          (ccsFigures efficiency a c m).maintenanceCost := rfl
    have e3 : (ccsFigures efficiency a c m).netProfitForFirstYear =
        sub (ccsFigures efficiency a c m).carbonCreditRevenue
          (add (ccsFigures efficiency a c m).installationCost
            (ccsFigures efficiency a c m).maintenanceCost) := rfl
    rw [e1, e2, e3, hR, hI, hM]
    exact h
  · intro body efficiency a c m hEff ha hc hm
    refine ⟨_, calculateMCS_figures hEff ha hc hm, rfl, rfl, rfl, ?_⟩
    intro R I M hR hI hM hb
    have h := profit_intCast R I M (lt_of_lt_of_eq hb (by norm_num))
    have e1 : (mcsFigures efficiency a c m).totalProfitForTenYears =
        add (sub (mcsFigures efficiency a c m).totalRevenue
            (add (mcsFigures efficiency a c m).installationCost
              (mcsFigures efficiency a c m).maintenanceCost))
          (mul (sub (mcsFigures efficiency a c m).totalRevenue
            (mcsFigures efficiency a c m).maintenanceCost) (lit 9)) := rfl
    have e2 : (mcsFigures efficiency a c m).annualNetProfit =
        sub (mcsFigures efficiency a c m).totalRevenue
          (mcsFigures efficiency a c m).maintenanceCost := rfl
    have e3 : (mcsFigures efficiency a c m).netProfitForFirstYear =
        sub (mcsFigures efficiency a c m).totalRevenue
          (add (mcsFigures efficiency a c m).installationCost
            (mcsFigures efficiency a c m).maintenanceCost) := rfl
    rw [e1, e2, e3, hR, hI, hM]
    exact h

/-- C8 (amended). Numeric coercion with the exception path:
`convertToNumber(value, default)` throws when `Number(value)` throws, and the
handler then answers 500; otherwise it returns `Number(value)` when that is not
`NaN` and the default when it is; with a default that is not `NaN` it never
returns `NaN`; with a finite default a result that is not finite is
`Number(value)` itself, equal to `Infinity` or `-Infinity`. -/
theorem convertToNumber_binary64 (value : JSInput) (defaultValue : JSNum) :
    (value.toNumber = none → convertToNumber value defaultValue = none) ∧
    (∀ (saved : Bool) (body : CCSRequest),
      convertToNumber body.annualEmissions (lit 0) = none →
      calculateCCS saved body = Response.error 500 "Server Error") ∧
    (∀ n : JSNum, value.toNumber = some n → n.isNaN = false →
      convertToNumber value defaultValue = some n) ∧
    (∀ n : JSNum, value.toNumber = some n → n.isNaN = true →
      convertToNumber value defaultValue = some defaultValue) ∧
    (defaultValue.isNaN = false → ∀ r : JSNum, convertToNumber value defaultValue = some r →
      r.isNaN = false) ∧
    (defaultValue.isFinite = true → ∀ r : JSNum, convertToNumber value defaultValue = some r →
      r.isFinite = false →
      value.toNumber = some r ∧ (r = JSNum.posInf ∨ r = JSNum.negInf)) := by
  refine ⟨?_, ?_, ?_, ?_, ?_, ?_⟩
  · intro h
    simp [convertToNumber, h]
  · intro saved body h
    unfold calculateCCS ccsRecord
    rw [h]
    cases captureEfficiency captureEfficiencyMap body.ccsTechnology <;> rfl
  · intro n h hn
    simp [convertToNumber, h, hn]
  · intro n h hn
    simp [convertToNumber, h, hn]
  · intro hd r h
    unfold convertToNumber at h
    cases hv : value.toNumber with
    | none => rw [hv] at h; simp at h
    | some n =>
      rw [hv] at h
      simp only [Option.some.injEq] at h
      by_cases hn : n.isNaN = true
      · rw [if_pos hn] at h
        rw [← h]; exact hd
      · rw [if_neg hn] at h
        rw [← h]; simpa using hn
  · intro hd r h hr
    unfold convertToNumber at h
    cases hv : value.toNumber with
    | none => rw [hv] at h; simp at h
    | some n =>
      rw [hv] at h
      simp only [Option.some.injEq] at h
      by_cases hn : n.isNaN = true
      · rw [if_pos hn] at h
        rw [← h, hd] at hr
        exact absurd hr (by simp)
      · rw [if_neg hn] at h
        subst h
        refine ⟨rfl, ?_⟩
        cases n with
        | fin q => simp [JSNum.isFinite] at hr
        | posInf => exact Or.inl rfl
        | negInf => exact Or.inr rfl
        | nan => simp [JSNum.isNaN] at hn

/-- Evaluation of `calculateCCS` on 1000 tons with Oxy-fuel combustion and the
default costs. -/
theorem ccsRequest_oxyFuel_1000 :
    captureEfficiency captureEfficiencyMap
        (ccsRequest 1000 (JSVal.str "Oxy-fuel combustion")).ccsTechnology =
        some (JSVal.num (JSNum.fin ((4278419646001971 : ℚ) / 4503599627370496))) ∧
    convertToNumber (ccsRequest 1000 (JSVal.str "Oxy-fuel combustion")).annualEmissions (lit 0) =
        some (JSNum.fin 1000) ∧
    convertToNumber (ccsRequest 1000 (JSVal.str "Oxy-fuel combustion")).installationCostPerTon
        (lit 2000) = some (JSNum.fin 2000) ∧
    convertToNumber (ccsRequest 1000 (JSVal.str "Oxy-fuel combustion")).annualMaintenanceCost
        (lit 10000000) = some (JSNum.fin 10000000) ∧
    calculateCCS true (ccsRequest 1000 (JSVal.str "Oxy-fuel combustion")) =
      Response.ok 200
      { annualEmissions := JSNum.fin 1000
        installationCostPerTon := JSNum.fin 2000
        annualMaintenanceCost := JSNum.fin 10000000
        captureEfficiency := JSVal.num (JSNum.fin ((4278419646001971 : ℚ) / 4503599627370496))
        capturedCO2 := JSNum.fin 950
        installationCost := JSNum.fin 1900000
        maintenanceCost := JSNum.fin 10000000
        carbonCreditRevenue := JSNum.fin 1425000
        totalCostForFirstYear := JSNum.fin 11900000
        totalRevenueForFirstYear := JSNum.fin 1425000
        netProfitForFirstYear := JSNum.fin (-10475000)
        annualNetProfit := JSNum.fin (-8575000)
        totalProfitForTenYears := JSNum.fin (-87650000) } := by
  have h1 : lit (1000 : ℚ) = JSNum.fin 1000 := by
    rw [lit_eq, round64_of_pos (9) 8796093022208000] <;> norm_num
  have h2 : normalize (JSNum.fin 1000) = JSNum.fin 1000 := by
    rw [normalize_fin, round64_of_pos (9) 8796093022208000] <;> norm_num
  have h3 : lit (0.95 : ℚ) = JSNum.fin ((4278419646001971 : ℚ) / 4503599627370496) := by
    rw [lit_eq, round64_of_pos (-1) 8556839292003942] <;> norm_num
  have h4 : normalize (JSNum.fin ((4278419646001971 : ℚ) / 4503599627370496)) =
      JSNum.fin ((4278419646001971 : ℚ) / 4503599627370496) := by
    rw [normalize_fin, round64_of_pos (-1) 8556839292003942] <;> norm_num
  have h5 : mul (JSNum.fin 1000) (JSNum.fin ((4278419646001971 : ℚ) / 4503599627370496)) =
      JSNum.fin 950 := by
    rw [mul_fin, round64_of_pos (9) 8356288371097600] <;> norm_num
  have h6 : mul (JSNum.fin 950) (JSNum.fin 2000) = JSNum.fin 1900000 := by
    rw [mul_fin, round64_of_pos (20) 8160437862400000] <;> norm_num
  have h7 : mul (JSNum.fin 950) (JSNum.fin 1500) = JSNum.fin 1425000 := by
    rw [mul_fin, round64_of_pos (20) 6120328396800000] <;> norm_num
  have h8 : add (JSNum.fin 1900000) (JSNum.fin 10000000) = JSNum.fin 11900000 := by
    rw [add_fin, round64_of_pos (23) 6388763852800000] <;> norm_num
  have h9 : sub (JSNum.fin 1425000) (JSNum.fin 11900000) = JSNum.fin (-10475000) := by
    rw [sub_fin, round64_of_neg (23) 5623722803200000] <;> norm_num
  have h10 : sub (JSNum.fin 1425000) (JSNum.fin 10000000) = JSNum.fin (-8575000) := by
    rw [sub_fin, round64_of_neg (23) 4603668070400000] <;> norm_num
  have h11 : mul (JSNum.fin (-8575000)) (JSNum.fin 9) = JSNum.fin (-77175000) := by
    rw [mul_fin, round64_of_neg (26) 5179126579200000] <;> norm_num
  have h12 : add (JSNum.fin (-10475000)) (JSNum.fin (-77175000)) = JSNum.fin (-87650000) := by
    rw [add_fin, round64_of_neg (26) 5882091929600000] <;> norm_num
  have c1 : captureEfficiency captureEfficiencyMap
      (ccsRequest 1000 (JSVal.str "Oxy-fuel combustion")).ccsTechnology =
      some (JSVal.num (JSNum.fin ((4278419646001971 : ℚ) / 4503599627370496))) := by
    simp [captureEfficiency, getProperty, GreenMines.getProperty, JSVal.propertyKey, ccsRequest,
      captureEfficiencyMap, List.lookup, JSVal.orElse, JSVal.truthy, h3]
  have c2 : convertToNumber (ccsRequest 1000 (JSVal.str "Oxy-fuel combustion")).annualEmissions
      (lit 0) = some (JSNum.fin 1000) := by
    simp [ccsRequest, jsonNumber, convertToNumber, JSInput.toNumber, normalize_nan, JSNum.isNaN,
        lit_0, lit_2000, lit_3000, lit_10000000, lit_1500, lit_9, lit_25, lit_500, lit_0_85,
      h1, h2, h3, h4, h5, h6, h7, h8, h9, h10, h11, h12]
  have c3 : convertToNumber
      (ccsRequest 1000 (JSVal.str "Oxy-fuel combustion")).installationCostPerTon (lit 2000) =
      some (JSNum.fin 2000) := by
    simp [ccsRequest, jsonNumber, convertToNumber, JSInput.toNumber, normalize_nan, JSNum.isNaN,
        lit_0, lit_2000, lit_3000, lit_10000000, lit_1500, lit_9, lit_25, lit_500, lit_0_85,
      h1, h2, h3, h4, h5, h6, h7, h8, h9, h10, h11, h12]
  have c4 : convertToNumber
      (ccsRequest 1000 (JSVal.str "Oxy-fuel combustion")).annualMaintenanceCost (lit 10000000) =
      some (JSNum.fin 10000000) := by
    simp [ccsRequest, jsonNumber, convertToNumber, JSInput.toNumber, normalize_nan, JSNum.isNaN,
        lit_0, lit_2000, lit_3000, lit_10000000, lit_1500, lit_9, lit_25, lit_500, lit_0_85,
      h1, h2, h3, h4, h5, h6, h7, h8, h9, h10, h11, h12]
  refine ⟨c1, c2, c3, c4, ?_⟩
  rw [calculateCCS_figures c1 c2 c3 c4]
  simp only
      [ccsFigures, toNumber_num, lit_0, lit_2000, lit_3000, lit_10000000, lit_1500, lit_9, lit_25,
      lit_500, lit_0_85, h1, h2, h3, h4, h5, h6, h7, h8, h9, h10, h11, h12]

/-- Evaluation of `calculateCCS` on 100 tons with Post-combustion and the
default costs. -/
theorem ccsRequest_postCombustion_100 :
    captureEfficiency captureEfficiencyMap
        (ccsRequest 100 (JSVal.str "Post-combustion")).ccsTechnology =
        some (JSVal.num (JSNum.fin ((7656119366529843 : ℚ) / 9007199254740992))) ∧
    convertToNumber (ccsRequest 100 (JSVal.str "Post-combustion")).annualEmissions (lit 0) =
        some (JSNum.fin 100) ∧
    convertToNumber (ccsRequest 100 (JSVal.str "Post-combustion")).installationCostPerTon
        (lit 2000) = some (JSNum.fin 2000) ∧
    convertToNumber (ccsRequest 100 (JSVal.str "Post-combustion")).annualMaintenanceCost
        (lit 10000000) = some (JSNum.fin 10000000) ∧
    calculateCCS true (ccsRequest 100 (JSVal.str "Post-combustion")) =
      Response.ok 200
      { annualEmissions := JSNum.fin 100
        installationCostPerTon := JSNum.fin 2000
        annualMaintenanceCost := JSNum.fin 10000000
        captureEfficiency := JSVal.num (JSNum.fin ((7656119366529843 : ℚ) / 9007199254740992))
        capturedCO2 := JSNum.fin 85
        installationCost := JSNum.fin 170000
        maintenanceCost := JSNum.fin 10000000
        carbonCreditRevenue := JSNum.fin 127500
        totalCostForFirstYear := JSNum.fin 10170000
        totalRevenueForFirstYear := JSNum.fin 127500
        netProfitForFirstYear := JSNum.fin (-10042500)
        annualNetProfit := JSNum.fin (-9872500)
        totalProfitForTenYears := JSNum.fin (-98895000) } := by
  have h1 : lit (100 : ℚ) = JSNum.fin 100 := by
    rw [lit_eq, round64_of_pos (6) 7036874417766400] <;> norm_num
  have h2 : normalize (JSNum.fin 100) = JSNum.fin 100 := by
    rw [normalize_fin, round64_of_pos (6) 7036874417766400] <;> norm_num
  have h3 : lit (0.85 : ℚ) = JSNum.fin ((7656119366529843 : ℚ) / 9007199254740992) := by
    rw [lit_eq, round64_of_pos (-1) 7656119366529843] <;> norm_num
  have h4 : normalize (JSNum.fin ((7656119366529843 : ℚ) / 9007199254740992)) =
      JSNum.fin ((7656119366529843 : ℚ) / 9007199254740992) := by
    rw [normalize_fin, round64_of_pos (-1) 7656119366529843] <;> norm_num
  have h5 : mul (JSNum.fin 100) (JSNum.fin ((7656119366529843 : ℚ) / 9007199254740992)) =
      JSNum.fin 85 := by
    rw [mul_fin, round64_of_pos (6) 5981343255101440] <;> norm_num
  have h6 : mul (JSNum.fin 85) (JSNum.fin 2000) = JSNum.fin 170000 := by
    rw [mul_fin, round64_of_pos (17) 5841155522560000] <;> norm_num
  have h7 : mul (JSNum.fin 85) (JSNum.fin 1500) = JSNum.fin 127500 := by
    rw [mul_fin, round64_of_pos (16) 8761733283840000] <;> norm_num
  have h8 : add (JSNum.fin 170000) (JSNum.fin 10000000) = JSNum.fin 10170000 := by
    rw [add_fin, round64_of_pos (23) 5459977175040000] <;> norm_num
  have h9 : sub (JSNum.fin 127500) (JSNum.fin 10170000) = JSNum.fin (-10042500) := by
    rw [sub_fin, round64_of_neg (23) 5391526133760000] <;> norm_num
  have h10 : sub (JSNum.fin 127500) (JSNum.fin 10000000) = JSNum.fin (-9872500) := by
    rw [sub_fin, round64_of_neg (23) 5300258078720000] <;> norm_num
  have h11 : mul (JSNum.fin (-9872500)) (JSNum.fin 9) = JSNum.fin (-88852500) := by
    rw [mul_fin, round64_of_neg (26) 5962790338560000] <;> norm_num
  have h12 : add (JSNum.fin (-10042500)) (JSNum.fin (-88852500)) = JSNum.fin (-98895000) := by
    rw [add_fin, round64_of_neg (26) 6636731105280000] <;> norm_num
  have c1 : captureEfficiency captureEfficiencyMap
      (ccsRequest 100 (JSVal.str "Post-combustion")).ccsTechnology =
      some (JSVal.num (JSNum.fin ((7656119366529843 : ℚ) / 9007199254740992))) := by
    simp [captureEfficiency, getProperty, GreenMines.getProperty, JSVal.propertyKey, ccsRequest,
      captureEfficiencyMap, List.lookup, JSVal.orElse, JSVal.truthy, h3]
  have c2 : convertToNumber (ccsRequest 100 (JSVal.str "Post-combustion")).annualEmissions (lit 0)
      = some (JSNum.fin 100) := by
    simp [ccsRequest, jsonNumber, convertToNumber, JSInput.toNumber, normalize_nan, JSNum.isNaN,
        lit_0, lit_2000, lit_3000, lit_10000000, lit_1500, lit_9, lit_25, lit_500, lit_0_85,
      h1, h2, h3, h4, h5, h6, h7, h8, h9, h10, h11, h12]
  have c3 : convertToNumber (ccsRequest 100 (JSVal.str "Post-combustion")).installationCostPerTon
      (lit 2000) = some (JSNum.fin 2000) := by
    simp [ccsRequest, jsonNumber, convertToNumber, JSInput.toNumber, normalize_nan, JSNum.isNaN,
        lit_0, lit_2000, lit_3000, lit_10000000, lit_1500, lit_9, lit_25, lit_500, lit_0_85,
      h1, h2, h3, h4, h5, h6, h7, h8, h9, h10, h11, h12]
  have c4 : convertToNumber (ccsRequest 100 (JSVal.str "Post-combustion")).annualMaintenanceCost
      (lit 10000000) = some (JSNum.fin 10000000) := by
    simp [ccsRequest, jsonNumber, convertToNumber, JSInput.toNumber, normalize_nan, JSNum.isNaN,
        lit_0, lit_2000, lit_3000, lit_10000000, lit_1500, lit_9, lit_25, lit_500, lit_0_85,
      h1, h2, h3, h4, h5, h6, h7, h8, h9, h10, h11, h12]
  refine ⟨c1, c2, c3, c4, ?_⟩
  rw [calculateCCS_figures c1 c2 c3 c4]
  simp only
      [ccsFigures, toNumber_num, lit_0, lit_2000, lit_3000, lit_10000000, lit_1500, lit_9, lit_25,
      lit_500, lit_0_85, h1, h2, h3, h4, h5, h6, h7, h8, h9, h10, h11, h12]

/-- Evaluation of `calculateCCS` on 2 tons with Oxy-fuel combustion, the default
cost per ton and a maintenance cost of 1000.1. -/
theorem ccsRequest_oxyFuel_2 :
    captureEfficiency captureEfficiencyMap
        (ccsRequestCosts 2 (JSVal.str "Oxy-fuel combustion") (JSInput.value JSVal.undefined)
        (jsonNumber (1000.1))).ccsTechnology =
        some (JSVal.num (JSNum.fin ((4278419646001971 : ℚ) / 4503599627370496))) ∧
    convertToNumber
        (ccsRequestCosts 2 (JSVal.str "Oxy-fuel combustion") (JSInput.value JSVal.undefined)
        (jsonNumber (1000.1))).annualEmissions (lit 0) = some (JSNum.fin 2) ∧
    convertToNumber
        (ccsRequestCosts 2 (JSVal.str "Oxy-fuel combustion") (JSInput.value JSVal.undefined)
        (jsonNumber (1000.1))).installationCostPerTon (lit 2000) = some (JSNum.fin 2000) ∧
    convertToNumber
        (ccsRequestCosts 2 (JSVal.str "Oxy-fuel combustion") (JSInput.value JSVal.undefined)
        (jsonNumber (1000.1))).annualMaintenanceCost (lit 10000000) =
        some (JSNum.fin ((8796972631510221 : ℚ) / 8796093022208)) ∧
    calculateCCS true
        (ccsRequestCosts 2 (JSVal.str "Oxy-fuel combustion") (JSInput.value JSVal.undefined)
        (jsonNumber (1000.1))) =
      Response.ok 200
      { annualEmissions := JSNum.fin 2
        installationCostPerTon := JSNum.fin 2000
        annualMaintenanceCost := JSNum.fin ((8796972631510221 : ℚ) / 8796093022208)
        captureEfficiency := JSVal.num (JSNum.fin ((4278419646001971 : ℚ) / 4503599627370496))
        capturedCO2 := JSNum.fin ((4278419646001971 : ℚ) / 2251799813685248)
        installationCost := JSNum.fin 3800
        maintenanceCost := JSNum.fin ((8796972631510221 : ℚ) / 8796093022208)
        carbonCreditRevenue := JSNum.fin 2850
        totalCostForFirstYear := JSNum.fin ((2638882882243789 : ℚ) / 549755813888)
        totalRevenueForFirstYear := JSNum.fin 2850
        netProfitForFirstYear := JSNum.fin (-((1072078812662989 : ℚ) / 549755813888))
        annualNetProfit := JSNum.fin ((4067973120445645 : ℚ) / 2199023255552)
        totalProfitForTenYears := JSNum.fin ((8080860708339713 : ℚ) / 549755813888) } := by
  have h1 : lit (2 : ℚ) = JSNum.fin 2 := by
    rw [lit_eq, round64_of_pos (1) 4503599627370496] <;> norm_num
  have h2 : normalize (JSNum.fin 2) = JSNum.fin 2 := by
    rw [normalize_fin, round64_of_pos (1) 4503599627370496] <;> norm_num
  have h3 : lit (0.95 : ℚ) = JSNum.fin ((4278419646001971 : ℚ) / 4503599627370496) := by
    rw [lit_eq, round64_of_pos (-1) 8556839292003942] <;> norm_num
  have h4 : normalize (JSNum.fin ((4278419646001971 : ℚ) / 4503599627370496)) =
      JSNum.fin ((4278419646001971 : ℚ) / 4503599627370496) := by
    rw [normalize_fin, round64_of_pos (-1) 8556839292003942] <;> norm_num
  have h5 : lit (1000.1 : ℚ) = JSNum.fin ((8796972631510221 : ℚ) / 8796093022208) := by
    rw [lit_eq, round64_of_pos (9) 8796972631510221] <;> norm_num
  have h6 : normalize (JSNum.fin ((8796972631510221 : ℚ) / 8796093022208)) =
      JSNum.fin ((8796972631510221 : ℚ) / 8796093022208) := by
    rw [normalize_fin, round64_of_pos (9) 8796972631510221] <;> norm_num
  have h7 : mul (JSNum.fin 2) (JSNum.fin ((4278419646001971 : ℚ) / 4503599627370496)) =
      JSNum.fin ((4278419646001971 : ℚ) / 2251799813685248) := by
    rw [mul_fin, round64_of_pos (0) 8556839292003942] <;> norm_num
  have h8 : mul (JSNum.fin ((4278419646001971 : ℚ) / 2251799813685248)) (JSNum.fin 2000) =
      JSNum.fin 3800 := by
    rw [mul_fin, round64_of_pos (11) 8356288371097600] <;> norm_num
  have h9 : mul (JSNum.fin ((4278419646001971 : ℚ) / 2251799813685248)) (JSNum.fin 1500) =
      JSNum.fin 2850 := by
    rw [mul_fin, round64_of_pos (11) 6267216278323200] <;> norm_num
  have h10 : add (JSNum.fin 3800) (JSNum.fin ((8796972631510221 : ℚ) / 8796093022208)) =
      JSNum.fin ((2638882882243789 : ℚ) / 549755813888) := by
    rw [add_fin, round64_of_pos (12) 5277765764487578] <;> norm_num
  have h11 : sub (JSNum.fin 2850) (JSNum.fin ((2638882882243789 : ℚ) / 549755813888)) =
      JSNum.fin (-((1072078812662989 : ℚ) / 549755813888)) := by
    rw [sub_fin, round64_of_neg (10) 8576630501303912] <;> norm_num
  have h12 : sub (JSNum.fin 2850) (JSNum.fin ((8796972631510221 : ℚ) / 8796093022208)) =
      JSNum.fin ((4067973120445645 : ℚ) / 2199023255552) := by
    rw [sub_fin, round64_of_pos_tie_up (10) 8135946240891290] <;> norm_num
  have h13 : mul (JSNum.fin ((4067973120445645 : ℚ) / 2199023255552)) (JSNum.fin 9) =
      JSNum.fin ((4576469760501351 : ℚ) / 274877906944) := by
    rw [mul_fin, round64_of_pos (14) 4576469760501351] <;> norm_num
  have h14 : add (JSNum.fin (-((1072078812662989 : ℚ) / 549755813888)))
      (JSNum.fin ((4576469760501351 : ℚ) / 274877906944)) =
      JSNum.fin ((8080860708339713 : ℚ) / 549755813888) := by
    rw [add_fin, round64_of_pos (13) 8080860708339713] <;> norm_num
  have c1 : captureEfficiency captureEfficiencyMap
      (ccsRequestCosts 2 (JSVal.str "Oxy-fuel combustion") (JSInput.value JSVal.undefined)
      (jsonNumber (1000.1))).ccsTechnology =
      some (JSVal.num (JSNum.fin ((4278419646001971 : ℚ) / 4503599627370496))) := by
    simp [captureEfficiency, getProperty, GreenMines.getProperty, JSVal.propertyKey,
        ccsRequestCosts,
      captureEfficiencyMap, List.lookup, JSVal.orElse, JSVal.truthy, h3]
  have c2 : convertToNumber
      (ccsRequestCosts 2 (JSVal.str "Oxy-fuel combustion") (JSInput.value JSVal.undefined)
      (jsonNumber (1000.1))).annualEmissions (lit 0) = some (JSNum.fin 2) := by
    simp [ccsRequestCosts, jsonNumber, convertToNumber, JSInput.toNumber, normalize_nan,
        JSNum.isNaN, lit_0, lit_2000, lit_3000, lit_10000000, lit_1500, lit_9, lit_25, lit_500,
        lit_0_85,
      h1, h2, h3, h4, h5, h6, h7, h8, h9, h10, h11, h12, h13, h14]
  have c3 : convertToNumber
      (ccsRequestCosts 2 (JSVal.str "Oxy-fuel combustion") (JSInput.value JSVal.undefined)
      (jsonNumber (1000.1))).installationCostPerTon (lit 2000) = some (JSNum.fin 2000) := by
    simp [ccsRequestCosts, jsonNumber, convertToNumber, JSInput.toNumber, normalize_nan,
        JSNum.isNaN, lit_0, lit_2000, lit_3000, lit_10000000, lit_1500, lit_9, lit_25, lit_500,
        lit_0_85,
      h1, h2, h3, h4, h5, h6, h7, h8, h9, h10, h11, h12, h13, h14]
  have c4 : convertToNumber
      (ccsRequestCosts 2 (JSVal.str "Oxy-fuel combustion") (JSInput.value JSVal.undefined)
      (jsonNumber (1000.1))).annualMaintenanceCost (lit 10000000) =
      some (JSNum.fin ((8796972631510221 : ℚ) / 8796093022208)) := by
    simp [ccsRequestCosts, jsonNumber, convertToNumber, JSInput.toNumber, normalize_nan,
        JSNum.isNaN, lit_0, lit_2000, lit_3000, lit_10000000, lit_1500, lit_9, lit_25, lit_500,
        lit_0_85,
      h1, h2, h3, h4, h5, h6, h7, h8, h9, h10, h11, h12, h13, h14]
  refine ⟨c1, c2, c3, c4, ?_⟩
  rw [calculateCCS_figures c1 c2 c3 c4]
  simp only
      [ccsFigures, toNumber_num, lit_0, lit_2000, lit_3000, lit_10000000, lit_1500, lit_9, lit_25,
      lit_500, lit_0_85, h1, h2, h3, h4, h5, h6, h7, h8, h9, h10, h11, h12, h13, h14]

/-- Evaluation of `calculateMCS` on 13 tons with Flaring and the default costs. -/
theorem mcsRequest_flaring_13 :
    captureEfficiency mcsCaptureEfficiencyMap (mcsRequest 13 (JSVal.str "Flaring")).mcsTechnology =
        some (JSVal.num (JSNum.fin ((8106479329266893 : ℚ) / 9007199254740992))) ∧
    convertToNumber (mcsRequest 13 (JSVal.str "Flaring")).annualMethaneEmissions (lit 0) =
        some (JSNum.fin 13) ∧
    convertToNumber (mcsRequest 13 (JSVal.str "Flaring")).installationCostPerTon (lit 3000) =
        some (JSNum.fin 3000) ∧
    convertToNumber (mcsRequest 13 (JSVal.str "Flaring")).annualMaintenanceCost (lit 10000000) =
        some (JSNum.fin 10000000) ∧
    calculateMCS true (mcsRequest 13 (JSVal.str "Flaring")) =
      Response.ok 200
      { annualMethaneEmissions := JSNum.fin 13
        captureEfficiency := JSVal.num (JSNum.fin ((8106479329266893 : ℚ) / 9007199254740992))
        capturedMethane := JSNum.fin ((6586514455029351 : ℚ) / 562949953421312)
        co2Equivalent := JSNum.fin ((585 : ℚ) / 2)
        installationCostPerTon := JSNum.fin 3000
        annualMaintenanceCost := JSNum.fin 10000000
        methaneMarketPrice := JSNum.fin 500
        carbonCreditPrice := JSNum.fin 1500
        installationCost := JSNum.fin 35100
        maintenanceCost := JSNum.fin 10000000
        carbonCreditRevenue := JSNum.fin 438750
        methaneRevenue := JSNum.fin ((6432143022489601 : ℚ) / 1099511627776)
        totalCostForFirstYear := JSNum.fin 10035100
        totalRevenue := JSNum.fin 444600
        netProfitForFirstYear := JSNum.fin (-9590500)
        annualNetProfit := JSNum.fin (-9555400)
        totalProfitForTenYears := JSNum.fin (-95589100) } := by
  have h1 : lit (13 : ℚ) = JSNum.fin 13 := by
    rw [lit_eq, round64_of_pos (3) 7318349394477056] <;> norm_num
  have h2 : normalize (JSNum.fin 13) = JSNum.fin 13 := by
    rw [normalize_fin, round64_of_pos (3) 7318349394477056] <;> norm_num
  have h3 : lit (0.9 : ℚ) = JSNum.fin ((8106479329266893 : ℚ) / 9007199254740992) := by
    rw [lit_eq, round64_of_pos (-1) 8106479329266893] <;> norm_num
  have h4 : normalize (JSNum.fin ((8106479329266893 : ℚ) / 9007199254740992)) =
      JSNum.fin ((8106479329266893 : ℚ) / 9007199254740992) := by
    rw [normalize_fin, round64_of_pos (-1) 8106479329266893] <;> norm_num
  have h5 : mul (JSNum.fin 13) (JSNum.fin ((8106479329266893 : ℚ) / 9007199254740992)) =
      JSNum.fin ((6586514455029351 : ℚ) / 562949953421312) := by
    rw [mul_fin, round64_of_pos (3) 6586514455029351] <;> norm_num
  have h6 : mul (JSNum.fin ((6586514455029351 : ℚ) / 562949953421312)) (JSNum.fin 25) =
      JSNum.fin ((585 : ℚ) / 2) := by
    rw [mul_fin, round64_of_pos (8) 5145714417991680] <;> norm_num
  have h7 : mul (JSNum.fin ((6586514455029351 : ℚ) / 562949953421312)) (JSNum.fin 3000) =
      JSNum.fin 35100 := by
    rw [mul_fin, round64_of_pos (15) 4824107266867200] <;> norm_num
  have h8 : mul (JSNum.fin ((585 : ℚ) / 2)) (JSNum.fin 1500) = JSNum.fin 438750 := by
    rw [mul_fin, round64_of_pos (18) 7537667604480000] <;> norm_num
  have h9 : mul (JSNum.fin ((6586514455029351 : ℚ) / 562949953421312)) (JSNum.fin 500) =
      JSNum.fin ((6432143022489601 : ℚ) / 1099511627776) := by
    rw [mul_fin, round64_of_pos (12) 6432143022489601] <;> norm_num
  have h10 : add (JSNum.fin 438750) (JSNum.fin ((6432143022489601 : ℚ) / 1099511627776)) =
      JSNum.fin 444600 := by
    rw [add_fin, round64_of_pos (18) 7638169839206400] <;> norm_num
  have h11 : add (JSNum.fin 35100) (JSNum.fin 10000000) = JSNum.fin 10035100 := by
    rw [add_fin, round64_of_pos (23) 5387553289011200] <;> norm_num
  have h12 : sub (JSNum.fin 444600) (JSNum.fin 10035100) = JSNum.fin (-9590500) := by
    rw [sub_fin, round64_of_neg (23) 5148860481536000] <;> norm_num
  have h13 : sub (JSNum.fin 444600) (JSNum.fin 10000000) = JSNum.fin (-9555400) := by
    rw [sub_fin, round64_of_neg (23) 5130016312524800] <;> norm_num
  have h14 : mul (JSNum.fin (-9555400)) (JSNum.fin 9) = JSNum.fin (-85998600) := by
    rw [mul_fin, round64_of_neg (26) 5771268351590400] <;> norm_num
  have h15 : add (JSNum.fin (-9590500)) (JSNum.fin (-85998600)) = JSNum.fin (-95589100) := by
    rw [add_fin, round64_of_neg (26) 6414875911782400] <;> norm_num
  have c1 : captureEfficiency mcsCaptureEfficiencyMap
      (mcsRequest 13 (JSVal.str "Flaring")).mcsTechnology =
      some (JSVal.num (JSNum.fin ((8106479329266893 : ℚ) / 9007199254740992))) := by
    simp [captureEfficiency, getProperty, GreenMines.getProperty, JSVal.propertyKey, mcsRequest,
      mcsCaptureEfficiencyMap, List.lookup, JSVal.orElse, JSVal.truthy, h3]
  have c2 : convertToNumber (mcsRequest 13 (JSVal.str "Flaring")).annualMethaneEmissions (lit 0) =
      some (JSNum.fin 13) := by
    simp [mcsRequest, jsonNumber, convertToNumber, JSInput.toNumber, normalize_nan, JSNum.isNaN,
        lit_0, lit_2000, lit_3000, lit_10000000, lit_1500, lit_9, lit_25, lit_500, lit_0_85,
      h1, h2, h3, h4, h5, h6, h7, h8, h9, h10, h11, h12, h13, h14, h15]
  have c3 : convertToNumber (mcsRequest 13 (JSVal.str "Flaring")).installationCostPerTon (lit 3000)
      = some (JSNum.fin 3000) := by
    simp [mcsRequest, jsonNumber, convertToNumber, JSInput.toNumber, normalize_nan, JSNum.isNaN,
        lit_0, lit_2000, lit_3000, lit_10000000, lit_1500, lit_9, lit_25, lit_500, lit_0_85,
      h1, h2, h3, h4, h5, h6, h7, h8, h9, h10, h11, h12, h13, h14, h15]
  have c4 : convertToNumber (mcsRequest 13 (JSVal.str "Flaring")).annualMaintenanceCost
      (lit 10000000) = some (JSNum.fin 10000000) := by
    simp [mcsRequest, jsonNumber, convertToNumber, JSInput.toNumber, normalize_nan, JSNum.isNaN,
        lit_0, lit_2000, lit_3000, lit_10000000, lit_1500, lit_9, lit_25, lit_500, lit_0_85,
      h1, h2, h3, h4, h5, h6, h7, h8, h9, h10, h11, h12, h13, h14, h15]
  refine ⟨c1, c2, c3, c4, ?_⟩
  rw [calculateMCS_figures c1 c2 c3 c4]
  simp only
      [mcsFigures, toNumber_num, lit_0, lit_2000, lit_3000, lit_10000000, lit_1500, lit_9, lit_25,
      lit_500, lit_0_85, h1, h2, h3, h4, h5, h6, h7, h8, h9, h10, h11, h12, h13, h14, h15]

/-- Evaluation of `calculateMCS` on 10 tons with Flaring and the default costs. -/
theorem mcsRequest_flaring_10 :
    captureEfficiency mcsCaptureEfficiencyMap (mcsRequest 10 (JSVal.str "Flaring")).mcsTechnology =
        some (JSVal.num (JSNum.fin ((8106479329266893 : ℚ) / 9007199254740992))) ∧
    convertToNumber (mcsRequest 10 (JSVal.str "Flaring")).annualMethaneEmissions (lit 0) =
        some (JSNum.fin 10) ∧
    convertToNumber (mcsRequest 10 (JSVal.str "Flaring")).installationCostPerTon (lit 3000) =
        some (JSNum.fin 3000) ∧
    convertToNumber (mcsRequest 10 (JSVal.str "Flaring")).annualMaintenanceCost (lit 10000000) =
        some (JSNum.fin 10000000) ∧
    calculateMCS true (mcsRequest 10 (JSVal.str "Flaring")) =
      Response.ok 200
      { annualMethaneEmissions := JSNum.fin 10
        captureEfficiency := JSVal.num (JSNum.fin ((8106479329266893 : ℚ) / 9007199254740992))
        capturedMethane := JSNum.fin 9
        co2Equivalent := JSNum.fin 225
        installationCostPerTon := JSNum.fin 3000
        annualMaintenanceCost := JSNum.fin 10000000
        methaneMarketPrice := JSNum.fin 500
        carbonCreditPrice := JSNum.fin 1500
        installationCost := JSNum.fin 27000
        maintenanceCost := JSNum.fin 10000000
        carbonCreditRevenue := JSNum.fin 337500
        methaneRevenue := JSNum.fin 4500
        totalCostForFirstYear := JSNum.fin 10027000
        totalRevenue := JSNum.fin 342000
        netProfitForFirstYear := JSNum.fin (-9685000)
        annualNetProfit := JSNum.fin (-9658000)
        totalProfitForTenYears := JSNum.fin (-96607000) } := by
  have h1 : lit (10 : ℚ) = JSNum.fin 10 := by
    rw [lit_eq, round64_of_pos (3) 5629499534213120] <;> norm_num
  have h2 : normalize (JSNum.fin 10) = JSNum.fin 10 := by
    rw [normalize_fin, round64_of_pos (3) 5629499534213120] <;> norm_num
  have h3 : lit (0.9 : ℚ) = JSNum.fin ((8106479329266893 : ℚ) / 9007199254740992) := by
    rw [lit_eq, round64_of_pos (-1) 8106479329266893] <;> norm_num
  have h4 : normalize (JSNum.fin ((8106479329266893 : ℚ) / 9007199254740992)) =
      JSNum.fin ((8106479329266893 : ℚ) / 9007199254740992) := by
    rw [normalize_fin, round64_of_pos (-1) 8106479329266893] <;> norm_num
  have h5 : mul (JSNum.fin 10) (JSNum.fin ((8106479329266893 : ℚ) / 9007199254740992)) =
      JSNum.fin 9 := by
    rw [mul_fin, round64_of_pos (3) 5066549580791808] <;> norm_num
  have h6 : mul (JSNum.fin 9) (JSNum.fin 25) = JSNum.fin 225 := by
    rw [mul_fin, round64_of_pos (7) 7916483719987200] <;> norm_num
  have h7 : mul (JSNum.fin 9) (JSNum.fin 3000) = JSNum.fin 27000 := by
    rw [mul_fin, round64_of_pos (14) 7421703487488000] <;> norm_num
  have h8 : mul (JSNum.fin 225) (JSNum.fin 1500) = JSNum.fin 337500 := by
    rw [mul_fin, round64_of_pos (18) 5798205849600000] <;> norm_num
  have h9 : mul (JSNum.fin 9) (JSNum.fin 500) = JSNum.fin 4500 := by
    rw [mul_fin, round64_of_pos (12) 4947802324992000] <;> norm_num
  have h10 : add (JSNum.fin 337500) (JSNum.fin 4500) = JSNum.fin 342000 := by
    rw [add_fin, round64_of_pos (18) 5875515260928000] <;> norm_num
  have h11 : add (JSNum.fin 27000) (JSNum.fin 10000000) = JSNum.fin 10027000 := by
    rw [add_fin, round64_of_pos (23) 5383204634624000] <;> norm_num
  have h12 : sub (JSNum.fin 342000) (JSNum.fin 10027000) = JSNum.fin (-9685000) := by
    rw [sub_fin, round64_of_neg (23) 5199594782720000] <;> norm_num
  have h13 : sub (JSNum.fin 342000) (JSNum.fin 10000000) = JSNum.fin (-9658000) := by
    rw [sub_fin, round64_of_neg (23) 5185099268096000] <;> norm_num
  have h14 : mul (JSNum.fin (-9658000)) (JSNum.fin 9) = JSNum.fin (-86922000) := by
    rw [mul_fin, round64_of_neg (26) 5833236676608000] <;> norm_num
  have h15 : add (JSNum.fin (-9685000)) (JSNum.fin (-86922000)) = JSNum.fin (-96607000) := by
    rw [add_fin, round64_of_neg (26) 6483186024448000] <;> norm_num
  have c1 : captureEfficiency mcsCaptureEfficiencyMap
      (mcsRequest 10 (JSVal.str "Flaring")).mcsTechnology =
      some (JSVal.num (JSNum.fin ((8106479329266893 : ℚ) / 9007199254740992))) := by
    simp [captureEfficiency, getProperty, GreenMines.getProperty, JSVal.propertyKey, mcsRequest,
      mcsCaptureEfficiencyMap, List.lookup, JSVal.orElse, JSVal.truthy, h3]
  have c2 : convertToNumber (mcsRequest 10 (JSVal.str "Flaring")).annualMethaneEmissions (lit 0) =
      some (JSNum.fin 10) := by
    simp [mcsRequest, jsonNumber, convertToNumber, JSInput.toNumber, normalize_nan, JSNum.isNaN,
        lit_0, lit_2000, lit_3000, lit_10000000, lit_1500, lit_9, lit_25, lit_500, lit_0_85,
      h1, h2, h3, h4, h5, h6, h7, h8, h9, h10, h11, h12, h13, h14, h15]
  have c3 : convertToNumber (mcsRequest 10 (JSVal.str "Flaring")).installationCostPerTon (lit 3000)
      = some (JSNum.fin 3000) := by
    simp [mcsRequest, jsonNumber, convertToNumber, JSInput.toNumber, normalize_nan, JSNum.isNaN,
        lit_0, lit_2000, lit_3000, lit_10000000, lit_1500, lit_9, lit_25, lit_500, lit_0_85,
      h1, h2, h3, h4, h5, h6, h7, h8, h9, h10, h11, h12, h13, h14, h15]
  have c4 : convertToNumber (mcsRequest 10 (JSVal.str "Flaring")).annualMaintenanceCost
      (lit 10000000) = some (JSNum.fin 10000000) := by
    simp [mcsRequest, jsonNumber, convertToNumber, JSInput.toNumber, normalize_nan, JSNum.isNaN,
        lit_0, lit_2000, lit_3000, lit_10000000, lit_1500, lit_9, lit_25, lit_500, lit_0_85,
      h1, h2, h3, h4, h5, h6, h7, h8, h9, h10, h11, h12, h13, h14, h15]
  refine ⟨c1, c2, c3, c4, ?_⟩
  rw [calculateMCS_figures c1 c2 c3 c4]
  simp only
      [mcsFigures, toNumber_num, lit_0, lit_2000, lit_3000, lit_10000000, lit_1500, lit_9, lit_25,
      lit_500, lit_0_85, h1, h2, h3, h4, h5, h6, h7, h8, h9, h10, h11, h12, h13, h14, h15]

/-! ### Worked requests of the capture handlers -/

/-- Witness for C6: 1000 tons with Oxy-fuel combustion (0.95) and the default
costs 2000 and 10,000,000 capture 950 tons, cost 1,900,000 to install, earn
1,425,000 a year, and lose 87,650,000 over ten years. -/
theorem ccs_economics_binary64_witness :
    captureEfficiency captureEfficiencyMap
        (ccsRequest 1000 (JSVal.str "Oxy-fuel combustion")).ccsTechnology =
      some (JSVal.num (JSNum.fin ((4278419646001971 : ℚ) / 4503599627370496))) ∧
    convertToNumber (ccsRequest 1000 (JSVal.str "Oxy-fuel combustion")).annualEmissions (lit 0) =
      some (JSNum.fin 1000) ∧
    convertToNumber (ccsRequest 1000 (JSVal.str "Oxy-fuel combustion")).installationCostPerTon
        (lit 2000) = some (JSNum.fin 2000) ∧
    convertToNumber (ccsRequest 1000 (JSVal.str "Oxy-fuel combustion")).annualMaintenanceCost
        (lit 10000000) = some (JSNum.fin 10000000) ∧
    (∃ record : CCSRecord,
      calculateCCS true (ccsRequest 1000 (JSVal.str "Oxy-fuel combustion")) =
        Response.ok 200 record ∧
      record.capturedCO2 = JSNum.fin 950 ∧ record.installationCost = JSNum.fin 1900000 ∧
      record.carbonCreditRevenue = JSNum.fin 1425000 ∧
      record.totalCostForFirstYear = JSNum.fin 11900000 ∧
      record.netProfitForFirstYear = JSNum.fin (-10475000) ∧
      record.annualNetProfit = JSNum.fin (-8575000) ∧
      record.totalProfitForTenYears = JSNum.fin (-87650000)) ∧
    ∃ record : CCSRecord,
      calculateCCS true (ccsRequest 1000 (JSVal.str "Oxy-fuel combustion")) =
        Response.ok 200 record ∧
      record.capturedCO2 =
        mul (JSNum.fin 1000)
          (normalize
            (JSVal.num (JSNum.fin ((4278419646001971 : ℚ) / 4503599627370496))).toNumber) ∧
      record.installationCost = mul record.capturedCO2 (JSNum.fin 2000) ∧
      record.carbonCreditRevenue = mul record.capturedCO2 (lit 1500) ∧
      record.totalCostForFirstYear = add record.installationCost (JSNum.fin 10000000) ∧
      record.totalRevenueForFirstYear = record.carbonCreditRevenue ∧
      record.netProfitForFirstYear =
        sub record.carbonCreditRevenue record.totalCostForFirstYear ∧
      record.annualNetProfit = sub record.carbonCreditRevenue (JSNum.fin 10000000) ∧
      record.totalProfitForTenYears =
        add record.netProfitForFirstYear (mul record.annualNetProfit (lit 9)) := by
  obtain ⟨c1, c2, c3, c4, hresp⟩ := ccsRequest_oxyFuel_1000
  exact ⟨c1, c2, c3, c4, ⟨_, hresp, rfl, rfl, rfl, rfl, rfl, rfl, rfl⟩,
    ccs_economics_binary64 (ccsRequest 1000 (JSVal.str "Oxy-fuel combustion")) _ _ _ _
      c1 c2 c3 c4⟩

/-- C7 (counterexample). For 13 tons with Flaring (0.9) and the default costs,
`capturedMethane` is 11.700000000000001, `totalRevenue` is 444600, and
`capturedMethane * 38000` is 444600.00000000006. -/
theorem mcs_total_revenue_rounded :
    ∃ record : MCSRecord,
      calculateMCS true (mcsRequest 13 (JSVal.str "Flaring")) = Response.ok 200 record ∧
      record.capturedMethane = JSNum.fin ((6586514455029351 : ℚ) / 562949953421312) ∧
      record.totalRevenue = JSNum.fin 444600 ∧
      mul record.capturedMethane (lit 38000) =
        JSNum.fin ((7638169839206401 : ℚ) / 17179869184) ∧
      record.totalRevenue ≠ mul record.capturedMethane (lit 38000) := by
  obtain ⟨_, _, _, _, hresp⟩ := mcsRequest_flaring_13
  have h1 : mul (JSNum.fin ((6586514455029351 : ℚ) / 562949953421312)) (JSNum.fin 38000) =
      JSNum.fin ((7638169839206401 : ℚ) / 17179869184) := by
    rw [mul_fin, round64_of_pos (18) 7638169839206401] <;> norm_num
  refine ⟨_, hresp, rfl, rfl, ?_, ?_⟩
  · show mul (JSNum.fin _) (lit 38000) = _
    rw [lit_38000, h1]
  · show JSNum.fin _ ≠ mul (JSNum.fin _) (lit 38000)
    rw [lit_38000, h1]
    intro h
    have h' := JSNum.fin.inj h
    norm_num at h'

/-- Witness for C7 (amended): 10 tons with Flaring capture exactly 9 tons, and
the total revenue is `9 * 38000 = 342000`. -/
theorem mcs_relations_binary64_witness :
    captureEfficiency mcsCaptureEfficiencyMap
        (mcsRequest 10 (JSVal.str "Flaring")).mcsTechnology =
      some (JSVal.num (JSNum.fin ((8106479329266893 : ℚ) / 9007199254740992))) ∧
    convertToNumber (mcsRequest 10 (JSVal.str "Flaring")).annualMethaneEmissions (lit 0) =
      some (JSNum.fin 10) ∧
    convertToNumber (mcsRequest 10 (JSVal.str "Flaring")).installationCostPerTon (lit 3000) =
      some (JSNum.fin 3000) ∧
    convertToNumber (mcsRequest 10 (JSVal.str "Flaring")).annualMaintenanceCost (lit 10000000) =
      some (JSNum.fin 10000000) ∧
    (∃ record : MCSRecord,
      calculateMCS true (mcsRequest 10 (JSVal.str "Flaring")) = Response.ok 200 record ∧
      record.capturedMethane = JSNum.fin 9 ∧ record.co2Equivalent = JSNum.fin 225 ∧
      record.carbonCreditRevenue = JSNum.fin 337500 ∧ record.methaneRevenue = JSNum.fin 4500 ∧
      record.totalRevenue = JSNum.fin 342000) ∧
    ∃ record : MCSRecord,
      calculateMCS true (mcsRequest 10 (JSVal.str "Flaring")) = Response.ok 200 record ∧
      record.capturedMethane =
        mul (JSNum.fin 10)
          (normalize
            (JSVal.num (JSNum.fin ((8106479329266893 : ℚ) / 9007199254740992))).toNumber) ∧
      record.co2Equivalent = mul record.capturedMethane (lit 25) ∧
      record.carbonCreditRevenue = mul record.co2Equivalent (lit 1500) ∧
      record.methaneRevenue = mul record.capturedMethane (lit 500) ∧
      record.totalRevenue = add record.carbonCreditRevenue record.methaneRevenue ∧
      ∀ x : ℤ, record.capturedMethane = JSNum.fin (x : ℚ) → 38000 * |x| < 2 ^ 53 →
        record.totalRevenue = mul record.capturedMethane (lit 38000) := by
  obtain ⟨c1, c2, c3, c4, hresp⟩ := mcsRequest_flaring_10
  exact ⟨c1, c2, c3, c4, ⟨_, hresp, rfl, rfl, rfl, rfl, rfl⟩,
    mcs_relations_binary64 (mcsRequest 10 (JSVal.str "Flaring")) _ _ _ _ c1 c2 c3 c4⟩

/-- C8 (counterexample). The strings `"Infinity"` and `"1e309"` convert to
`Infinity`, which is not `NaN`: `convertToNumber` returns it, with the finite
default 2000 unused; and on a value whose conversion throws it returns
nothing. -/
theorem convertToNumber_not_finite :
    convertToNumber (JSInput.value (JSVal.str "Infinity")) (lit 2000) = some JSNum.posInf ∧
    convertToNumber (JSInput.value (JSVal.str "1e309")) (lit 2000) = some JSNum.posInf ∧
    convertToNumber JSInput.throwing (lit 2000) = none ∧
    (lit 2000).isFinite = true ∧
    ¬ ∀ (value : JSInput) (defaultValue : JSNum), defaultValue.isFinite = true →
        ∃ r : JSNum, convertToNumber value defaultValue = some r ∧ r.isFinite = true := by
  have h1 : convertToNumber (JSInput.value (JSVal.str "Infinity")) (lit 2000) =
      some JSNum.posInf := rfl
  have h2 : convertToNumber (JSInput.value (JSVal.str "1e309")) (lit 2000) =
      some JSNum.posInf := by
    have hs : (JSVal.str "1e309").toNumber = JSNum.fin (1 * (10 : ℚ) ^ (309 : ℤ)) := rfl
    have hr : round64 (1 * (10 : ℚ) ^ (309 : ℤ)) = JSNum.posInf :=
      round64_overflow (by norm_num)
    have ht : (JSInput.value (JSVal.str "1e309")).toNumber = some JSNum.posInf := by
      show some (normalize (JSVal.str "1e309").toNumber) = _
      rw [hs, normalize_fin, hr]
    unfold convertToNumber
    rw [ht]
    rfl
  have hd : (lit 2000).isFinite = true := by
    rw [lit_2000]
    rfl
  refine ⟨h1, h2, rfl, hd, fun hall => ?_⟩
  obtain ⟨r, hr, hfin⟩ := hall (JSInput.value (JSVal.str "Infinity")) (lit 2000) hd
  rw [h1] at hr
  cases hr
  exact Bool.noConfusion hfin

/-- Witness for C8 (amended): a numeric string is parsed, a word gives the
default, and a decimal below the least binary64 number gives 0. -/
theorem convertToNumber_binary64_witness :
    (JSInput.value (JSVal.str "42")).toNumber = some (JSNum.fin 42) ∧
    convertToNumber (JSInput.value (JSVal.str "42")) (lit 2000) = some (JSNum.fin 42) ∧
    (JSInput.value (JSVal.str "abc")).toNumber = some JSNum.nan ∧
    convertToNumber (JSInput.value (JSVal.str "abc")) (lit 2000) = some (lit 2000) ∧
    (JSInput.value (JSVal.str "1e-324")).toNumber = some (JSNum.fin 0) ∧
    convertToNumber (JSInput.value (JSVal.str "1e-324")) (lit 2000) = some (JSNum.fin 0) := by
  have h42 : (JSInput.value (JSVal.str "42")).toNumber = some (JSNum.fin 42) := by
    have hs : (JSVal.str "42").toNumber = JSNum.fin 42 := rfl
    have hr : round64 42 = JSNum.fin 42 := by
      rw [round64_of_pos 5 5910974510923776] <;> norm_num
    show some (normalize (JSVal.str "42").toNumber) = _
    rw [hs, normalize_fin, hr]
  have habc : (JSInput.value (JSVal.str "abc")).toNumber = some JSNum.nan := rfl
  have htiny : (JSInput.value (JSVal.str "1e-324")).toNumber = some (JSNum.fin 0) := by
    have hs : (JSVal.str "1e-324").toNumber = JSNum.fin (1 * (10 : ℚ) ^ (-324 : ℤ)) := rfl
    have hr : round64 (1 * (10 : ℚ) ^ (-324 : ℤ)) = JSNum.fin 0 := by
      rw [round64_of_pos (-1022) 0] <;> norm_num
    show some (normalize (JSVal.str "1e-324").toNumber) = _
    rw [hs, normalize_fin, hr]
  exact ⟨h42,
    (convertToNumber_binary64 (JSInput.value (JSVal.str "42")) (lit 2000)).2.2.1 _ h42 rfl,
    habc,
    (convertToNumber_binary64 (JSInput.value (JSVal.str "abc")) (lit 2000)).2.2.2.1 _ habc rfl,
    htiny,
    (convertToNumber_binary64 (JSInput.value (JSVal.str "1e-324")) (lit 2000)).2.2.1 _ htiny
      rfl⟩

/-- C19 (counterexample). For 2 tons with Oxy-fuel combustion (0.95), the
default cost per ton and a maintenance cost of 1000.1, the installation cost is
3800 and `annualNetProfit - netProfitForFirstYear` is 3800.0000000000005; the
ten-year total is 14699.000000000002 and
`10 * carbonCreditRevenue - installationCost - 10 * maintenanceCost` is 14699. -/
theorem ccs_profit_identities_rounded :
    ∃ record : CCSRecord,
      calculateCCS true
          (ccsRequestCosts 2 (JSVal.str "Oxy-fuel combustion") (JSInput.value JSVal.undefined)
            (jsonNumber 1000.1)) =
        Response.ok 200 record ∧
      record.installationCost = JSNum.fin 3800 ∧
      sub record.annualNetProfit record.netProfitForFirstYear =
        JSNum.fin ((8356288371097601 : ℚ) / 2199023255552) ∧
      sub record.annualNetProfit record.netProfitForFirstYear ≠ record.installationCost ∧
      record.totalProfitForTenYears = JSNum.fin ((8080860708339713 : ℚ) / 549755813888) ∧
      sub (sub (mul (lit 10) record.carbonCreditRevenue) record.installationCost)
        (mul (lit 10) record.maintenanceCost) = JSNum.fin 14699 ∧
      record.totalProfitForTenYears ≠
        sub (sub (mul (lit 10) record.carbonCreditRevenue) record.installationCost)
          (mul (lit 10) record.maintenanceCost) := by
  obtain ⟨_, _, _, _, hresp⟩ := ccsRequest_oxyFuel_2
  have h1 : mul (JSNum.fin 10) (JSNum.fin 2850) = JSNum.fin 28500 := by
    rw [mul_fin, round64_of_pos (14) 7834020347904000] <;> norm_num
  have h2 : sub (JSNum.fin 28500) (JSNum.fin 3800) = JSNum.fin 24700 := by
    rw [sub_fin, round64_of_pos (14) 6789484301516800] <;> norm_num
  have h3 : mul (JSNum.fin 10) (JSNum.fin ((8796972631510221 : ℚ) / 8796093022208)) =
      JSNum.fin 10001 := by
    rw [mul_fin, round64_of_pos (13) 5498107894693888] <;> norm_num
  have h4 : sub (JSNum.fin 24700) (JSNum.fin 10001) = JSNum.fin 14699 := by
    rw [sub_fin, round64_of_pos (13) 8080860708339712] <;> norm_num
  have h5 : sub (JSNum.fin ((4067973120445645 : ℚ) / 2199023255552))
      (JSNum.fin (-((1072078812662989 : ℚ) / 549755813888))) =
        JSNum.fin ((8356288371097601 : ℚ) / 2199023255552) := by
    rw [sub_fin, round64_of_pos (11) 8356288371097601] <;> norm_num
  have hclosed : sub (sub (mul (lit 10) (JSNum.fin 2850)) (JSNum.fin 3800))
      (mul (lit 10) (JSNum.fin ((8796972631510221 : ℚ) / 8796093022208))) = JSNum.fin 14699 := by
    rw [lit_10, h1, h2, h3, h4]
  refine ⟨_, hresp, rfl, h5, ?_, rfl, hclosed, ?_⟩
  · show sub (JSNum.fin _) (JSNum.fin _) ≠ JSNum.fin 3800
    rw [h5]
    intro h
    have h' := JSNum.fin.inj h
    norm_num at h'
  · show JSNum.fin _ ≠ sub (sub (mul (lit 10) (JSNum.fin 2850)) (JSNum.fin 3800))
      (mul (lit 10) (JSNum.fin ((8796972631510221 : ℚ) / 8796093022208)))
    rw [hclosed]
    intro h
    have h' := JSNum.fin.inj h
    norm_num at h'

/-- Witness for C19 (amended): 100 tons with Post-combustion capture 85 tons,
and 10 tons of methane with Flaring capture 9 tons; with the default costs
every amount is an integer, and both closed forms hold. -/
theorem capture_profit_binary64_witness :
    (∃ record : CCSRecord,
      calculateCCS true (ccsRequest 100 (JSVal.str "Post-combustion")) =
        Response.ok 200 record ∧
      record.carbonCreditRevenue = JSNum.fin ((127500 : ℤ) : ℚ) ∧
      record.installationCost = JSNum.fin ((170000 : ℤ) : ℚ) ∧
      record.maintenanceCost = JSNum.fin ((10000000 : ℤ) : ℚ) ∧
      record.totalProfitForTenYears =
        sub (sub (mul (lit 10) record.carbonCreditRevenue) record.installationCost)
          (mul (lit 10) record.maintenanceCost) ∧
      sub record.annualNetProfit record.netProfitForFirstYear = record.installationCost) ∧
    (∃ record : MCSRecord,
      calculateMCS true (mcsRequest 10 (JSVal.str "Flaring")) = Response.ok 200 record ∧
      record.totalRevenue = JSNum.fin ((342000 : ℤ) : ℚ) ∧
      record.installationCost = JSNum.fin ((27000 : ℤ) : ℚ) ∧
      record.maintenanceCost = JSNum.fin ((10000000 : ℤ) : ℚ) ∧
      record.totalProfitForTenYears =
        sub (sub (mul (lit 10) record.totalRevenue) record.installationCost)
          (mul (lit 10) record.maintenanceCost) ∧
      sub record.annualNetProfit record.netProfitForFirstYear = record.installationCost) := by
  obtain ⟨c1, c2, c3, c4, hc⟩ := ccsRequest_postCombustion_100
  obtain ⟨m1, m2, m3, m4, hm⟩ := mcsRequest_flaring_10
  obtain ⟨r, hr, _, _, _, hint⟩ := capture_profit_binary64.1 _ _ _ _ _ c1 c2 c3 c4
  obtain ⟨s, hs, _, _, _, hint'⟩ := capture_profit_binary64.2 _ _ _ _ _ m1 m2 m3 m4
  rw [hc] at hr
  rw [hm] at hs
  cases hr
  cases hs
  have e1 : (JSNum.fin 127500 : JSNum) = JSNum.fin ((127500 : ℤ) : ℚ) := by norm_num
  have e2 : (JSNum.fin 170000 : JSNum) = JSNum.fin ((170000 : ℤ) : ℚ) := by norm_num
  have e3 : (JSNum.fin 10000000 : JSNum) = JSNum.fin ((10000000 : ℤ) : ℚ) := by norm_num
  have e4 : (JSNum.fin 342000 : JSNum) = JSNum.fin ((342000 : ℤ) : ℚ) := by norm_num
  have e5 : (JSNum.fin 27000 : JSNum) = JSNum.fin ((27000 : ℤ) : ℚ) := by norm_num
  exact ⟨⟨_, hc, e1, e2, e3, hint 127500 170000 10000000 e1 e2 e3 (by norm_num)⟩,
    ⟨_, hm, e4, e5, e3, hint' 342000 27000 10000000 e4 e5 e3 (by norm_num)⟩⟩

end Binary64

end GreenMines
